import Mathlib

/-!
# Error reporting macros, handler chain and call-site idioms

Shallow embedding of `core/error/error_macros.hpp` (and the helpers of
`core/typedefs.hpp` it relies on).

* A call of one of the reporting functions declared in the header
  (`_error_print_error`, `_error_print_index_error`, `_error_flush_stdout`) or
  of `GENERATE_TRAP()` is recorded as a `Call`, with the arguments the macro
  hands over (default arguments written out).
* A macro use `M(...);` executed once is a `Step`: the calls it made, in
  order, and how control leaves it (`Flow`). Most macros end in
  `else ((void)0)`, which the `;` written after the macro use completes: when
  the guard holds, control goes on to the next statement. Thirteen index
  macros and `DEV_ASSERT` end in `else { ((void)0) }` instead, where the
  expression inside the braces has no `;`: a use of one of them is not a
  statement and does not compile (`Flow.ill_formed`).
* A macro argument is given by its value and, where the macro stringifies it
  with `_STR`, by the string `_STR` makes of it (`str_*`): the spelling of the
  argument after macro replacement (`stringified`).
* The handler chain (`add_error_handler`, `remove_error_handler` and the
  broadcast) is only declared in the header; where its behaviour is needed it
  is modelled from the specification and marked as such.
-/

namespace Engine

/-! ## Data model -/

/-- Category of a report: `enum class ErrorHandlerType`. -/
inductive ErrorHandlerType
  | ERROR_HANDLER_ERROR
  | ERROR_HANDLER_WARNING
  | ERROR_HANDLER_SCRIPT
  | ERROR_HANDLER_SHADER
  deriving DecidableEq, Repr

/-- One registered consumer: `struct ErrorHandlerList`. The address of the
object is its identity (`addr`); the `next` link is the position in the chain. -/
structure ErrorHandlerList where
  addr : Nat
  error_function : Nat
  user_data : Nat
  deriving DecidableEq, Repr

/-- What a handler is called with (`ErrorHandlerFunction` without the user
data): function, file, line, error, explanation, editor notify, type. -/
structure DiagnosticEvent where
  p_function : String
  p_file : String
  p_line : Int
  p_error : String
  p_message : String
  p_editor_notify : Bool
  p_type : ErrorHandlerType
  deriving DecidableEq, Repr

/-- One call of a handler's `error_function` with its `user_data` and an event. -/
structure Invocation where
  handler : ErrorHandlerList
  event : DiagnosticEvent
  deriving DecidableEq, Repr

/-! ## Handler chain -/

/-- Modelled from the spec: the body of `add_error_handler` (declared in
error_macros.hpp, defined nowhere in the sources). Spec 4.1: "inserts `entry`
at the head of the chain"; a duplicate check is "caller's responsibility (not
enforced)". The chain is listed head first. An entry has one `next` link, so a
list stands for a chain only while no entry occurs in it twice; that is what
the caller's rule (`no_double_registration`) keeps. -/
def add_error_handler (p_handler : ErrorHandlerList)
    (error_handler_list : List ErrorHandlerList) : List ErrorHandlerList :=
  p_handler :: error_handler_list

/-- Modelled from the spec: the body of `remove_error_handler` (declared in
error_macros.hpp, defined nowhere in the sources). Spec 4.1: "unlinks `entry`
by identity comparison anywhere in the chain (not only head). If not found, no
effect, no error." -/
def remove_error_handler (p_handler : ErrorHandlerList) :
    List ErrorHandlerList → List ErrorHandlerList
  | [] => []
  | l :: rest =>
    if l.addr = p_handler.addr then rest else l :: remove_error_handler p_handler rest

/-- Modelled from the spec: the broadcast done by the reporting functions
(their bodies are not among the sources). Spec 4.2: "for each registered
handler in head-to-tail order, invoke it with the event and its stored user
context". -/
def broadcast (event : DiagnosticEvent) (error_handler_list : List ErrorHandlerList) :
    List Invocation :=
  error_handler_list.map (fun l => ⟨l, event⟩)

/-- A call on the registry: registration, removal, or a report. -/
inductive RegistryOp
  | add (p_handler : ErrorHandlerList)
  | remove (p_handler : ErrorHandlerList)
  | report (event : DiagnosticEvent)
  deriving DecidableEq, Repr

/-- Effect of one registry call on the chain (a report leaves it alone). -/
def RegistryOp.apply (error_handler_list : List ErrorHandlerList) :
    RegistryOp → List ErrorHandlerList
  | .add h => add_error_handler h error_handler_list
  | .remove h => remove_error_handler h error_handler_list
  | .report _ => error_handler_list

/-- The chain after a sequence of calls (oldest first), from the empty chain. -/
def chain_after (ops : List RegistryOp) : List ErrorHandlerList :=
  ops.foldl RegistryOp.apply []

/-- The invocations made by every report of a sequence of calls, one list per
report, in the order of the reports. -/
def run_registry : List ErrorHandlerList → List RegistryOp → List (List Invocation)
  | _, [] => []
  | chain, .report ev :: ops => broadcast ev chain :: run_registry chain ops
  | chain, op :: ops => run_registry (op.apply chain) ops

/-- Reference reading of "the handlers registered at that moment, most
recently registered first", computed from the history alone (newest call
first): a handler is registered when the newest call that names it is an
`add`, and handlers are listed by the time of that `add`, newest first.
`decided` holds the addresses already settled by a newer call. -/
def registered_newest_first : List RegistryOp → List Nat → List ErrorHandlerList
  | [], _ => []
  | .add h :: older, decided =>
    if h.addr ∈ decided then registered_newest_first older decided
    else h :: registered_newest_first older (h.addr :: decided)
  | .remove h :: older, decided => registered_newest_first older (h.addr :: decided)
  | .report _ :: older, decided => registered_newest_first older decided

/-- The handlers registered after the calls `ops` (oldest first), by the
reference reading. -/
def registered (ops : List RegistryOp) : List ErrorHandlerList :=
  registered_newest_first ops.reverse []

/-- Caller discipline of the spec ("an entry must not be registered twice"):
in the history (newest call first) no `add` names a handler that is registered
at that time. -/
def no_double_registration_newest_first : List RegistryOp → Prop
  | [] => True
  | .add h :: older =>
    h.addr ∉ (registered_newest_first older []).map ErrorHandlerList.addr
      ∧ no_double_registration_newest_first older
  | _ :: older => no_double_registration_newest_first older

/-- Caller discipline for a sequence of calls given oldest first. -/
def no_double_registration (ops : List RegistryOp) : Prop :=
  no_double_registration_newest_first ops.reverse


/-! ## Calls made by the macros and control flow -/

/-- The place a macro is expanded at: `FUNCTION_STR`, `__FILE__`, `__LINE__`. -/
structure CallSite where
  FUNCTION_STR : String
  FILE : String
  LINE : Int
  deriving DecidableEq, Repr

/-- A call made by a macro expansion, with the arguments handed over.
`print_error` stands for the overloads of `_error_print_error` (`p_message` is
`none` for the overloads without a message parameter), `print_index_error` for
those of `_error_print_index_error`. -/
inductive Call
  | print_error (site : CallSite) (p_error : String) (p_message : Option String)
      (p_editor_notify : Bool) (p_type : ErrorHandlerType)
  | print_index_error (site : CallSite) (p_index p_size : Int)
      (p_index_str p_size_str : String) (p_message : String)
      (p_editor_notify : Bool) (fatal : Bool)
  | flush_stdout
  | trap
  deriving DecidableEq, Repr

/-- How control leaves a statement: on to the next statement, `return;`,
`return m_retval;`, `continue;`, `break;`, or never (after `GENERATE_TRAP()`).
`ill_formed` stands for a text that is not a statement of the language: the
function that contains it does not compile, so it is never executed. -/
inductive Flow (R : Type)
  | next
  | ret
  | retv (m_retval : R)
  | continue_
  | break_
  | trapped
  | ill_formed
  deriving DecidableEq, Repr

/-- One execution of a statement: the calls made, in order, and the way
control leaves it. -/
structure Step (R : Type) where
  calls : List Call
  flow : Flow R
  deriving DecidableEq, Repr

/-- Conversion of an integer argument to an `int64_t` parameter (two's
complement wrap; the identity on values that fit). -/
def int64_t (v : Int) : Int := (v + 2 ^ 63) % 2 ^ 64 - 2 ^ 63

/-- The null pointer value. -/
def nullptr : Nat := 0

/-- Branch hint `unlikely(x)`: `__builtin_expect(!!(x), 0)`, or `x` itself. -/
def unlikely (x : Bool) : Bool := x

/-- A macro use `M(...);` whose replacement text is
`if (m_cond) { body } else { ((void)0) }`. The expression `((void)0)` inside
the braces is not followed by `;` (the `;` written after the macro use comes
after the closing brace), so the text is not a statement: whatever the guard
and the body are, the use does not compile and nothing is executed. -/
def if_else_braced {R : Type} (_m_cond : Bool) (_body : Step R) : Step R :=
  ⟨[], Flow.ill_formed⟩

/-- A call of `_error_print_error(FUNCTION_STR, __FILE__, __LINE__, p_error
[, p_message] [, p_editor_notify [, p_type]])`. The declared defaults are
`p_editor_notify = false` and `p_type = ERROR_HANDLER_ERROR`; a macro that
leaves an argument out is translated with the default written out, and
`p_message` is `none` when the macro passes no message. -/
def _error_print_error (site : CallSite) (p_error : String) (p_message : Option String)
    (p_editor_notify : Bool) (p_type : ErrorHandlerType) : Call :=
  Call.print_error site p_error p_message p_editor_notify p_type

/-- A call of `_error_print_index_error(FUNCTION_STR, __FILE__, __LINE__,
p_index, p_size, p_index_str, p_size_str [, p_message [, p_editor_notify
[, fatal]]])`. The declared defaults are `p_message = ""`,
`p_editor_notify = false`, `fatal = false`; `p_index` and `p_size` are
`int64_t` parameters. -/
def _error_print_index_error (site : CallSite) (p_index p_size : Int)
    (p_index_str p_size_str : String) (p_message : String)
    (p_editor_notify : Bool) (fatal : Bool) : Call :=
  Call.print_index_error site (int64_t p_index) (int64_t p_size) p_index_str p_size_str
    p_message p_editor_notify fatal

/-- `_error_flush_stdout()`. -/
def _error_flush_stdout : Call := Call.flush_stdout

/-- `GENERATE_TRAP()`: `__debugbreak()` or `__builtin_trap()`. -/
def GENERATE_TRAP : Call := Call.trap

/-- Modelled from the spec: the constant `ERR_HANDLER_WARNING` the `WARNING_*`
macros pass as `p_type`; the sources declare no such name. Spec 4.2: "category
Error unless the idiom is a warning variant". -/
def ERR_HANDLER_WARNING : ErrorHandlerType := ErrorHandlerType.ERROR_HANDLER_WARNING

/-- Whether a call is a report (`_error_print_error` or `_error_print_index_error`). -/
def Call.is_report : Call → Bool
  | .print_error _ _ _ _ _ => true
  | .print_index_error _ _ _ _ _ _ _ _ => true
  | .flush_stdout => false
  | .trap => false

/-- Primary message of a `_error_print_error` call. -/
def Call.p_error : Call → Option String
  | .print_error _ e _ _ _ => some e
  | _ => none

/-! ## Index out of bounds macros (signed index) -/

/-- `ERROR_FAIL_INDEX(m_index, m_size)`: ensures `0 <= m_index < m_size`; on failure `return;`.
The replacement text ends in `else { ((void)0) }`: a use is not a statement. -/
def ERROR_FAIL_INDEX {R : Type} (site : CallSite) (m_index m_size : Int)
    (str_index str_size : String) :
    Step R :=
  if_else_braced (unlikely (decide (m_index < 0) || decide (m_index ≥ m_size)))
    ⟨[_error_print_index_error site m_index m_size str_index str_size "" false false], Flow.ret⟩

/-- `ERROR_FAIL_INDEX_MSG(m_index, m_size, m_msg)`.
The replacement text ends in `else { ((void)0) }`: a use is not a statement. -/
def ERROR_FAIL_INDEX_MSG {R : Type} (site : CallSite) (m_index m_size : Int)
    (str_index str_size : String) (m_msg : String) :
    Step R :=
  if_else_braced (unlikely (decide (m_index < 0) || decide (m_index ≥ m_size)))
    ⟨[_error_print_index_error site m_index m_size str_index str_size m_msg false false], Flow.ret⟩

/-- `ERROR_FAIL_INDEX_EDMSG(m_index, m_size, m_msg)`: also notifies the editor.
The replacement text ends in `else { ((void)0) }`: a use is not a statement. -/
def ERROR_FAIL_INDEX_EDMSG {R : Type} (site : CallSite) (m_index m_size : Int)
    (str_index str_size : String) (m_msg : String) :
    Step R :=
  if_else_braced (unlikely (decide (m_index < 0) || decide (m_index ≥ m_size)))
    ⟨[_error_print_index_error site m_index m_size str_index str_size m_msg true false], Flow.ret⟩

/-- `ERROR_FAIL_INDEX_V(m_index, m_size, m_retval)`: on failure `return m_retval;`.
The replacement text ends in `else { ((void)0) }`: a use is not a statement. -/
def ERROR_FAIL_INDEX_V {R : Type} (site : CallSite) (m_index m_size : Int)
    (str_index str_size : String) (m_retval : R) :
    Step R :=
  if_else_braced (unlikely (decide (m_index < 0) || decide (m_index ≥ m_size)))
    ⟨[_error_print_index_error site m_index m_size str_index str_size "" false false],
      Flow.retv m_retval⟩

/-- `ERROR_FAIL_INDEX_V_MSG(m_index, m_size, m_retval, m_msg)`.
The replacement text ends in `else { ((void)0) }`: a use is not a statement. -/
def ERROR_FAIL_INDEX_V_MSG {R : Type} (site : CallSite) (m_index m_size : Int)
    (str_index str_size : String) (m_retval : R) (m_msg : String) :
    Step R :=
  if_else_braced (unlikely (decide (m_index < 0) || decide (m_index ≥ m_size)))
    ⟨[_error_print_index_error site m_index m_size str_index str_size m_msg false false],
      Flow.retv m_retval⟩

/-- `ERROR_FAIL_INDEX_V_EDMSG(m_index, m_size, m_retval, m_msg)`.
The replacement text ends in `else { ((void)0) }`: a use is not a statement. -/
def ERROR_FAIL_INDEX_V_EDMSG {R : Type} (site : CallSite) (m_index m_size : Int)
    (str_index str_size : String) (m_retval : R) (m_msg : String) :
    Step R :=
  if_else_braced (unlikely (decide (m_index < 0) || decide (m_index ≥ m_size)))
    ⟨[_error_print_index_error site m_index m_size str_index str_size m_msg true false],
      Flow.retv m_retval⟩

/-- `CRASH_BAD_INDEX(m_index, m_size)`: on failure the application crashes.
The replacement text ends in `else { ((void)0) }`: a use is not a statement. -/
def CRASH_BAD_INDEX {R : Type} (site : CallSite) (m_index m_size : Int)
    (str_index str_size : String) :
    Step R :=
  if_else_braced (unlikely (decide (m_index < 0) || decide (m_index ≥ m_size)))
    ⟨[_error_print_index_error site m_index m_size str_index str_size "" false true,
      _error_flush_stdout, GENERATE_TRAP], Flow.trapped⟩

/-- `CRASH_BAD_INDEX_MSG(m_index, m_size, m_msg)`.
The replacement text ends in `else { ((void)0) }`: a use is not a statement. -/
def CRASH_BAD_INDEX_MSG {R : Type} (site : CallSite) (m_index m_size : Int)
    (str_index str_size : String) (m_msg : String) :
    Step R :=
  if_else_braced (unlikely (decide (m_index < 0) || decide (m_index ≥ m_size)))
    ⟨[_error_print_index_error site m_index m_size str_index str_size m_msg false true,
      _error_flush_stdout, GENERATE_TRAP], Flow.trapped⟩

/-! ## Index out of bounds macros (unsigned index) -/

/-- `ERROR_FAIL_UNSIGNED_INDEX(m_index, m_size)`: ensures `m_index < m_size`; on failure
`return;`.
The replacement text ends in `else { ((void)0) }`: a use is not a statement. -/
def ERROR_FAIL_UNSIGNED_INDEX {R : Type} (site : CallSite) (m_index m_size : Nat)
    (str_index str_size : String) :
    Step R :=
  if_else_braced (unlikely (decide (m_index ≥ m_size)))
    ⟨[_error_print_index_error site (m_index : Int) (m_size : Int) str_index str_size
      "" false false], Flow.ret⟩

/-- `ERROR_FAIL_UNSIGNED_INDEX_MSG(m_index, m_size, m_msg)`.
The replacement text ends in `else { ((void)0) }`: a use is not a statement. -/
def ERROR_FAIL_UNSIGNED_INDEX_MSG {R : Type} (site : CallSite) (m_index m_size : Nat)
    (str_index str_size : String) (m_msg : String) :
    Step R :=
  if_else_braced (unlikely (decide (m_index ≥ m_size)))
    ⟨[_error_print_index_error site (m_index : Int) (m_size : Int) str_index str_size
      m_msg false false], Flow.ret⟩

/-- `ERROR_FAIL_UNSIGNED_INDEX_EDMSG(m_index, m_size, m_msg)`: also notifies the editor.
The replacement text ends in `else { ((void)0) }`: a use is not a statement. -/
def ERROR_FAIL_UNSIGNED_INDEX_EDMSG {R : Type} (site : CallSite) (m_index m_size : Nat)
    (str_index str_size : String) (m_msg : String) :
    Step R :=
  if_else_braced (unlikely (decide (m_index ≥ m_size)))
    ⟨[_error_print_index_error site (m_index : Int) (m_size : Int) str_index str_size
      m_msg true false], Flow.ret⟩

/-- `ERROR_FAIL_UNSIGNED_INDEX_V(m_index, m_size, m_retval)`: on failure `return m_retval;`.
The replacement text ends in `else { ((void)0) }`: a use is not a statement. -/
def ERROR_FAIL_UNSIGNED_INDEX_V {R : Type} (site : CallSite) (m_index m_size : Nat)
    (str_index str_size : String) (m_retval : R) :
    Step R :=
  if_else_braced (unlikely (decide (m_index ≥ m_size)))
    ⟨[_error_print_index_error site (m_index : Int) (m_size : Int) str_index str_size
      "" false false], Flow.retv m_retval⟩

/-- `ERROR_FAIL_UNSIGNED_INDEX_V_MSG(m_index, m_size, m_retval, m_msg)`.
The replacement text ends in `else { ((void)0) }`: a use is not a statement. -/
def ERROR_FAIL_UNSIGNED_INDEX_V_MSG {R : Type} (site : CallSite) (m_index m_size : Nat)
    (str_index str_size : String) (m_retval : R) (m_msg : String) :
    Step R :=
  if_else_braced (unlikely (decide (m_index ≥ m_size)))
    ⟨[_error_print_index_error site (m_index : Int) (m_size : Int) str_index str_size
      m_msg false false], Flow.retv m_retval⟩

/-- `ERROR_FAIL_UNSIGNED_INDEX_V_EDMSG(m_index, m_size, m_retval, m_msg)`. -/
def ERROR_FAIL_UNSIGNED_INDEX_V_EDMSG {R : Type} (site : CallSite) (m_index m_size : Nat)
    (str_index str_size : String) (m_retval : R) (m_msg : String) :
    Step R :=
  if unlikely (decide (m_index ≥ m_size)) then
    ⟨[_error_print_index_error site (m_index : Int) (m_size : Int) str_index str_size
      m_msg true false], Flow.retv m_retval⟩
  else ⟨[], Flow.next⟩

/-- `CRASH_BAD_UNSIGNED_INDEX(m_index, m_size)`: on failure the application crashes. -/
def CRASH_BAD_UNSIGNED_INDEX {R : Type} (site : CallSite) (m_index m_size : Nat)
    (str_index str_size : String) :
    Step R :=
  if unlikely (decide (m_index ≥ m_size)) then
    ⟨[_error_print_index_error site (m_index : Int) (m_size : Int) str_index str_size
      "" false true,
      _error_flush_stdout, GENERATE_TRAP], Flow.trapped⟩
  else ⟨[], Flow.next⟩

/-- `CRASH_BAD_UNSIGNED_INDEX_MSG(m_index, m_size, m_msg)`. -/
def CRASH_BAD_UNSIGNED_INDEX_MSG {R : Type} (site : CallSite) (m_index m_size : Nat)
    (str_index str_size : String) (m_msg : String) :
    Step R :=
  if unlikely (decide (m_index ≥ m_size)) then
    ⟨[_error_print_index_error site (m_index : Int) (m_size : Int) str_index str_size
      m_msg false true,
      _error_flush_stdout, GENERATE_TRAP], Flow.trapped⟩
  else ⟨[], Flow.next⟩

/-! ## Null reference macros -/

/-- `ERROR_FAIL_NULL`: if `m_param == nullptr`, `return;`. -/
def ERROR_FAIL_NULL {R : Type} (site : CallSite) (m_param : Nat) (str_param : String) :
    Step R :=
  if unlikely (decide (m_param = nullptr)) then
    ⟨[_error_print_error site
      ("Parameter \"" ++ str_param ++ "\" is null.") none false .ERROR_HANDLER_ERROR], Flow.ret⟩
  else ⟨[], Flow.next⟩

/-- `ERROR_FAIL_NULL_MSG`. -/
def ERROR_FAIL_NULL_MSG {R : Type} (site : CallSite) (m_param : Nat) (str_param : String)
    (m_msg : String) :
    Step R :=
  if unlikely (decide (m_param = nullptr)) then
    ⟨[_error_print_error site
      ("Parameter \"" ++ str_param ++ "\" is null.") (some m_msg) false .ERROR_HANDLER_ERROR],
        Flow.ret⟩
  else ⟨[], Flow.next⟩

/-- `ERROR_FAIL_NULL_EDMSG`: also notifies the editor. -/
def ERROR_FAIL_NULL_EDMSG {R : Type} (site : CallSite) (m_param : Nat) (str_param : String)
    (m_msg : String) :
    Step R :=
  if unlikely (decide (m_param = nullptr)) then
    ⟨[_error_print_error site
      ("Parameter \"" ++ str_param ++ "\" is null.") (some m_msg) true .ERROR_HANDLER_ERROR],
        Flow.ret⟩
  else ⟨[], Flow.next⟩

/-- `ERROR_FAIL_NULL_V`: if `m_param == nullptr`, `return m_retval;`. -/
def ERROR_FAIL_NULL_V {R : Type} (site : CallSite) (m_param : Nat) (str_param : String)
    (m_retval : R) :
    Step R :=
  if unlikely (decide (m_param = nullptr)) then
    ⟨[_error_print_error site
      ("Parameter \"" ++ str_param ++ "\" is null.") none false .ERROR_HANDLER_ERROR],
      Flow.retv m_retval⟩
  else ⟨[], Flow.next⟩

/-- `ERROR_FAIL_NULL_V_MSG`. -/
def ERROR_FAIL_NULL_V_MSG {R : Type} (site : CallSite) (m_param : Nat) (str_param : String)
    (m_retval : R) (m_msg : String) :
    Step R :=
  if unlikely (decide (m_param = nullptr)) then
    ⟨[_error_print_error site
      ("Parameter \"" ++ str_param ++ "\" is null.") (some m_msg) false .ERROR_HANDLER_ERROR],
      Flow.retv m_retval⟩
  else ⟨[], Flow.next⟩

/-- `ERROR_FAIL_NULL_V_EDMSG`. -/
def ERROR_FAIL_NULL_V_EDMSG {R : Type} (site : CallSite) (m_param : Nat) (str_param : String)
    (m_retval : R) (m_msg : String) :
    Step R :=
  if unlikely (decide (m_param = nullptr)) then
    ⟨[_error_print_error site
      ("Parameter \"" ++ str_param ++ "\" is null.") (some m_msg) true .ERROR_HANDLER_ERROR],
      Flow.retv m_retval⟩
  else ⟨[], Flow.next⟩

/-! ## Condition macros -/

/-- `ERROR_FAIL_COND`: if `m_cond` is true, `return;`. -/
def ERROR_FAIL_COND {R : Type} (site : CallSite) (m_cond : Bool) (str_cond : String) :
    Step R :=
  if unlikely (m_cond) then
    ⟨[_error_print_error site
      ("Condition \"" ++ str_cond ++ "\" is true.") none false .ERROR_HANDLER_ERROR], Flow.ret⟩
  else ⟨[], Flow.next⟩

/-- `ERROR_FAIL_COND_MSG`. -/
def ERROR_FAIL_COND_MSG {R : Type} (site : CallSite) (m_cond : Bool) (str_cond : String)
    (m_msg : String) :
    Step R :=
  if unlikely (m_cond) then
    ⟨[_error_print_error site
      ("Condition \"" ++ str_cond ++ "\" is true.") (some m_msg) false .ERROR_HANDLER_ERROR],
        Flow.ret⟩
  else ⟨[], Flow.next⟩

/-- `ERROR_FAIL_COND_EDMSG`: also notifies the editor. -/
def ERROR_FAIL_COND_EDMSG {R : Type} (site : CallSite) (m_cond : Bool) (str_cond : String)
    (m_msg : String) :
    Step R :=
  if unlikely (m_cond) then
    ⟨[_error_print_error site
      ("Condition \"" ++ str_cond ++ "\" is true.") (some m_msg) true .ERROR_HANDLER_ERROR],
        Flow.ret⟩
  else ⟨[], Flow.next⟩

/-- `ERROR_FAIL_COND_V`: if `m_cond` is true, `return m_retval;`. -/
def ERROR_FAIL_COND_V {R : Type} (site : CallSite) (m_cond : Bool) (str_cond : String)
    (m_retval : R) (str_retval : String) :
    Step R :=
  if unlikely (m_cond) then
    ⟨[_error_print_error site
      ("Condition \"" ++ str_cond ++ "\" is true. Returning: " ++ str_retval) none false .ERROR_HANDLER_ERROR],
      Flow.retv m_retval⟩
  else ⟨[], Flow.next⟩

/-- `ERROR_FAIL_COND_V_MSG`. -/
def ERROR_FAIL_COND_V_MSG {R : Type} (site : CallSite) (m_cond : Bool) (str_cond : String)
    (m_retval : R) (str_retval : String) (m_msg : String) :
    Step R :=
  if unlikely (m_cond) then
    ⟨[_error_print_error site
      ("Condition \"" ++ str_cond ++ "\" is true. Returning: " ++ str_retval) (some m_msg) false .ERROR_HANDLER_ERROR],
      Flow.retv m_retval⟩
  else ⟨[], Flow.next⟩

/-- `ERROR_FAIL_COND_V_EDMSG`. -/
def ERROR_FAIL_COND_V_EDMSG {R : Type} (site : CallSite) (m_cond : Bool) (str_cond : String)
    (m_retval : R) (str_retval : String) (m_msg : String) :
    Step R :=
  if unlikely (m_cond) then
    ⟨[_error_print_error site
      ("Condition \"" ++ str_cond ++ "\" is true. Returning: " ++ str_retval) (some m_msg) true .ERROR_HANDLER_ERROR],
      Flow.retv m_retval⟩
  else ⟨[], Flow.next⟩

/-- `ERROR_CONTINUE(m_cond)`: if `m_cond` is true, the current loop continues. -/
def ERROR_CONTINUE {R : Type} (site : CallSite) (m_cond : Bool) (str_cond : String) :
    Step R :=
  if unlikely (m_cond) then
    ⟨[_error_print_error site
      ("Condition \"" ++ str_cond ++ "\" is true. Continuing.") none false .ERROR_HANDLER_ERROR],
        Flow.continue_⟩
  else ⟨[], Flow.next⟩

/-- `ERROR_CONTINUE_MSG(m_cond, m_msg)`. -/
def ERROR_CONTINUE_MSG {R : Type} (site : CallSite) (m_cond : Bool) (str_cond : String)
    (m_msg : String) :
    Step R :=
  if unlikely (m_cond) then
    ⟨[_error_print_error site
      ("Condition \"" ++ str_cond ++ "\" is true. Continuing.") (some m_msg) false .ERROR_HANDLER_ERROR],
        Flow.continue_⟩
  else ⟨[], Flow.next⟩

/-- `ERROR_CONTINUE_EDMSG(m_cond, m_msg)`. -/
def ERROR_CONTINUE_EDMSG {R : Type} (site : CallSite) (m_cond : Bool) (str_cond : String)
    (m_msg : String) :
    Step R :=
  if unlikely (m_cond) then
    ⟨[_error_print_error site
      ("Condition \"" ++ str_cond ++ "\" is true. Continuing.") (some m_msg) true .ERROR_HANDLER_ERROR],
        Flow.continue_⟩
  else ⟨[], Flow.next⟩

/-- `ERROR_BREAK(m_cond)`: if `m_cond` is true, the current loop breaks. -/
def ERROR_BREAK {R : Type} (site : CallSite) (m_cond : Bool) (str_cond : String) :
    Step R :=
  if unlikely (m_cond) then
    ⟨[_error_print_error site
      ("Condition \"" ++ str_cond ++ "\" is true. Breaking.") none false .ERROR_HANDLER_ERROR],
        Flow.break_⟩
  else ⟨[], Flow.next⟩

/-- `ERROR_BREAK_MSG(m_cond, m_msg)`. -/
def ERROR_BREAK_MSG {R : Type} (site : CallSite) (m_cond : Bool) (str_cond : String)
    (m_msg : String) :
    Step R :=
  if unlikely (m_cond) then
    ⟨[_error_print_error site
      ("Condition \"" ++ str_cond ++ "\" is true. Breaking.") (some m_msg) false .ERROR_HANDLER_ERROR],
        Flow.break_⟩
  else ⟨[], Flow.next⟩

/-- `ERROR_BREAK_EDMSG(m_cond, m_msg)`. -/
def ERROR_BREAK_EDMSG {R : Type} (site : CallSite) (m_cond : Bool) (str_cond : String)
    (m_msg : String) :
    Step R :=
  if unlikely (m_cond) then
    ⟨[_error_print_error site
      ("Condition \"" ++ str_cond ++ "\" is true. Breaking.") (some m_msg) true .ERROR_HANDLER_ERROR],
        Flow.break_⟩
  else ⟨[], Flow.next⟩

/-- `CRASH_COND(m_cond)`: if `m_cond` is true, the application crashes. -/
def CRASH_COND {R : Type} (site : CallSite) (m_cond : Bool) (str_cond : String) :
    Step R :=
  if unlikely (m_cond) then
    ⟨[_error_print_error site
      ("FATAL: Condition \"" ++ str_cond ++ "\" is true.") none false .ERROR_HANDLER_ERROR,
      _error_flush_stdout, GENERATE_TRAP], Flow.trapped⟩
  else ⟨[], Flow.next⟩

/-- `CRASH_COND_MSG(m_cond, m_msg)`. -/
def CRASH_COND_MSG {R : Type} (site : CallSite) (m_cond : Bool) (str_cond : String)
    (m_msg : String) :
    Step R :=
  if unlikely (m_cond) then
    ⟨[_error_print_error site
      ("FATAL: Condition \"" ++ str_cond ++ "\" is true.") (some m_msg) false .ERROR_HANDLER_ERROR,
      _error_flush_stdout, GENERATE_TRAP], Flow.trapped⟩
  else ⟨[], Flow.next⟩

/-! ## Generic error macros -/

/-- `ERROR_FAIL`: unconditional `return;`. -/
def ERROR_FAIL {R : Type} (site : CallSite) :
    Step R :=
  if true then
    ⟨[_error_print_error site
      ("Method/function failed.") none false .ERROR_HANDLER_ERROR], Flow.ret⟩
  else ⟨[], Flow.next⟩

/-- `ERROR_FAIL_MSG`. -/
def ERROR_FAIL_MSG {R : Type} (site : CallSite) (m_msg : String) :
    Step R :=
  if true then
    ⟨[_error_print_error site
      ("Method/function failed.") (some m_msg) false .ERROR_HANDLER_ERROR], Flow.ret⟩
  else ⟨[], Flow.next⟩

/-- `ERROR_FAIL_EDMSG`: also notifies the editor. -/
def ERROR_FAIL_EDMSG {R : Type} (site : CallSite) (m_msg : String) :
    Step R :=
  if true then
    ⟨[_error_print_error site
      ("Method/function failed.") (some m_msg) true .ERROR_HANDLER_ERROR], Flow.ret⟩
  else ⟨[], Flow.next⟩

/-- `ERROR_FAIL_V`: unconditional `return m_retval;`. -/
def ERROR_FAIL_V {R : Type} (site : CallSite) (m_retval : R) (str_retval : String) :
    Step R :=
  if true then
    ⟨[_error_print_error site
      ("Method/function failed. Returning: " ++ str_retval) none false .ERROR_HANDLER_ERROR],
      Flow.retv m_retval⟩
  else ⟨[], Flow.next⟩

/-- `ERROR_FAIL_V_MSG`. -/
def ERROR_FAIL_V_MSG {R : Type} (site : CallSite) (m_retval : R) (str_retval : String)
    (m_msg : String) :
    Step R :=
  if true then
    ⟨[_error_print_error site
      ("Method/function failed. Returning: " ++ str_retval) (some m_msg) false .ERROR_HANDLER_ERROR],
      Flow.retv m_retval⟩
  else ⟨[], Flow.next⟩

/-- `ERROR_FAIL_V_EDMSG`. -/
def ERROR_FAIL_V_EDMSG {R : Type} (site : CallSite) (m_retval : R) (str_retval : String)
    (m_msg : String) :
    Step R :=
  if true then
    ⟨[_error_print_error site
      ("Method/function failed. Returning: " ++ str_retval) (some m_msg) true .ERROR_HANDLER_ERROR],
      Flow.retv m_retval⟩
  else ⟨[], Flow.next⟩

/-! ## Print, warning and crash-now macros -/

/-- `ERROR_PRINT(m_msg)`: prints `m_msg`. -/
def ERROR_PRINT {R : Type} (site : CallSite) (m_msg : String) : Step R :=
  ⟨[_error_print_error site m_msg none false .ERROR_HANDLER_ERROR], Flow.next⟩

/-- `ERROR_PRINT_ED(m_msg)`: also notifies the editor. -/
def ERROR_PRINT_ED {R : Type} (site : CallSite) (m_msg : String) : Step R :=
  ⟨[_error_print_error site m_msg none true .ERROR_HANDLER_ERROR], Flow.next⟩

/-- `ERROR_PRINT_ONCE(m_msg)`. `first_print` is the value of the call site's
`static bool first_print = true;` on entry; the result carries its value on
exit. -/
def ERROR_PRINT_ONCE {R : Type} (site : CallSite) (m_msg : String) (first_print : Bool) :
    Step R × Bool :=
  if true then
    if first_print then
      (⟨[_error_print_error site m_msg none false .ERROR_HANDLER_ERROR], Flow.next⟩, false)
    else (⟨[], Flow.next⟩, first_print)
  else (⟨[], Flow.next⟩, first_print)

/-- `ERROR_PRINT_ONCE_ED(m_msg)`: also notifies the editor. -/
def ERROR_PRINT_ONCE_ED {R : Type} (site : CallSite) (m_msg : String) (first_print : Bool) :
    Step R × Bool :=
  if true then
    if first_print then
      (⟨[_error_print_error site m_msg none true .ERROR_HANDLER_ERROR], Flow.next⟩, false)
    else (⟨[], Flow.next⟩, first_print)
  else (⟨[], Flow.next⟩, first_print)

/-- `WARNING_PRINT(m_msg)`. -/
def WARNING_PRINT {R : Type} (site : CallSite) (m_msg : String) : Step R :=
  ⟨[_error_print_error site m_msg none false ERR_HANDLER_WARNING], Flow.next⟩

/-- `WARNING_PRINT_ED(m_msg)`: also notifies the editor. -/
def WARNING_PRINT_ED {R : Type} (site : CallSite) (m_msg : String) : Step R :=
  ⟨[_error_print_error site m_msg none true ERR_HANDLER_WARNING], Flow.next⟩

/-- `WARNING_PRINT_ONCE(m_msg)`, with the call site's `static bool first_print`. -/
def WARNING_PRINT_ONCE {R : Type} (site : CallSite) (m_msg : String) (first_print : Bool) :
    Step R × Bool :=
  if true then
    if first_print then
      (⟨[_error_print_error site m_msg none false ERR_HANDLER_WARNING], Flow.next⟩, false)
    else (⟨[], Flow.next⟩, first_print)
  else (⟨[], Flow.next⟩, first_print)

/-- `WARNING_PRINT_ONCE_ED(m_msg)`: also notifies the editor. -/
def WARNING_PRINT_ONCE_ED {R : Type} (site : CallSite) (m_msg : String) (first_print : Bool) :
    Step R × Bool :=
  if true then
    if first_print then
      (⟨[_error_print_error site m_msg none true ERR_HANDLER_WARNING], Flow.next⟩, false)
    else (⟨[], Flow.next⟩, first_print)
  else (⟨[], Flow.next⟩, first_print)

/-- Modelled from the spec: the macro `WARN_PRINT` that `WARNING_VERBOSE`
expands to; the sources define no macro of that name. Spec 4.2, "plain
report": "broadcast", "category Error unless the idiom is a warning variant";
it is taken to be the plain warning print. -/
def WARN_PRINT {R : Type} (site : CallSite) (m_msg : String) : Step R :=
  WARNING_PRINT site m_msg

/-- `WARNING_VERBOSE(m_msg)`: warns only when verbose mode is enabled.
`is_print_verbose_enabled` is the value returned by the function of that name
(not among the sources). -/
def WARNING_VERBOSE {R : Type} (site : CallSite) (is_print_verbose_enabled : Bool)
    (m_msg : String) : Step R :=
  if is_print_verbose_enabled then WARN_PRINT site m_msg else ⟨[], Flow.next⟩

/-- The text of the deprecation warning. -/
def deprecated_text : String :=
  "This method has been deprecated and will be removed in the future."

/-- `WARNING_DEPRECATED`. `warning_shown` is the value of the call site's
`static std::atomic<bool> warning_shown;` (initially false) on entry; the
result carries its value on exit. -/
def WARNING_DEPRECATED {R : Type} (site : CallSite) (warning_shown : Bool) : Step R × Bool :=
  if true then
    if !warning_shown then
      (⟨[_error_print_error site deprecated_text none false ERR_HANDLER_WARNING], Flow.next⟩,
        true)
    else (⟨[], Flow.next⟩, warning_shown)
  else (⟨[], Flow.next⟩, warning_shown)

/-- `WARNING_DEPRECATED_MSG(m_msg)`: also prints `m_msg`. -/
def WARNING_DEPRECATED_MSG {R : Type} (site : CallSite) (m_msg : String)
    (warning_shown : Bool) : Step R × Bool :=
  if true then
    if !warning_shown then
      (⟨[_error_print_error site deprecated_text (some m_msg) false ERR_HANDLER_WARNING],
        Flow.next⟩, true)
    else (⟨[], Flow.next⟩, warning_shown)
  else (⟨[], Flow.next⟩, warning_shown)

/-- `CRASH_NOW()`: the application crashes. -/
def CRASH_NOW {R : Type} (site : CallSite) : Step R :=
  if true then
    ⟨[_error_print_error site "FATAL: Method/function failed." none false .ERROR_HANDLER_ERROR,
      _error_flush_stdout, GENERATE_TRAP], Flow.trapped⟩
  else ⟨[], Flow.next⟩

/-- `CRASH_NOW_MSG(m_msg)`: prints `m_msg`, and then the application crashes. -/
def CRASH_NOW_MSG {R : Type} (site : CallSite) (m_msg : String) : Step R :=
  if true then
    ⟨[_error_print_error site "FATAL: Method/function failed." (some m_msg) false
        .ERROR_HANDLER_ERROR,
      _error_flush_stdout, GENERATE_TRAP], Flow.trapped⟩
  else ⟨[], Flow.next⟩

/-! ## Statements around a macro -/

/-- Sequencing `s; rest`, where `rest` is an execution of the statements that
follow: they run exactly when control leaves `s` to the next statement. -/
def Step.seq {R : Type} (s rest : Step R) : Step R :=
  match s.flow with
  | Flow.next => ⟨s.calls ++ rest.calls, rest.flow⟩
  | _ => s

/-- The reports among the calls of a trace. -/
def reports (calls : List Call) : List Call := calls.filter Call.is_report

/-- Executing one call site `n` times in sequence. `stmt` is the statement as
a function of its static variable; the steps are listed first execution
first, together with the static variable after the last execution. -/
def execute_times {R : Type} (stmt : Bool → Step R × Bool) : Nat → Bool → List (Step R) × Bool
  | 0, static_var => ([], static_var)
  | n + 1, static_var =>
    let r := stmt static_var
    let later := execute_times stmt n r.2
    (r.1 :: later.1, later.2)

/-- Record of running a loop `for (x : xs) { first(x); rest }`: the calls
made by the first statement of the body over all iterations, the elements for
which the body was entered, the elements for which the rest of the body ran,
and the way control leaves the loop. -/
structure LoopRun (α : Type) (R : Type) where
  calls : List Call
  visited : List α
  rest_executed : List α
  flow : Flow R

/-- A loop over `xs` whose body is the statement `first x` followed by further
statements (which fall through to the next iteration). `continue` skips the
rest of the body, `break` leaves the loop, `return` and a trap leave the
enclosing function. -/
def for_each {α R : Type} (first : α → Step R) : List α → LoopRun α R
  | [] => ⟨[], [], [], Flow.next⟩
  | x :: xs =>
    match (first x).flow with
    | Flow.next =>
      let later := for_each first xs
      ⟨(first x).calls ++ later.calls, x :: later.visited, x :: later.rest_executed, later.flow⟩
    | Flow.continue_ =>
      let later := for_each first xs
      ⟨(first x).calls ++ later.calls, x :: later.visited, later.rest_executed, later.flow⟩
    | Flow.break_ => ⟨(first x).calls, [x], [], Flow.next⟩
    | Flow.ret => ⟨(first x).calls, [x], [], Flow.ret⟩
    | Flow.retv r => ⟨(first x).calls, [x], [], Flow.retv r⟩
    | Flow.trapped => ⟨(first x).calls, [x], [], Flow.trapped⟩
    | Flow.ill_formed => ⟨[], [], [], Flow.ill_formed⟩


/-! ## The idioms as one type -/

/-- A use of one of the macros of error_macros.hpp, with its arguments (the
value of each argument expression and, where the macro stringifies it, the
string `_STR` makes of it). -/
inductive Idiom (R : Type)
  | ERROR_FAIL_INDEX (m_index m_size : Int) (str_index str_size : String)
  | ERROR_FAIL_INDEX_MSG (m_index m_size : Int) (str_index str_size : String) (m_msg : String)
  | ERROR_FAIL_INDEX_EDMSG (m_index m_size : Int) (str_index str_size : String) (m_msg : String)
  | ERROR_FAIL_INDEX_V (m_index m_size : Int) (str_index str_size : String) (m_retval : R)
  | ERROR_FAIL_INDEX_V_MSG (m_index m_size : Int) (str_index str_size : String) (m_retval : R) (m_msg : String)
  | ERROR_FAIL_INDEX_V_EDMSG (m_index m_size : Int) (str_index str_size : String) (m_retval : R) (m_msg : String)
  | CRASH_BAD_INDEX (m_index m_size : Int) (str_index str_size : String)
  | CRASH_BAD_INDEX_MSG (m_index m_size : Int) (str_index str_size : String) (m_msg : String)
  | ERROR_FAIL_UNSIGNED_INDEX (m_index m_size : Nat) (str_index str_size : String)
  | ERROR_FAIL_UNSIGNED_INDEX_MSG (m_index m_size : Nat) (str_index str_size : String) (m_msg : String)
  | ERROR_FAIL_UNSIGNED_INDEX_EDMSG (m_index m_size : Nat) (str_index str_size : String) (m_msg : String)
  | ERROR_FAIL_UNSIGNED_INDEX_V (m_index m_size : Nat) (str_index str_size : String) (m_retval : R)
  | ERROR_FAIL_UNSIGNED_INDEX_V_MSG (m_index m_size : Nat) (str_index str_size : String) (m_retval : R) (m_msg : String)
  | ERROR_FAIL_UNSIGNED_INDEX_V_EDMSG (m_index m_size : Nat) (str_index str_size : String) (m_retval : R) (m_msg : String)
  | CRASH_BAD_UNSIGNED_INDEX (m_index m_size : Nat) (str_index str_size : String)
  | CRASH_BAD_UNSIGNED_INDEX_MSG (m_index m_size : Nat) (str_index str_size : String) (m_msg : String)
  | ERROR_FAIL_NULL (m_param : Nat) (str_param : String)
  | ERROR_FAIL_NULL_MSG (m_param : Nat) (str_param : String) (m_msg : String)
  | ERROR_FAIL_NULL_EDMSG (m_param : Nat) (str_param : String) (m_msg : String)
  | ERROR_FAIL_NULL_V (m_param : Nat) (str_param : String) (m_retval : R)
  | ERROR_FAIL_NULL_V_MSG (m_param : Nat) (str_param : String) (m_retval : R) (m_msg : String)
  | ERROR_FAIL_NULL_V_EDMSG (m_param : Nat) (str_param : String) (m_retval : R) (m_msg : String)
  | ERROR_FAIL_COND (m_cond : Bool) (str_cond : String)
  | ERROR_FAIL_COND_MSG (m_cond : Bool) (str_cond : String) (m_msg : String)
  | ERROR_FAIL_COND_EDMSG (m_cond : Bool) (str_cond : String) (m_msg : String)
  | ERROR_FAIL_COND_V (m_cond : Bool) (str_cond : String) (m_retval : R) (str_retval : String)
  | ERROR_FAIL_COND_V_MSG (m_cond : Bool) (str_cond : String) (m_retval : R) (str_retval : String) (m_msg : String)
  | ERROR_FAIL_COND_V_EDMSG (m_cond : Bool) (str_cond : String) (m_retval : R) (str_retval : String) (m_msg : String)
  | ERROR_CONTINUE (m_cond : Bool) (str_cond : String)
  | ERROR_CONTINUE_MSG (m_cond : Bool) (str_cond : String) (m_msg : String)
  | ERROR_CONTINUE_EDMSG (m_cond : Bool) (str_cond : String) (m_msg : String)
  | ERROR_BREAK (m_cond : Bool) (str_cond : String)
  | ERROR_BREAK_MSG (m_cond : Bool) (str_cond : String) (m_msg : String)
  | ERROR_BREAK_EDMSG (m_cond : Bool) (str_cond : String) (m_msg : String)
  | CRASH_COND (m_cond : Bool) (str_cond : String)
  | CRASH_COND_MSG (m_cond : Bool) (str_cond : String) (m_msg : String)
  | ERROR_FAIL
  | ERROR_FAIL_MSG (m_msg : String)
  | ERROR_FAIL_EDMSG (m_msg : String)
  | ERROR_FAIL_V (m_retval : R) (str_retval : String)
  | ERROR_FAIL_V_MSG (m_retval : R) (str_retval : String) (m_msg : String)
  | ERROR_FAIL_V_EDMSG (m_retval : R) (str_retval : String) (m_msg : String)
  | ERROR_PRINT (m_msg : String)
  | ERROR_PRINT_ED (m_msg : String)
  | ERROR_PRINT_ONCE (m_msg : String)
  | ERROR_PRINT_ONCE_ED (m_msg : String)
  | WARNING_PRINT (m_msg : String)
  | WARNING_PRINT_ED (m_msg : String)
  | WARNING_PRINT_ONCE (m_msg : String)
  | WARNING_PRINT_ONCE_ED (m_msg : String)
  | WARNING_VERBOSE (is_print_verbose_enabled : Bool) (m_msg : String)
  | WARNING_DEPRECATED
  | WARNING_DEPRECATED_MSG (m_msg : String)
  | CRASH_NOW
  | CRASH_NOW_MSG (m_msg : String)

/-- One execution of an idiom at a call site. `static_var` is the value of the
call site's static variable on entry (`first_print` or `warning_shown`, for
the macros that declare one); the result carries its value on exit. -/
def Idiom.run {R : Type} (site : CallSite) : Idiom R → Bool → Step R × Bool
  | .ERROR_FAIL_INDEX m_index m_size str_index str_size, static_var =>
    (Engine.ERROR_FAIL_INDEX site m_index m_size str_index str_size, static_var)
  | .ERROR_FAIL_INDEX_MSG m_index m_size str_index str_size m_msg, static_var =>
    (Engine.ERROR_FAIL_INDEX_MSG site m_index m_size str_index str_size m_msg, static_var)
  | .ERROR_FAIL_INDEX_EDMSG m_index m_size str_index str_size m_msg, static_var =>
    (Engine.ERROR_FAIL_INDEX_EDMSG site m_index m_size str_index str_size m_msg, static_var)
  | .ERROR_FAIL_INDEX_V m_index m_size str_index str_size m_retval, static_var =>
    (Engine.ERROR_FAIL_INDEX_V site m_index m_size str_index str_size m_retval, static_var)
  | .ERROR_FAIL_INDEX_V_MSG m_index m_size str_index str_size m_retval m_msg, static_var =>
    (Engine.ERROR_FAIL_INDEX_V_MSG site m_index m_size str_index str_size m_retval m_msg,
      static_var)
  | .ERROR_FAIL_INDEX_V_EDMSG m_index m_size str_index str_size m_retval m_msg, static_var =>
    (Engine.ERROR_FAIL_INDEX_V_EDMSG site m_index m_size str_index str_size m_retval m_msg,
      static_var)
  | .CRASH_BAD_INDEX m_index m_size str_index str_size, static_var =>
    (Engine.CRASH_BAD_INDEX site m_index m_size str_index str_size, static_var)
  | .CRASH_BAD_INDEX_MSG m_index m_size str_index str_size m_msg, static_var =>
    (Engine.CRASH_BAD_INDEX_MSG site m_index m_size str_index str_size m_msg, static_var)
  | .ERROR_FAIL_UNSIGNED_INDEX m_index m_size str_index str_size, static_var =>
    (Engine.ERROR_FAIL_UNSIGNED_INDEX site m_index m_size str_index str_size, static_var)
  | .ERROR_FAIL_UNSIGNED_INDEX_MSG m_index m_size str_index str_size m_msg, static_var =>
    (Engine.ERROR_FAIL_UNSIGNED_INDEX_MSG site m_index m_size str_index str_size m_msg, static_var)
  | .ERROR_FAIL_UNSIGNED_INDEX_EDMSG m_index m_size str_index str_size m_msg, static_var =>
    (Engine.ERROR_FAIL_UNSIGNED_INDEX_EDMSG site m_index m_size str_index str_size m_msg,
      static_var)
  | .ERROR_FAIL_UNSIGNED_INDEX_V m_index m_size str_index str_size m_retval, static_var =>
    (Engine.ERROR_FAIL_UNSIGNED_INDEX_V site m_index m_size str_index str_size m_retval, static_var)
  | .ERROR_FAIL_UNSIGNED_INDEX_V_MSG m_index m_size str_index str_size m_retval m_msg, static_var =>
    (Engine.ERROR_FAIL_UNSIGNED_INDEX_V_MSG site m_index m_size str_index str_size m_retval
      m_msg, static_var)
  | .ERROR_FAIL_UNSIGNED_INDEX_V_EDMSG m_index m_size str_index str_size m_retval m_msg,
      static_var =>
    (Engine.ERROR_FAIL_UNSIGNED_INDEX_V_EDMSG site m_index m_size str_index str_size m_retval
      m_msg, static_var)
  | .CRASH_BAD_UNSIGNED_INDEX m_index m_size str_index str_size, static_var =>
    (Engine.CRASH_BAD_UNSIGNED_INDEX site m_index m_size str_index str_size, static_var)
  | .CRASH_BAD_UNSIGNED_INDEX_MSG m_index m_size str_index str_size m_msg, static_var =>
    (Engine.CRASH_BAD_UNSIGNED_INDEX_MSG site m_index m_size str_index str_size m_msg, static_var)
  | .ERROR_FAIL_NULL m_param str_param, static_var =>
    (Engine.ERROR_FAIL_NULL site m_param str_param, static_var)
  | .ERROR_FAIL_NULL_MSG m_param str_param m_msg, static_var =>
    (Engine.ERROR_FAIL_NULL_MSG site m_param str_param m_msg, static_var)
  | .ERROR_FAIL_NULL_EDMSG m_param str_param m_msg, static_var =>
    (Engine.ERROR_FAIL_NULL_EDMSG site m_param str_param m_msg, static_var)
  | .ERROR_FAIL_NULL_V m_param str_param m_retval, static_var =>
    (Engine.ERROR_FAIL_NULL_V site m_param str_param m_retval, static_var)
  | .ERROR_FAIL_NULL_V_MSG m_param str_param m_retval m_msg, static_var =>
    (Engine.ERROR_FAIL_NULL_V_MSG site m_param str_param m_retval m_msg, static_var)
  | .ERROR_FAIL_NULL_V_EDMSG m_param str_param m_retval m_msg, static_var =>
    (Engine.ERROR_FAIL_NULL_V_EDMSG site m_param str_param m_retval m_msg, static_var)
  | .ERROR_FAIL_COND m_cond str_cond, static_var =>
    (Engine.ERROR_FAIL_COND site m_cond str_cond, static_var)
  | .ERROR_FAIL_COND_MSG m_cond str_cond m_msg, static_var =>
    (Engine.ERROR_FAIL_COND_MSG site m_cond str_cond m_msg, static_var)
  | .ERROR_FAIL_COND_EDMSG m_cond str_cond m_msg, static_var =>
    (Engine.ERROR_FAIL_COND_EDMSG site m_cond str_cond m_msg, static_var)
  | .ERROR_FAIL_COND_V m_cond str_cond m_retval str_retval, static_var =>
    (Engine.ERROR_FAIL_COND_V site m_cond str_cond m_retval str_retval, static_var)
  | .ERROR_FAIL_COND_V_MSG m_cond str_cond m_retval str_retval m_msg, static_var =>
    (Engine.ERROR_FAIL_COND_V_MSG site m_cond str_cond m_retval str_retval m_msg, static_var)
  | .ERROR_FAIL_COND_V_EDMSG m_cond str_cond m_retval str_retval m_msg, static_var =>
    (Engine.ERROR_FAIL_COND_V_EDMSG site m_cond str_cond m_retval str_retval m_msg, static_var)
  | .ERROR_CONTINUE m_cond str_cond, static_var =>
    (Engine.ERROR_CONTINUE site m_cond str_cond, static_var)
  | .ERROR_CONTINUE_MSG m_cond str_cond m_msg, static_var =>
    (Engine.ERROR_CONTINUE_MSG site m_cond str_cond m_msg, static_var)
  | .ERROR_CONTINUE_EDMSG m_cond str_cond m_msg, static_var =>
    (Engine.ERROR_CONTINUE_EDMSG site m_cond str_cond m_msg, static_var)
  | .ERROR_BREAK m_cond str_cond, static_var =>
    (Engine.ERROR_BREAK site m_cond str_cond, static_var)
  | .ERROR_BREAK_MSG m_cond str_cond m_msg, static_var =>
    (Engine.ERROR_BREAK_MSG site m_cond str_cond m_msg, static_var)
  | .ERROR_BREAK_EDMSG m_cond str_cond m_msg, static_var =>
    (Engine.ERROR_BREAK_EDMSG site m_cond str_cond m_msg, static_var)
  | .CRASH_COND m_cond str_cond, static_var =>
    (Engine.CRASH_COND site m_cond str_cond, static_var)
  | .CRASH_COND_MSG m_cond str_cond m_msg, static_var =>
    (Engine.CRASH_COND_MSG site m_cond str_cond m_msg, static_var)
  | .ERROR_FAIL, static_var =>
    (Engine.ERROR_FAIL site, static_var)
  | .ERROR_FAIL_MSG m_msg, static_var =>
    (Engine.ERROR_FAIL_MSG site m_msg, static_var)
  | .ERROR_FAIL_EDMSG m_msg, static_var =>
    (Engine.ERROR_FAIL_EDMSG site m_msg, static_var)
  | .ERROR_FAIL_V m_retval str_retval, static_var =>
    (Engine.ERROR_FAIL_V site m_retval str_retval, static_var)
  | .ERROR_FAIL_V_MSG m_retval str_retval m_msg, static_var =>
    (Engine.ERROR_FAIL_V_MSG site m_retval str_retval m_msg, static_var)
  | .ERROR_FAIL_V_EDMSG m_retval str_retval m_msg, static_var =>
    (Engine.ERROR_FAIL_V_EDMSG site m_retval str_retval m_msg, static_var)
  | .ERROR_PRINT m_msg, static_var =>
    (Engine.ERROR_PRINT site m_msg, static_var)
  | .ERROR_PRINT_ED m_msg, static_var =>
    (Engine.ERROR_PRINT_ED site m_msg, static_var)
  | .ERROR_PRINT_ONCE m_msg, static_var =>
    Engine.ERROR_PRINT_ONCE site m_msg static_var
  | .ERROR_PRINT_ONCE_ED m_msg, static_var =>
    Engine.ERROR_PRINT_ONCE_ED site m_msg static_var
  | .WARNING_PRINT m_msg, static_var =>
    (Engine.WARNING_PRINT site m_msg, static_var)
  | .WARNING_PRINT_ED m_msg, static_var =>
    (Engine.WARNING_PRINT_ED site m_msg, static_var)
  | .WARNING_PRINT_ONCE m_msg, static_var =>
    Engine.WARNING_PRINT_ONCE site m_msg static_var
  | .WARNING_PRINT_ONCE_ED m_msg, static_var =>
    Engine.WARNING_PRINT_ONCE_ED site m_msg static_var
  | .WARNING_VERBOSE is_print_verbose_enabled m_msg, static_var =>
    (Engine.WARNING_VERBOSE site is_print_verbose_enabled m_msg, static_var)
  | .WARNING_DEPRECATED, static_var =>
    Engine.WARNING_DEPRECATED site static_var
  | .WARNING_DEPRECATED_MSG m_msg, static_var =>
    Engine.WARNING_DEPRECATED_MSG site m_msg static_var
  | .CRASH_NOW, static_var =>
    (Engine.CRASH_NOW site, static_var)
  | .CRASH_NOW_MSG m_msg, static_var =>
    (Engine.CRASH_NOW_MSG site m_msg, static_var)

/-- Whether a use of the macro, followed by `;`, is a statement: false for the
macros whose replacement text ends in `else { ((void)0) }` (the six
`ERROR_FAIL_INDEX*`, `CRASH_BAD_INDEX`, `CRASH_BAD_INDEX_MSG`,
`ERROR_FAIL_UNSIGNED_INDEX`, `_MSG`, `_EDMSG`, `_V`, `_V_MSG`), true for the
macros that end in `else ((void)0)` or in a plain statement. -/
def Idiom.is_statement {R : Type} : Idiom R → Bool
  | .ERROR_FAIL_INDEX _ _ _ _ => false
  | .ERROR_FAIL_INDEX_MSG _ _ _ _ _ => false
  | .ERROR_FAIL_INDEX_EDMSG _ _ _ _ _ => false
  | .ERROR_FAIL_INDEX_V _ _ _ _ _ => false
  | .ERROR_FAIL_INDEX_V_MSG _ _ _ _ _ _ => false
  | .ERROR_FAIL_INDEX_V_EDMSG _ _ _ _ _ _ => false
  | .CRASH_BAD_INDEX _ _ _ _ => false
  | .CRASH_BAD_INDEX_MSG _ _ _ _ _ => false
  | .ERROR_FAIL_UNSIGNED_INDEX _ _ _ _ => false
  | .ERROR_FAIL_UNSIGNED_INDEX_MSG _ _ _ _ _ => false
  | .ERROR_FAIL_UNSIGNED_INDEX_EDMSG _ _ _ _ _ => false
  | .ERROR_FAIL_UNSIGNED_INDEX_V _ _ _ _ _ => false
  | .ERROR_FAIL_UNSIGNED_INDEX_V_MSG _ _ _ _ _ _ => false
  | _ => true

/-- The fatal idioms: the macros named `CRASH_*`. -/
def Idiom.is_crash {R : Type} : Idiom R → Bool
  | .CRASH_BAD_INDEX _ _ _ _ => true
  | .CRASH_BAD_INDEX_MSG _ _ _ _ _ => true
  | .CRASH_BAD_UNSIGNED_INDEX _ _ _ _ => true
  | .CRASH_BAD_UNSIGNED_INDEX_MSG _ _ _ _ _ => true
  | .CRASH_COND _ _ => true
  | .CRASH_COND_MSG _ _ _ => true
  | .CRASH_NOW => true
  | .CRASH_NOW_MSG _ => true
  | _ => false

/-- The recoverable idioms: the macros named `ERROR_FAIL*`, `ERROR_CONTINUE*`,
`ERROR_BREAK*`, `ERROR_PRINT*` and `WARNING_*`. -/
def Idiom.is_recoverable {R : Type} : Idiom R → Bool
  | .ERROR_FAIL_INDEX _ _ _ _ => true
  | .ERROR_FAIL_INDEX_MSG _ _ _ _ _ => true
  | .ERROR_FAIL_INDEX_EDMSG _ _ _ _ _ => true
  | .ERROR_FAIL_INDEX_V _ _ _ _ _ => true
  | .ERROR_FAIL_INDEX_V_MSG _ _ _ _ _ _ => true
  | .ERROR_FAIL_INDEX_V_EDMSG _ _ _ _ _ _ => true
  | .ERROR_FAIL_UNSIGNED_INDEX _ _ _ _ => true
  | .ERROR_FAIL_UNSIGNED_INDEX_MSG _ _ _ _ _ => true
  | .ERROR_FAIL_UNSIGNED_INDEX_EDMSG _ _ _ _ _ => true
  | .ERROR_FAIL_UNSIGNED_INDEX_V _ _ _ _ _ => true
  | .ERROR_FAIL_UNSIGNED_INDEX_V_MSG _ _ _ _ _ _ => true
  | .ERROR_FAIL_UNSIGNED_INDEX_V_EDMSG _ _ _ _ _ _ => true
  | .ERROR_FAIL_NULL _ _ => true
  | .ERROR_FAIL_NULL_MSG _ _ _ => true
  | .ERROR_FAIL_NULL_EDMSG _ _ _ => true
  | .ERROR_FAIL_NULL_V _ _ _ => true
  | .ERROR_FAIL_NULL_V_MSG _ _ _ _ => true
  | .ERROR_FAIL_NULL_V_EDMSG _ _ _ _ => true
  | .ERROR_FAIL_COND _ _ => true
  | .ERROR_FAIL_COND_MSG _ _ _ => true
  | .ERROR_FAIL_COND_EDMSG _ _ _ => true
  | .ERROR_FAIL_COND_V _ _ _ _ => true
  | .ERROR_FAIL_COND_V_MSG _ _ _ _ _ => true
  | .ERROR_FAIL_COND_V_EDMSG _ _ _ _ _ => true
  | .ERROR_CONTINUE _ _ => true
  | .ERROR_CONTINUE_MSG _ _ _ => true
  | .ERROR_CONTINUE_EDMSG _ _ _ => true
  | .ERROR_BREAK _ _ => true
  | .ERROR_BREAK_MSG _ _ _ => true
  | .ERROR_BREAK_EDMSG _ _ _ => true
  | .ERROR_FAIL => true
  | .ERROR_FAIL_MSG _ => true
  | .ERROR_FAIL_EDMSG _ => true
  | .ERROR_FAIL_V _ _ => true
  | .ERROR_FAIL_V_MSG _ _ _ => true
  | .ERROR_FAIL_V_EDMSG _ _ _ => true
  | .ERROR_PRINT _ => true
  | .ERROR_PRINT_ED _ => true
  | .ERROR_PRINT_ONCE _ => true
  | .ERROR_PRINT_ONCE_ED _ => true
  | .WARNING_PRINT _ => true
  | .WARNING_PRINT_ED _ => true
  | .WARNING_PRINT_ONCE _ => true
  | .WARNING_PRINT_ONCE_ED _ => true
  | .WARNING_VERBOSE _ _ => true
  | .WARNING_DEPRECATED => true
  | .WARNING_DEPRECATED_MSG _ => true
  | _ => false

/-- Whether the guard an idiom documents is violated by its arguments: the
index is out of `0 <= m_index < m_size` (signed) or not below `m_size`
(unsigned), the parameter is null, the condition is true. The unconditional
idioms (`ERROR_FAIL*`, `CRASH_NOW*`) count as violated; the print and warning
idioms have no guard. -/
def Idiom.guard_violated {R : Type} : Idiom R → Bool
  | .ERROR_FAIL_INDEX m_index m_size _ _ => decide (m_index < 0 ∨ m_size ≤ m_index)
  | .ERROR_FAIL_INDEX_MSG m_index m_size _ _ _ => decide (m_index < 0 ∨ m_size ≤ m_index)
  | .ERROR_FAIL_INDEX_EDMSG m_index m_size _ _ _ => decide (m_index < 0 ∨ m_size ≤ m_index)
  | .ERROR_FAIL_INDEX_V m_index m_size _ _ _ => decide (m_index < 0 ∨ m_size ≤ m_index)
  | .ERROR_FAIL_INDEX_V_MSG m_index m_size _ _ _ _ => decide (m_index < 0 ∨ m_size ≤ m_index)
  | .ERROR_FAIL_INDEX_V_EDMSG m_index m_size _ _ _ _ => decide (m_index < 0 ∨ m_size ≤ m_index)
  | .CRASH_BAD_INDEX m_index m_size _ _ => decide (m_index < 0 ∨ m_size ≤ m_index)
  | .CRASH_BAD_INDEX_MSG m_index m_size _ _ _ => decide (m_index < 0 ∨ m_size ≤ m_index)
  | .ERROR_FAIL_UNSIGNED_INDEX m_index m_size _ _ => decide (m_size ≤ m_index)
  | .ERROR_FAIL_UNSIGNED_INDEX_MSG m_index m_size _ _ _ => decide (m_size ≤ m_index)
  | .ERROR_FAIL_UNSIGNED_INDEX_EDMSG m_index m_size _ _ _ => decide (m_size ≤ m_index)
  | .ERROR_FAIL_UNSIGNED_INDEX_V m_index m_size _ _ _ => decide (m_size ≤ m_index)
  | .ERROR_FAIL_UNSIGNED_INDEX_V_MSG m_index m_size _ _ _ _ => decide (m_size ≤ m_index)
  | .ERROR_FAIL_UNSIGNED_INDEX_V_EDMSG m_index m_size _ _ _ _ => decide (m_size ≤ m_index)
  | .CRASH_BAD_UNSIGNED_INDEX m_index m_size _ _ => decide (m_size ≤ m_index)
  | .CRASH_BAD_UNSIGNED_INDEX_MSG m_index m_size _ _ _ => decide (m_size ≤ m_index)
  | .ERROR_FAIL_NULL m_param _ => decide (m_param = nullptr)
  | .ERROR_FAIL_NULL_MSG m_param _ _ => decide (m_param = nullptr)
  | .ERROR_FAIL_NULL_EDMSG m_param _ _ => decide (m_param = nullptr)
  | .ERROR_FAIL_NULL_V m_param _ _ => decide (m_param = nullptr)
  | .ERROR_FAIL_NULL_V_MSG m_param _ _ _ => decide (m_param = nullptr)
  | .ERROR_FAIL_NULL_V_EDMSG m_param _ _ _ => decide (m_param = nullptr)
  | .ERROR_FAIL_COND m_cond _ => m_cond
  | .ERROR_FAIL_COND_MSG m_cond _ _ => m_cond
  | .ERROR_FAIL_COND_EDMSG m_cond _ _ => m_cond
  | .ERROR_FAIL_COND_V m_cond _ _ _ => m_cond
  | .ERROR_FAIL_COND_V_MSG m_cond _ _ _ _ => m_cond
  | .ERROR_FAIL_COND_V_EDMSG m_cond _ _ _ _ => m_cond
  | .ERROR_CONTINUE m_cond _ => m_cond
  | .ERROR_CONTINUE_MSG m_cond _ _ => m_cond
  | .ERROR_CONTINUE_EDMSG m_cond _ _ => m_cond
  | .ERROR_BREAK m_cond _ => m_cond
  | .ERROR_BREAK_MSG m_cond _ _ => m_cond
  | .ERROR_BREAK_EDMSG m_cond _ _ => m_cond
  | .CRASH_COND m_cond _ => m_cond
  | .CRASH_COND_MSG m_cond _ _ => m_cond
  | .ERROR_FAIL => true
  | .ERROR_FAIL_MSG _ => true
  | .ERROR_FAIL_EDMSG _ => true
  | .ERROR_FAIL_V _ _ => true
  | .ERROR_FAIL_V_MSG _ _ _ => true
  | .ERROR_FAIL_V_EDMSG _ _ _ => true
  | .CRASH_NOW => true
  | .CRASH_NOW_MSG _ => true
  | _ => false

/-- The value a value-returning idiom (`*_V`, `*_V_MSG`, `*_V_EDMSG`) is given
to return. -/
def Idiom.supplied_value {R : Type} : Idiom R → Option R
  | .ERROR_FAIL_INDEX_V _ _ _ _ m_retval => some m_retval
  | .ERROR_FAIL_INDEX_V_MSG _ _ _ _ m_retval _ => some m_retval
  | .ERROR_FAIL_INDEX_V_EDMSG _ _ _ _ m_retval _ => some m_retval
  | .ERROR_FAIL_UNSIGNED_INDEX_V _ _ _ _ m_retval => some m_retval
  | .ERROR_FAIL_UNSIGNED_INDEX_V_MSG _ _ _ _ m_retval _ => some m_retval
  | .ERROR_FAIL_UNSIGNED_INDEX_V_EDMSG _ _ _ _ m_retval _ => some m_retval
  | .ERROR_FAIL_NULL_V _ _ m_retval => some m_retval
  | .ERROR_FAIL_NULL_V_MSG _ _ m_retval _ => some m_retval
  | .ERROR_FAIL_NULL_V_EDMSG _ _ m_retval _ => some m_retval
  | .ERROR_FAIL_COND_V _ _ m_retval _ => some m_retval
  | .ERROR_FAIL_COND_V_MSG _ _ m_retval _ _ => some m_retval
  | .ERROR_FAIL_COND_V_EDMSG _ _ m_retval _ _ => some m_retval
  | .ERROR_FAIL_V m_retval _ => some m_retval
  | .ERROR_FAIL_V_MSG m_retval _ _ => some m_retval
  | .ERROR_FAIL_V_EDMSG m_retval _ _ => some m_retval
  | _ => none


/-- The parameter a null idiom (`ERROR_FAIL_NULL*`) checks: its value and the
string `_STR` makes of it. -/
def Idiom.null_param {R : Type} : Idiom R → Option (Nat × String)
  | .ERROR_FAIL_NULL m_param str_param => some (m_param, str_param)
  | .ERROR_FAIL_NULL_MSG m_param str_param _ => some (m_param, str_param)
  | .ERROR_FAIL_NULL_EDMSG m_param str_param _ => some (m_param, str_param)
  | .ERROR_FAIL_NULL_V m_param str_param _ => some (m_param, str_param)
  | .ERROR_FAIL_NULL_V_MSG m_param str_param _ _ => some (m_param, str_param)
  | .ERROR_FAIL_NULL_V_EDMSG m_param str_param _ _ => some (m_param, str_param)
  | _ => none

/-! ## Several call sites, each with its own latch -/

/-- The idioms that declare a static latch in their expansion: `*_PRINT_ONCE*`
(`static bool first_print = true;`) and `WARNING_DEPRECATED*`
(`static std::atomic<bool> warning_shown;`). -/
def Idiom.is_once {R : Type} : Idiom R → Bool
  | .ERROR_PRINT_ONCE _ => true
  | .ERROR_PRINT_ONCE_ED _ => true
  | .WARNING_PRINT_ONCE _ => true
  | .WARNING_PRINT_ONCE_ED _ => true
  | .WARNING_DEPRECATED => true
  | .WARNING_DEPRECATED_MSG _ => true
  | _ => false

/-- Initial value of the static variable of a call site: `first_print` starts
as `true`, `warning_shown` (static storage, no initialiser) as `false`. -/
def Idiom.static_init {R : Type} : Idiom R → Bool
  | .WARNING_DEPRECATED => false
  | .WARNING_DEPRECATED_MSG _ => false
  | _ => true

/-- Executing call site `k` of a program once. `sites` lists the macro
expanded at each call site and `statics` holds the static variable of every
call site; the expansion at `k` reads and writes its own static variable. -/
def execute_site {R : Type} (sites : Nat → CallSite × Idiom R) (k : Nat)
    (statics : Nat → Bool) : Step R × (Nat → Bool) :=
  let r := (sites k).2.run (sites k).1 (statics k)
  (r.1, Function.update statics k r.2)

/-- Executing call sites in the order given by `schedule`. Every call made is
listed with the index of the call site that made it. -/
def execute_schedule {R : Type} (sites : Nat → CallSite × Idiom R) :
    List Nat → (Nat → Bool) → List (Nat × Call) × (Nat → Bool)
  | [], statics => ([], statics)
  | k :: later, statics =>
    let r := execute_site sites k statics
    let rest := execute_schedule sites later r.2
    (r.1.calls.map (fun c => (k, c)) ++ rest.1, rest.2)

/-- The static variables before any call site has been executed. -/
def initial_statics {R : Type} (sites : Nat → CallSite × Idiom R) : Nat → Bool :=
  fun k => (sites k).2.static_init

/-! ## Once macros, with the code that runs during the report

The call of `_error_print_error` hands the event to the handlers before it
returns. `during_report` stands for what that code does: given the value of
the call site's static variable at the time of the call, the calls it makes
and the value of the static variable it leaves. The macro's own assignment to
the static variable (`first_print = false;`, `warning_shown.store(true);`) is
the statement after the call. -/

/-- Code during the report that makes no call and leaves the latch alone. -/
def no_reentry : Bool → List Call × Bool := fun static_var => ([], static_var)

/-- Code during the report that executes the statement `stmt` once (for
instance the call site that is reporting). -/
def reenter_once {R : Type} (stmt : Bool → Step R × Bool) : Bool → List Call × Bool :=
  fun static_var => ((stmt static_var).1.calls, (stmt static_var).2)

/-- `ERROR_PRINT_ONCE(m_msg)` with the code that runs while its report is in
progress. The report comes first, `first_print = false;` after it. -/
def ERROR_PRINT_ONCE_during {R : Type} (site : CallSite) (m_msg : String)
    (during_report : Bool → List Call × Bool) (first_print : Bool) : Step R × Bool :=
  if true then
    if first_print then
      (⟨_error_print_error site m_msg none false .ERROR_HANDLER_ERROR :: (during_report first_print).1,
        Flow.next⟩, false)
    else (⟨[], Flow.next⟩, first_print)
  else (⟨[], Flow.next⟩, first_print)

/-- `ERROR_PRINT_ONCE_ED(m_msg)` with the code that runs while its report is in
progress. Same order as `ERROR_PRINT_ONCE`. -/
def ERROR_PRINT_ONCE_ED_during {R : Type} (site : CallSite) (m_msg : String)
    (during_report : Bool → List Call × Bool) (first_print : Bool) : Step R × Bool :=
  if true then
    if first_print then
      (⟨_error_print_error site m_msg none true .ERROR_HANDLER_ERROR :: (during_report first_print).1,
        Flow.next⟩, false)
    else (⟨[], Flow.next⟩, first_print)
  else (⟨[], Flow.next⟩, first_print)

/-- `WARNING_PRINT_ONCE(m_msg)` with the code that runs while its report is in
progress. Same order as `ERROR_PRINT_ONCE`. -/
def WARNING_PRINT_ONCE_during {R : Type} (site : CallSite) (m_msg : String)
    (during_report : Bool → List Call × Bool) (first_print : Bool) : Step R × Bool :=
  if true then
    if first_print then
      (⟨_error_print_error site m_msg none false ERR_HANDLER_WARNING :: (during_report first_print).1,
        Flow.next⟩, false)
    else (⟨[], Flow.next⟩, first_print)
  else (⟨[], Flow.next⟩, first_print)

/-- `WARNING_PRINT_ONCE_ED(m_msg)` with the code that runs while its report is in
progress. Same order as `ERROR_PRINT_ONCE`. -/
def WARNING_PRINT_ONCE_ED_during {R : Type} (site : CallSite) (m_msg : String)
    (during_report : Bool → List Call × Bool) (first_print : Bool) : Step R × Bool :=
  if true then
    if first_print then
      (⟨_error_print_error site m_msg none true ERR_HANDLER_WARNING :: (during_report first_print).1,
        Flow.next⟩, false)
    else (⟨[], Flow.next⟩, first_print)
  else (⟨[], Flow.next⟩, first_print)

/-- `WARNING_DEPRECATED` with the code that runs while its report is in
progress. The report comes first, `warning_shown.store(true);` after it. -/
def WARNING_DEPRECATED_during {R : Type} (site : CallSite)
    (during_report : Bool → List Call × Bool) (warning_shown : Bool) : Step R × Bool :=
  if true then
    if !warning_shown then
      (⟨_error_print_error site deprecated_text none false ERR_HANDLER_WARNING :: (during_report warning_shown).1,
        Flow.next⟩, true)
    else (⟨[], Flow.next⟩, warning_shown)
  else (⟨[], Flow.next⟩, warning_shown)

/-- `WARNING_DEPRECATED_MSG(m_msg)` with the code that runs while its report is in
progress. Same order as `WARNING_DEPRECATED`. -/
def WARNING_DEPRECATED_MSG_during {R : Type} (site : CallSite) (m_msg : String)
    (during_report : Bool → List Call × Bool) (warning_shown : Bool) : Step R × Bool :=
  if true then
    if !warning_shown then
      (⟨_error_print_error site deprecated_text (some m_msg) false
          ERR_HANDLER_WARNING :: (during_report warning_shown).1,
        Flow.next⟩, true)
    else (⟨[], Flow.next⟩, warning_shown)
  else (⟨[], Flow.next⟩, warning_shown)

/-- One execution of an idiom with the code that runs during its report; only
the once and deprecated idioms are affected. -/
def Idiom.run_during {R : Type} (site : CallSite) (during_report : Bool → List Call × Bool) :
    Idiom R → Bool → Step R × Bool
  | .ERROR_PRINT_ONCE m_msg, static_var =>
    ERROR_PRINT_ONCE_during site m_msg during_report static_var
  | .ERROR_PRINT_ONCE_ED m_msg, static_var =>
    ERROR_PRINT_ONCE_ED_during site m_msg during_report static_var
  | .WARNING_PRINT_ONCE m_msg, static_var =>
    WARNING_PRINT_ONCE_during site m_msg during_report static_var
  | .WARNING_PRINT_ONCE_ED m_msg, static_var =>
    WARNING_PRINT_ONCE_ED_during site m_msg during_report static_var
  | .WARNING_DEPRECATED, static_var =>
    WARNING_DEPRECATED_during site during_report static_var
  | .WARNING_DEPRECATED_MSG m_msg, static_var =>
    WARNING_DEPRECATED_MSG_during site m_msg during_report static_var
  | i, static_var => i.run site static_var

/-! ## Several threads at one call site with a latch

The expansion of a once macro is three separate actions on the latch: the
read in the `if` (`first_print`, `!warning_shown.load()`), the report, and the
write (`first_print = false;`, `warning_shown.store(true);`). A thread is
followed through these actions; a schedule names the thread that performs its
next action. -/

/-- Where a thread stands in the expansion: before the read of the latch,
before the report, before the write of the latch, or past the statement. -/
inductive OncePc
  | before_read
  | before_report
  | before_write
  | finished
  deriving DecidableEq, Repr

/-- Threads at one call site: the value of the static variable, where each
thread stands, and the threads that have made their report (latest first). -/
structure OnceRace where
  latch : Bool
  pc : Nat → OncePc
  reported : List Nat

/-- The next action of thread `t`. `unfired` is the initial value of the static
variable (`true` for `first_print`, `false` for `warning_shown`): the read
enters the block when the latch holds that value, and the write stores the
opposite value. -/
def once_thread_step (unfired : Bool) (t : Nat) (s : OnceRace) : OnceRace :=
  match s.pc t with
  | OncePc.before_read =>
    if s.latch = unfired then { s with pc := Function.update s.pc t OncePc.before_report }
    else { s with pc := Function.update s.pc t OncePc.finished }
  | OncePc.before_report =>
    { s with reported := t :: s.reported, pc := Function.update s.pc t OncePc.before_write }
  | OncePc.before_write =>
    { s with latch := !unfired, pc := Function.update s.pc t OncePc.finished }
  | OncePc.finished => s

/-- Threads in `ERROR_PRINT_ONCE` (and the other `first_print` macros):
`if (first_print) { report; first_print = false; }`. -/
def ERROR_PRINT_ONCE_thread_step : Nat → OnceRace → OnceRace := once_thread_step true

/-- Threads in `WARNING_DEPRECATED` (and `WARNING_DEPRECATED_MSG`):
`if (!warning_shown.load()) { report; warning_shown.store(true); }`. -/
def WARNING_DEPRECATED_thread_step : Nat → OnceRace → OnceRace := once_thread_step false

/-- All threads before the read, the latch unfired, no report made. -/
def fresh_race (unfired : Bool) : OnceRace :=
  ⟨unfired, fun _ => OncePc.before_read, []⟩

/-- The actions of a schedule, performed in order. -/
def run_threads (step : Nat → OnceRace → OnceRace) : List Nat → OnceRace → OnceRace
  | [], s => s
  | t :: later, s => run_threads step later (step t s)

/-- What holds of every state reached from a fresh call site by threads below `M`. -/
structure RaceInvariant (unfired : Bool) (M : Nat) (s : OnceRace) : Prop where
  nodup : s.reported.Nodup
  reported_past : ∀ t ∈ s.reported,
    (s.pc t = OncePc.before_write ∨ s.pc t = OncePc.finished) ∧ t < M
  write_pending : ∀ t, s.pc t = OncePc.before_write → t ∈ s.reported
  fired_reported : s.latch ≠ unfired → s.reported ≠ []
  finished_fired : ∀ t, s.pc t = OncePc.finished → s.latch = !unfired

/-! ## Names, categories and the editor-notify flag -/

/-- The name of the macro an idiom is a use of. -/
def Idiom.name {R : Type} : Idiom R → String
  | .ERROR_FAIL_INDEX _ _ _ _ => "ERROR_FAIL_INDEX"
  | .ERROR_FAIL_INDEX_MSG _ _ _ _ _ => "ERROR_FAIL_INDEX_MSG"
  | .ERROR_FAIL_INDEX_EDMSG _ _ _ _ _ => "ERROR_FAIL_INDEX_EDMSG"
  | .ERROR_FAIL_INDEX_V _ _ _ _ _ => "ERROR_FAIL_INDEX_V"
  | .ERROR_FAIL_INDEX_V_MSG _ _ _ _ _ _ => "ERROR_FAIL_INDEX_V_MSG"
  | .ERROR_FAIL_INDEX_V_EDMSG _ _ _ _ _ _ => "ERROR_FAIL_INDEX_V_EDMSG"
  | .CRASH_BAD_INDEX _ _ _ _ => "CRASH_BAD_INDEX"
  | .CRASH_BAD_INDEX_MSG _ _ _ _ _ => "CRASH_BAD_INDEX_MSG"
  | .ERROR_FAIL_UNSIGNED_INDEX _ _ _ _ => "ERROR_FAIL_UNSIGNED_INDEX"
  | .ERROR_FAIL_UNSIGNED_INDEX_MSG _ _ _ _ _ => "ERROR_FAIL_UNSIGNED_INDEX_MSG"
  | .ERROR_FAIL_UNSIGNED_INDEX_EDMSG _ _ _ _ _ => "ERROR_FAIL_UNSIGNED_INDEX_EDMSG"
  | .ERROR_FAIL_UNSIGNED_INDEX_V _ _ _ _ _ => "ERROR_FAIL_UNSIGNED_INDEX_V"
  | .ERROR_FAIL_UNSIGNED_INDEX_V_MSG _ _ _ _ _ _ => "ERROR_FAIL_UNSIGNED_INDEX_V_MSG"
  | .ERROR_FAIL_UNSIGNED_INDEX_V_EDMSG _ _ _ _ _ _ => "ERROR_FAIL_UNSIGNED_INDEX_V_EDMSG"
  | .CRASH_BAD_UNSIGNED_INDEX _ _ _ _ => "CRASH_BAD_UNSIGNED_INDEX"
  | .CRASH_BAD_UNSIGNED_INDEX_MSG _ _ _ _ _ => "CRASH_BAD_UNSIGNED_INDEX_MSG"
  | .ERROR_FAIL_NULL _ _ => "ERROR_FAIL_NULL"
  | .ERROR_FAIL_NULL_MSG _ _ _ => "ERROR_FAIL_NULL_MSG"
  | .ERROR_FAIL_NULL_EDMSG _ _ _ => "ERROR_FAIL_NULL_EDMSG"
  | .ERROR_FAIL_NULL_V _ _ _ => "ERROR_FAIL_NULL_V"
  | .ERROR_FAIL_NULL_V_MSG _ _ _ _ => "ERROR_FAIL_NULL_V_MSG"
  | .ERROR_FAIL_NULL_V_EDMSG _ _ _ _ => "ERROR_FAIL_NULL_V_EDMSG"
  | .ERROR_FAIL_COND _ _ => "ERROR_FAIL_COND"
  | .ERROR_FAIL_COND_MSG _ _ _ => "ERROR_FAIL_COND_MSG"
  | .ERROR_FAIL_COND_EDMSG _ _ _ => "ERROR_FAIL_COND_EDMSG"
  | .ERROR_FAIL_COND_V _ _ _ _ => "ERROR_FAIL_COND_V"
  | .ERROR_FAIL_COND_V_MSG _ _ _ _ _ => "ERROR_FAIL_COND_V_MSG"
  | .ERROR_FAIL_COND_V_EDMSG _ _ _ _ _ => "ERROR_FAIL_COND_V_EDMSG"
  | .ERROR_CONTINUE _ _ => "ERROR_CONTINUE"
  | .ERROR_CONTINUE_MSG _ _ _ => "ERROR_CONTINUE_MSG"
  | .ERROR_CONTINUE_EDMSG _ _ _ => "ERROR_CONTINUE_EDMSG"
  | .ERROR_BREAK _ _ => "ERROR_BREAK"
  | .ERROR_BREAK_MSG _ _ _ => "ERROR_BREAK_MSG"
  | .ERROR_BREAK_EDMSG _ _ _ => "ERROR_BREAK_EDMSG"
  | .CRASH_COND _ _ => "CRASH_COND"
  | .CRASH_COND_MSG _ _ _ => "CRASH_COND_MSG"
  | .ERROR_FAIL => "ERROR_FAIL"
  | .ERROR_FAIL_MSG _ => "ERROR_FAIL_MSG"
  | .ERROR_FAIL_EDMSG _ => "ERROR_FAIL_EDMSG"
  | .ERROR_FAIL_V _ _ => "ERROR_FAIL_V"
  | .ERROR_FAIL_V_MSG _ _ _ => "ERROR_FAIL_V_MSG"
  | .ERROR_FAIL_V_EDMSG _ _ _ => "ERROR_FAIL_V_EDMSG"
  | .ERROR_PRINT _ => "ERROR_PRINT"
  | .ERROR_PRINT_ED _ => "ERROR_PRINT_ED"
  | .ERROR_PRINT_ONCE _ => "ERROR_PRINT_ONCE"
  | .ERROR_PRINT_ONCE_ED _ => "ERROR_PRINT_ONCE_ED"
  | .WARNING_PRINT _ => "WARNING_PRINT"
  | .WARNING_PRINT_ED _ => "WARNING_PRINT_ED"
  | .WARNING_PRINT_ONCE _ => "WARNING_PRINT_ONCE"
  | .WARNING_PRINT_ONCE_ED _ => "WARNING_PRINT_ONCE_ED"
  | .WARNING_VERBOSE _ _ => "WARNING_VERBOSE"
  | .WARNING_DEPRECATED => "WARNING_DEPRECATED"
  | .WARNING_DEPRECATED_MSG _ => "WARNING_DEPRECATED_MSG"
  | .CRASH_NOW => "CRASH_NOW"
  | .CRASH_NOW_MSG _ => "CRASH_NOW_MSG"

/-- Whether the text `s` starts with the text `p`. -/
def starts_with (s p : String) : Bool := s.data.take p.length == p.data

/-- Whether the text `s` ends in the text `q`. -/
def ends_in (s q : String) : Bool := s.data.drop (s.length - q.length) == q.data

/-- The warning idioms: the macros named `WARNING_*`. -/
def Idiom.is_warning {R : Type} (i : Idiom R) : Bool := starts_with i.name "WARNING_"

/-- The error and crash idioms: the macros named `ERROR_*` or `CRASH_*`. -/
def Idiom.is_error_or_crash {R : Type} (i : Idiom R) : Bool :=
  starts_with i.name "ERROR_" || starts_with i.name "CRASH_"

/-- The idioms that notify the editor by their name: it ends in `_EDMSG` or
in `_ED`. -/
def Idiom.named_for_editor {R : Type} (i : Idiom R) : Bool :=
  ends_in i.name "_EDMSG" || ends_in i.name "_ED"

/-- Modelled from the spec: the category of the event a report call leads to.
For `_error_print_error` it is the argument `p_type`. `_error_print_index_error`
has no category parameter and its body is not among the sources; spec 4.2:
"category Error unless the idiom is a warning variant", and no index idiom is
a warning variant. -/
def Call.category : Call → Option ErrorHandlerType
  | .print_error _ _ _ _ p_type => some p_type
  | .print_index_error _ _ _ _ _ _ _ _ => some ErrorHandlerType.ERROR_HANDLER_ERROR
  | .flush_stdout => none
  | .trap => none

/-- The argument `p_editor_notify` of a report call. -/
def Call.p_editor_notify : Call → Option Bool
  | .print_error _ _ _ p_editor_notify _ => some p_editor_notify
  | .print_index_error _ _ _ _ _ _ p_editor_notify _ => some p_editor_notify
  | .flush_stdout => none
  | .trap => none

/-- The same call with the argument `p_editor_notify` replaced. -/
def Call.with_editor_notify (notify : Bool) : Call → Call
  | .print_error site p_error p_message _ p_type =>
    .print_error site p_error p_message notify p_type
  | .print_index_error site p_index p_size p_index_str p_size_str p_message _ fatal =>
    .print_index_error site p_index p_size p_index_str p_size_str p_message notify fatal
  | .flush_stdout => .flush_stdout
  | .trap => .trap

/-- The `_MSG` idiom an `_EDMSG` idiom is documented as "same as ... but also
notifies the editor", with the same arguments. -/
def Idiom.msg_counterpart {R : Type} : Idiom R → Option (Idiom R)
  | .ERROR_FAIL_INDEX_EDMSG m_index m_size str_index str_size m_msg =>
    some (.ERROR_FAIL_INDEX_MSG m_index m_size str_index str_size m_msg)
  | .ERROR_FAIL_INDEX_V_EDMSG m_index m_size str_index str_size m_retval m_msg =>
    some (.ERROR_FAIL_INDEX_V_MSG m_index m_size str_index str_size m_retval m_msg)
  | .ERROR_FAIL_UNSIGNED_INDEX_EDMSG m_index m_size str_index str_size m_msg =>
    some (.ERROR_FAIL_UNSIGNED_INDEX_MSG m_index m_size str_index str_size m_msg)
  | .ERROR_FAIL_UNSIGNED_INDEX_V_EDMSG m_index m_size str_index str_size m_retval m_msg =>
    some (.ERROR_FAIL_UNSIGNED_INDEX_V_MSG m_index m_size str_index str_size m_retval m_msg)
  | .ERROR_FAIL_NULL_EDMSG m_param str_param m_msg =>
    some (.ERROR_FAIL_NULL_MSG m_param str_param m_msg)
  | .ERROR_FAIL_NULL_V_EDMSG m_param str_param m_retval m_msg =>
    some (.ERROR_FAIL_NULL_V_MSG m_param str_param m_retval m_msg)
  | .ERROR_FAIL_COND_EDMSG m_cond str_cond m_msg =>
    some (.ERROR_FAIL_COND_MSG m_cond str_cond m_msg)
  | .ERROR_FAIL_COND_V_EDMSG m_cond str_cond m_retval str_retval m_msg =>
    some (.ERROR_FAIL_COND_V_MSG m_cond str_cond m_retval str_retval m_msg)
  | .ERROR_CONTINUE_EDMSG m_cond str_cond m_msg =>
    some (.ERROR_CONTINUE_MSG m_cond str_cond m_msg)
  | .ERROR_BREAK_EDMSG m_cond str_cond m_msg => some (.ERROR_BREAK_MSG m_cond str_cond m_msg)
  | .ERROR_FAIL_EDMSG m_msg => some (.ERROR_FAIL_MSG m_msg)
  | .ERROR_FAIL_V_EDMSG m_retval str_retval m_msg =>
    some (.ERROR_FAIL_V_MSG m_retval str_retval m_msg)
  | _ => none

/-- The index and the size an index idiom is given, as integers. -/
def Idiom.index_args {R : Type} : Idiom R → Option (Int × Int)
  | .ERROR_FAIL_INDEX m_index m_size _ _ => some (m_index, m_size)
  | .ERROR_FAIL_INDEX_MSG m_index m_size _ _ _ => some (m_index, m_size)
  | .ERROR_FAIL_INDEX_EDMSG m_index m_size _ _ _ => some (m_index, m_size)
  | .ERROR_FAIL_INDEX_V m_index m_size _ _ _ => some (m_index, m_size)
  | .ERROR_FAIL_INDEX_V_MSG m_index m_size _ _ _ _ => some (m_index, m_size)
  | .ERROR_FAIL_INDEX_V_EDMSG m_index m_size _ _ _ _ => some (m_index, m_size)
  | .CRASH_BAD_INDEX m_index m_size _ _ => some (m_index, m_size)
  | .CRASH_BAD_INDEX_MSG m_index m_size _ _ _ => some (m_index, m_size)
  | .ERROR_FAIL_UNSIGNED_INDEX m_index m_size _ _ => some (m_index, m_size)
  | .ERROR_FAIL_UNSIGNED_INDEX_MSG m_index m_size _ _ _ => some (m_index, m_size)
  | .ERROR_FAIL_UNSIGNED_INDEX_EDMSG m_index m_size _ _ _ => some (m_index, m_size)
  | .ERROR_FAIL_UNSIGNED_INDEX_V m_index m_size _ _ _ => some (m_index, m_size)
  | .ERROR_FAIL_UNSIGNED_INDEX_V_MSG m_index m_size _ _ _ _ => some (m_index, m_size)
  | .ERROR_FAIL_UNSIGNED_INDEX_V_EDMSG m_index m_size _ _ _ _ => some (m_index, m_size)
  | .CRASH_BAD_UNSIGNED_INDEX m_index m_size _ _ => some (m_index, m_size)
  | .CRASH_BAD_UNSIGNED_INDEX_MSG m_index m_size _ _ _ => some (m_index, m_size)
  | _ => none

/-- The arguments `p_index` and `p_size` of an index report. -/
def Call.index_size : Call → Option (Int × Int)
  | .print_index_error _ p_index p_size _ _ _ _ _ => some (p_index, p_size)
  | _ => none

/-! ## typedefs.hpp: power-of-two helpers

`unsigned int` has 32 bits: a value is a natural number below `2 ^ 32` and
`--x`, `++x`, `a - b` are taken modulo `2 ^ 32`. `|` and `>>` need no
reduction. -/

/-- `--x` on `unsigned int`. -/
def uint32_dec (x : Nat) : Nat := (x + 2 ^ 32 - 1) % 2 ^ 32

/-- `++x` on `unsigned int`. -/
def uint32_inc (x : Nat) : Nat := (x + 1) % 2 ^ 32

/-- `a - b` on `unsigned int`. -/
def uint32_sub (a b : Nat) : Nat := (a + 2 ^ 32 - b) % 2 ^ 32

/-- `next_power_of_2(x)`. -/
def next_power_of_2 (x : Nat) : Nat :=
  if x = 0 then 0
  else
    let x := uint32_dec x
    let x := x ||| (x >>> 1)
    let x := x ||| (x >>> 2)
    let x := x ||| (x >>> 4)
    let x := x ||| (x >>> 8)
    let x := x ||| (x >>> 16)
    uint32_inc x

/-- `previous_power_of_2(x)`. -/
def previous_power_of_2 (x : Nat) : Nat :=
  let x := x ||| (x >>> 1)
  let x := x ||| (x >>> 2)
  let x := x ||| (x >>> 4)
  let x := x ||| (x >>> 8)
  let x := x ||| (x >>> 16)
  uint32_sub x (x >>> 1)

/-- `closest_power_of_2(x)`. -/
def closest_power_of_2 (x : Nat) : Nat :=
  let nx := next_power_of_2 x
  let px := previous_power_of_2 x
  if uint32_sub nx x > uint32_sub x px then px else nx

/-- `get_shift_from_power_of_2(p_bits)`: the first `i < 32` with
`p_bits == (unsigned int)(1 << i)`, or `-1`. -/
def get_shift_from_power_of_2 (p_bits : Nat) : Int :=
  match (List.range 32).find? (fun i => p_bits == (1 <<< i) % 2 ^ 32) with
  | some i => (i : Int)
  | none => -1

/-- `nearest_power_of_2_templated<T>(x)` for an unsigned type `T` of `sizeof_T`
bytes (values below `2 ^ (8 * sizeof_T)`). The loop runs `i` from `0` to
`num - 1`, with `size_t num = get_shift_from_power_of_2(sizeof(T)) + 3`. -/
def nearest_power_of_2_templated (sizeof_T : Nat) (x : Nat) : Nat :=
  let x := (x + 2 ^ (8 * sizeof_T) - 1) % 2 ^ (8 * sizeof_T)
  let num := (get_shift_from_power_of_2 sizeof_T + 3).toNat
  let x := (List.range num).foldl (fun x i => x ||| (x >>> (1 <<< i))) x
  (x + 1) % 2 ^ (8 * sizeof_T)

/-- The value of `x` after the statements `x |= x >> 1; x |= x >> 2;
x |= x >> 4; x |= x >> 8; x |= x >> 16;` that `next_power_of_2` and
`previous_power_of_2` share. -/
def or_shift_cascade (x : Nat) : Nat :=
  let x := x ||| (x >>> 1)
  let x := x ||| (x >>> 2)
  let x := x ||| (x >>> 4)
  let x := x ||| (x >>> 8)
  x ||| (x >>> 16)

/-- Distance between two natural numbers. -/
def distance (a b : Nat) : Nat := (a - b) + (b - a)

/-! ## DEV_ASSERT -/

/-- `DEV_ASSERT(m_cond)`. `DEV_ENABLED` tells whether the preprocessor symbol of
that name is defined. Without it the macro expands to nothing. With it the
replacement text checks `!(m_cond)`, reports, flushes and traps, and ends in
`else { ((void)0) }`: a use is not a statement. -/
def DEV_ASSERT {R : Type} (DEV_ENABLED : Bool) (site : CallSite) (m_cond : Bool)
    (str_cond : String) : Step R :=
  if DEV_ENABLED then
    if_else_braced (unlikely (!m_cond))
      ⟨[_error_print_error site
          ("FATAL: DEV_ASSERT failed  \"" ++ str_cond ++ "\" is false.") none false
          .ERROR_HANDLER_ERROR,
        _error_flush_stdout, GENERATE_TRAP], Flow.trapped⟩
  else ⟨[], Flow.next⟩

/-- The argument `fatal` of an index report. -/
def Call.fatal : Call → Option Bool
  | .print_index_error _ _ _ _ _ _ _ fatal => some fatal
  | _ => none

/-- The value a statement returns with `return m_retval;`, if it does. -/
def Step.returned {R : Type} (s : Step R) : Option R :=
  match s.flow with
  | Flow.retv m_retval => some m_retval
  | _ => none

/-! ## input_enums.hpp: mouse buttons -/

/-- `enum class MouseButton`. -/
inductive MouseButton
  | NONE
  | LEFT
  | RIGHT
  | MIDDLE
  | WHEEL_UP
  | WHEEL_DOWN
  | WHEEL_LEFT
  | WHEEL_RIGHT
  | MB_XBUTTON1
  | MB_XBUTTON2
  deriving DecidableEq, Repr

/-- The integer value of a `MouseButton` enumerator. -/
def MouseButton.value : MouseButton → Int
  | .NONE => 0
  | .LEFT => 1
  | .RIGHT => 2
  | .MIDDLE => 3
  | .WHEEL_UP => 4
  | .WHEEL_DOWN => 5
  | .WHEEL_LEFT => 6
  | .WHEEL_RIGHT => 7
  | .MB_XBUTTON1 => 8
  | .MB_XBUTTON2 => 9

/-- `a << n` on `int`, for a shift count `0 <= n < 31` and a result that fits. -/
def int_shift_left (a n : Int) : Int := a * 2 ^ n.toNat

/-- `enum class MouseButtonMask`: a value of the type is its integer value
(`MouseButtonMask(...)` converts any integer). -/
structure MouseButtonMask where
  value : Int
  deriving DecidableEq, Repr

/-- `MouseButtonMask::NONE = 0`. -/
def MouseButtonMask.NONE : MouseButtonMask := ⟨0⟩

/-- `MouseButtonMask::LEFT = (1 << (int32_t(MouseButton::LEFT) - 1))`. -/
def MouseButtonMask.LEFT : MouseButtonMask :=
  ⟨int_shift_left 1 (MouseButton.LEFT.value - 1)⟩

/-- `MouseButtonMask::RIGHT = (1 << (int32_t(MouseButton::RIGHT) - 1))`. -/
def MouseButtonMask.RIGHT : MouseButtonMask :=
  ⟨int_shift_left 1 (MouseButton.RIGHT.value - 1)⟩

/-- `MouseButtonMask::MIDDLE = (1 << (int32_t(MouseButton::MIDDLE) - 1))`. -/
def MouseButtonMask.MIDDLE : MouseButtonMask :=
  ⟨int_shift_left 1 (MouseButton.MIDDLE.value - 1)⟩

/-- `MouseButtonMask::MB_XBUTTON1 = (1 << (int32_t(MouseButton::MB_XBUTTON1) - 1))`. -/
def MouseButtonMask.MB_XBUTTON1 : MouseButtonMask :=
  ⟨int_shift_left 1 (MouseButton.MB_XBUTTON1.value - 1)⟩

/-- `MouseButtonMask::MB_XBUTTON2 = (1 << (int32_t(MouseButton::MB_XBUTTON2) - 1))`. -/
def MouseButtonMask.MB_XBUTTON2 : MouseButtonMask :=
  ⟨int_shift_left 1 (MouseButton.MB_XBUTTON2.value - 1)⟩

/-- `mouse_button_to_mask(button)`: the macro `ERROR_FAIL_COND_V(button ==
MouseButton::NONE, MouseButtonMask::NONE);` on line 108 of the file, followed
by `return MouseButtonMask(1 << ((int32_t)button - 1));`. `file` is the value
of `__FILE__`. -/
def mouse_button_to_mask (file : String) (button : MouseButton) : Step MouseButtonMask :=
  (ERROR_FAIL_COND_V ⟨"mouse_button_to_mask", file, 108⟩
      (decide (button = MouseButton.NONE)) "button == MouseButton::NONE"
      MouseButtonMask.NONE "MouseButtonMask::NONE").seq
    ⟨[], Flow.retv ⟨int_shift_left 1 (button.value - 1)⟩⟩

/-! ## typedefs.hpp: bit lengths, MIN / MAX / CLAMP, byte swaps -/

/-- `is_power_of_2<unsigned int>(x)`: `x && ((x & (x - 1)) == 0)`. -/
def is_power_of_2 (x : Nat) : Bool :=
  x != 0 && (x &&& uint32_sub x 1) == 0

/-- `nearest_shift(p_number)`: the loop runs `i` from `30` down to `0` and
returns `i + 1` at the first `i` with `p_number & (1 << i)` nonzero, else `0`. -/
def nearest_shift (p_number : Nat) : Nat :=
  match (List.range 31).reverse.find? (fun i => p_number &&& (1 <<< i) != 0) with
  | some i => i + 1
  | none => 0

/-- `floor_log2<T>(x)` for an unsigned type `T`:
`x < 2 ? x : 1 + floor_log2(x >> 1)`. -/
def floor_log2 (x : Nat) : Nat :=
  if x < 2 then x else 1 + floor_log2 (x >>> 1)
termination_by x
decreasing_by
  rw [Nat.shiftRight_eq_div_pow]
  omega

/-- `get_num_bits<T>(x)`. -/
def get_num_bits (x : Nat) : Nat := floor_log2 x

/-- The recursion of `floor_log2` with a bound on its depth: `none` when more
than `depth` nested calls would be needed. -/
def floor_log2_within : Nat → Nat → Option Nat
  | 0, _ => none
  | depth + 1, x =>
    if x < 2 then some x else (floor_log2_within depth (x >>> 1)).map (fun r => 1 + r)

/-- `MIN(m_a, m_b)` on integers of one type. -/
def MIN (m_a m_b : Int) : Int := if m_a < m_b then m_a else m_b

/-- `MAX(m_a, m_b)` on integers of one type. -/
def MAX (m_a m_b : Int) : Int := if m_a > m_b then m_a else m_b

/-- `CLAMP(m_a, m_min, m_max)` on integers of one type. -/
def CLAMP (m_a m_min m_max : Int) : Int :=
  if m_a < m_min then m_min else (if m_a > m_max then m_max else m_a)

/-- Portable `BSWAP16(x)`: `x` is promoted to `int`, the result is converted
back to `uint16_t`. -/
def BSWAP16 (x : Nat) : Nat := ((x >>> 8) ||| (x <<< 8)) % 2 ^ 16

/-- Portable `BSWAP32(x)`; `<<` on `uint32_t` is taken modulo `2 ^ 32`. -/
def BSWAP32 (x : Nat) : Nat :=
  ((x <<< 24) % 2 ^ 32) ||| (((x <<< 8) % 2 ^ 32) &&& 0x00FF0000)
    ||| ((x >>> 8) &&& 0x0000FF00) ||| (x >>> 24)

/-- Portable `BSWAP64(x)`; `<<` on `uint64_t` is taken modulo `2 ^ 64`. -/
def BSWAP64 (x : Nat) : Nat :=
  let x := (((x &&& 0x00000000FFFFFFFF) <<< 32) % 2 ^ 64)
    ||| ((x &&& 0xFFFFFFFF00000000) >>> 32)
  let x := (((x &&& 0x0000FFFF0000FFFF) <<< 16) % 2 ^ 64)
    ||| ((x &&& 0xFFFF0000FFFF0000) >>> 16)
  let x := (((x &&& 0x00FF00FF00FF00FF) <<< 8) % 2 ^ 64)
    ||| ((x &&& 0xFF00FF00FF00FF00) >>> 8)
  x

/-- Byte `i` of `x` (byte 0 is the least significant). -/
def byte_of (x i : Nat) : Nat := (x >>> (8 * i)) % 256

/-! ## Stringification of macro arguments

`#define _STR(m_x) #m_x` (typedefs.hpp). A macro of error_macros.hpp names its
parameter inside `_STR(...)`; the parameter is not an operand of `#` there, so
the argument is macro-replaced before `_STR` is applied to it, and `#m_x` then
spells the replaced tokens. -/

/-- A preprocessing token of a macro argument: its spelling, and whether white
space (any amount of it) stands before the token in the source. -/
structure PPToken where
  spelling : String
  space_before : Bool
  deriving DecidableEq, Repr

/-- The replacement list of a macro put in the place of the token `t` that
names it: its first token takes over the white space that stood before `t`. -/
def replacement_at (t : PPToken) : List PPToken → List PPToken
  | [] => []
  | first :: rest => ⟨first.spelling, t.space_before⟩ :: rest

/-- Macro replacement of a token sequence. `defs` lists the object-like macros
defined at the place of use (name and replacement list). A token that names a
macro is replaced by the macro's replacement list, which is rescanned with
that macro no longer available (a macro is not replaced inside its own
replacement). `depth` bounds the nesting of replacements. Function-like macros
inside an argument are not modelled. -/
def macro_replace : Nat → List (String × List PPToken) → List PPToken → List PPToken
  | 0, _, tokens => tokens
  | depth + 1, defs, tokens =>
    tokens.foldr (fun t acc =>
      (match defs.find? (fun d => d.1 == t.spelling) with
        | some d =>
          macro_replace depth (defs.filter (fun e => e.1 != d.1)) (replacement_at t d.2)
        | none => [t]) ++ acc) []

/-- The argument as it is substituted for a parameter that is not an operand
of `#` or `##`: completely macro-replaced. Every nested replacement makes one
macro unavailable, so the depth `defs.length` is enough. -/
def argument_replaced (defs : List (String × List PPToken)) (argument : List PPToken) :
    List PPToken :=
  macro_replace defs.length defs argument

/-- Spelling of the tokens after the first one: one space where white space
stood before a token, nothing otherwise. -/
def spell_rest : List PPToken → String
  | [] => ""
  | t :: rest => (if t.space_before then " " else "") ++ t.spelling ++ spell_rest rest

/-- `_STR(m_x)`, that is `#m_x`: the spelling of the tokens of `m_x`, with every
run of white space between two tokens reduced to one space and none before
the first token. -/
def _STR : List PPToken → String
  | [] => ""
  | t :: rest => t.spelling ++ spell_rest rest

/-- The string that `_STR(m_param)` in the replacement text of a macro of
error_macros.hpp becomes when the macro is used with the argument `argument`
where the object-like macros `defs` are defined. -/
def stringified (defs : List (String × List PPToken)) (argument : List PPToken) : String :=
  _STR (argument_replaced defs argument)

/-- Whether no token of the argument names one of the macros `defs`. -/
def free_of_macros (defs : List (String × List PPToken)) (argument : List PPToken) : Bool :=
  argument.all (fun t => (defs.find? (fun d => d.1 == t.spelling)).isNone)

/-! ## Index macros with the argument expressions evaluated where they occur

The replacement text names `m_index` and `m_size` in the guard and again in
the call of `_error_print_index_error`, and each occurrence is evaluated when
control reaches it. Here `m_index k` is the value the index expression yields
at its `k`-th evaluation within one execution of the macro (`k = 0` in the
guard, `k = 1` in the call), likewise `m_size k`. An expression without side
effects yields the same value each time; the definitions of the same macros
further up are that case. Only the index macros that are statements are
given. -/

/-- `ERROR_FAIL_UNSIGNED_INDEX_V_EDMSG(m_index, m_size, m_retval, m_msg)`. -/
def ERROR_FAIL_UNSIGNED_INDEX_V_EDMSG_evaluating {R : Type} (site : CallSite)
    (m_index m_size : Nat → Nat) (str_index str_size : String) (m_retval : R)
    (m_msg : String) : Step R :=
  if unlikely (decide (m_index 0 ≥ m_size 0)) then
    ⟨[_error_print_index_error site (m_index 1 : Int) (m_size 1 : Int) str_index str_size
      m_msg true false], Flow.retv m_retval⟩
  else ⟨[], Flow.next⟩

/-- `CRASH_BAD_UNSIGNED_INDEX(m_index, m_size)`. -/
def CRASH_BAD_UNSIGNED_INDEX_evaluating {R : Type} (site : CallSite)
    (m_index m_size : Nat → Nat) (str_index str_size : String) : Step R :=
  if unlikely (decide (m_index 0 ≥ m_size 0)) then
    ⟨[_error_print_index_error site (m_index 1 : Int) (m_size 1 : Int) str_index str_size
      "" false true,
      _error_flush_stdout, GENERATE_TRAP], Flow.trapped⟩
  else ⟨[], Flow.next⟩

/-- `CRASH_BAD_UNSIGNED_INDEX_MSG(m_index, m_size, m_msg)`. -/
def CRASH_BAD_UNSIGNED_INDEX_MSG_evaluating {R : Type} (site : CallSite)
    (m_index m_size : Nat → Nat) (str_index str_size : String) (m_msg : String) : Step R :=
  if unlikely (decide (m_index 0 ≥ m_size 0)) then
    ⟨[_error_print_index_error site (m_index 1 : Int) (m_size 1 : Int) str_index str_size
      m_msg false true,
      _error_flush_stdout, GENERATE_TRAP], Flow.trapped⟩
  else ⟨[], Flow.next⟩

/-- An expression that yields `first` at its first evaluation and `later` at
every further one, such as `i++`. -/
def yields (first later : Nat) : Nat → Nat
  | 0 => first
  | _ + 1 => later

/-! ## Concrete values used in examples -/

/-- A handler entry at address 1. -/
def handler_a : ErrorHandlerList := ⟨1, 100, 0⟩

/-- A handler entry at address 2. -/
def handler_b : ErrorHandlerList := ⟨2, 200, 0⟩

/-- A handler entry at address 3. -/
def handler_c : ErrorHandlerList := ⟨3, 300, 0⟩

/-- An event as a handler receives it. -/
def sample_event : DiagnosticEvent :=
  ⟨"f", "file.cpp", 10, "Condition \"x > 0\" is true.", "msg", false,
    ErrorHandlerType.ERROR_HANDLER_ERROR⟩

/-- A call site. -/
def sample_site : CallSite := ⟨"f", "file.cpp", 10⟩

/-- Three call sites: an `ERROR_PRINT_ONCE`, a `WARNING_DEPRECATED` and a
`WARNING_PRINT_ONCE_ED`. -/
def sample_sites : Nat → CallSite × Idiom Unit
  | 0 => (⟨"f", "a.cpp", 1⟩, Idiom.ERROR_PRINT_ONCE "first")
  | 1 => (⟨"g", "a.cpp", 2⟩, Idiom.WARNING_DEPRECATED)
  | _ => (⟨"h", "b.cpp", 3⟩, Idiom.WARNING_PRINT_ONCE_ED "third")

/-- Two distinct handler entries with the same callback and the same user
context. -/
def twin_handler_a : ErrorHandlerList := ⟨10, 500, 9⟩

/-- The second of the two entries with the same callback and user context. -/
def twin_handler_b : ErrorHandlerList := ⟨11, 500, 9⟩

/-- The object-like macro `#define MAX_RECURSION 100` of typedefs.hpp. -/
def typedefs_macros : List (String × List PPToken) := [("MAX_RECURSION", [⟨"100", false⟩])]

/-- The argument text `x > MAX_RECURSION`. -/
def tokens_x_gt_MAX_RECURSION : List PPToken :=
  [⟨"x", false⟩, ⟨">", true⟩, ⟨"MAX_RECURSION", true⟩]

/-- The argument text `x > 0`. -/
def tokens_x_gt_0 : List PPToken := [⟨"x", false⟩, ⟨">", true⟩, ⟨"0", true⟩]

/-- The argument text `table[MAX_RECURSION]`. -/
def tokens_table_at_MAX_RECURSION : List PPToken :=
  [⟨"table", false⟩, ⟨"[", false⟩, ⟨"MAX_RECURSION", false⟩, ⟨"]", false⟩]

/-- The argument text `ptr`. -/
def tokens_ptr : List PPToken := [⟨"ptr", false⟩]
/-! ## Theorems: handler chain -/

theorem chain_after_snoc (ops : List RegistryOp) (op : RegistryOp) :
    chain_after (ops ++ [op]) = op.apply (chain_after ops) := by
  simp [chain_after, List.foldl_append]

theorem remove_error_handler_eq_filter (h : ErrorHandlerList) :
    ∀ chain : List ErrorHandlerList, (chain.map ErrorHandlerList.addr).Nodup →
      remove_error_handler h chain = chain.filter (fun l => decide (l.addr ≠ h.addr))
  | [], _ => rfl
  | l :: rest, hnd => by
    rw [List.map_cons, List.nodup_cons] at hnd
    by_cases hl : l.addr = h.addr
    · have hrest : ∀ x ∈ rest, x.addr ≠ h.addr := by
        intro x hx hxe
        exact hnd.1 (List.mem_map.mpr ⟨x, hx, by rw [hxe, hl]⟩)
      simp only [remove_error_handler, hl, if_true, List.filter_cons, ne_eq, not_true_eq_false,
        decide_False, Bool.false_eq_true, if_false]
      symm
      rw [List.filter_eq_self]
      intro x hx
      simpa using hrest x hx
    · simp only [remove_error_handler, hl, if_false, List.filter_cons, ne_eq, not_false_eq_true,
        decide_True, if_true]
      rw [remove_error_handler_eq_filter h rest hnd.2]

theorem registry_invariant (ops : List RegistryOp) :
    no_double_registration ops →
      ((chain_after ops).map ErrorHandlerList.addr).Nodup ∧
      ∀ decided : List Nat, registered_newest_first ops.reverse decided
        = (chain_after ops).filter (fun l => decide (l.addr ∉ decided)) := by
  induction ops using List.reverseRecOn with
  | nil =>
    intro _
    exact ⟨by simp [chain_after], fun _ => by simp [chain_after, registered_newest_first]⟩
  | append_singleton ops op ih =>
    intro hwf
    unfold no_double_registration at hwf ih
    rw [List.reverse_append, List.reverse_singleton, List.singleton_append] at hwf
    rw [List.reverse_append, List.reverse_singleton, List.singleton_append, chain_after_snoc]
    cases op with
    | add h =>
      obtain ⟨hfresh, hold⟩ := hwf
      obtain ⟨hnd, hreg⟩ := ih hold
      have hnot : h.addr ∉ (chain_after ops).map ErrorHandlerList.addr := by
        rw [hreg []] at hfresh
        simpa using hfresh
      refine ⟨?_, ?_⟩
      · simp only [RegistryOp.apply, add_error_handler, List.map_cons]
        exact List.nodup_cons.mpr ⟨hnot, hnd⟩
      · intro decided
        simp only [RegistryOp.apply, add_error_handler, registered_newest_first]
        by_cases hd : h.addr ∈ decided
        · simp [hd, hreg decided]
        · simp only [hd, if_false, List.filter_cons, not_false_eq_true, decide_True, if_true]
          rw [hreg (h.addr :: decided)]
          congr 1
          apply List.filter_congr
          intro x hx
          have hxne : x.addr ≠ h.addr := fun he => hnot (List.mem_map.mpr ⟨x, hx, he⟩)
          simp [hxne]
    | remove h =>
      obtain ⟨hnd, hreg⟩ := ih hwf
      simp only [RegistryOp.apply]
      rw [remove_error_handler_eq_filter h _ hnd]
      refine ⟨?_, ?_⟩
      · exact hnd.sublist ((List.filter_sublist _).map _)
      · intro decided
        simp only [registered_newest_first]
        rw [hreg (h.addr :: decided), List.filter_filter]
        apply List.filter_congr
        intro x _
        simp [Bool.and_comm]
    | report ev =>
      obtain ⟨hnd, hreg⟩ := ih hwf
      exact ⟨hnd, fun decided => by simp only [registered_newest_first, RegistryOp.apply]; exact hreg decided⟩

theorem run_registry_append (pre rest : List RegistryOp) :
    ∀ chain : List ErrorHandlerList,
      run_registry chain (pre ++ rest)
        = run_registry chain pre ++ run_registry (pre.foldl RegistryOp.apply chain) rest := by
  induction pre with
  | nil => intro chain; simp [run_registry]
  | cons op ops ih =>
    intro chain
    cases op <;> simp [run_registry, RegistryOp.apply, ih]

/-- C1: in every sequence of add_error_handler / remove_error_handler calls
interleaved with reports that keeps the caller's rule of the chain (an entry is
not added while it is registered), a report invokes exactly the handlers
registered at that moment, each exactly once, most recently registered first. -/
theorem C1_report_invokes_registered_handlers (pre post : List RegistryOp)
    (ev : DiagnosticEvent) (h : no_double_registration pre) :
    run_registry [] (pre ++ RegistryOp.report ev :: post)
      = run_registry [] pre
          ++ (registered pre).map (fun l => (⟨l, ev⟩ : Invocation))
            :: run_registry (chain_after pre) post
    ∧ ((registered pre).map ErrorHandlerList.addr).Nodup := by
  obtain ⟨hnd, hreg⟩ := registry_invariant pre h
  have hchain : registered pre = chain_after pre := by
    unfold registered
    rw [hreg []]
    simp
  refine ⟨?_, by rw [hchain]; exact hnd⟩
  rw [run_registry_append, hchain]
  simp [run_registry, broadcast, chain_after]

theorem C1_report_invokes_registered_handlers_witness :
    no_double_registration [RegistryOp.add handler_a, RegistryOp.add handler_b,
        RegistryOp.report sample_event, RegistryOp.remove handler_a, RegistryOp.add handler_c]
    ∧ run_registry [] ([RegistryOp.add handler_a, RegistryOp.add handler_b,
        RegistryOp.report sample_event, RegistryOp.remove handler_a, RegistryOp.add handler_c]
          ++ RegistryOp.report sample_event :: [])
      = [[⟨handler_b, sample_event⟩, ⟨handler_a, sample_event⟩],
         [⟨handler_c, sample_event⟩, ⟨handler_b, sample_event⟩]] :=
  ⟨by simp [no_double_registration, no_double_registration_newest_first,
      registered_newest_first, handler_a, handler_b, handler_c],
   (C1_report_invokes_registered_handlers _ [] sample_event
      (by simp [no_double_registration, no_double_registration_newest_first,
        registered_newest_first, handler_a, handler_b, handler_c])).1.trans (by decide)⟩

/-! ## Theorems: call-site idioms -/

theorem run_of_not_a_statement {R : Type} (site : CallSite) (i : Idiom R) (static_var : Bool)
    (h : i.is_statement = false) :
    i.run site static_var = (⟨[], Flow.ill_formed⟩, static_var) := by
  cases i <;> simp only [Idiom.is_statement, Bool.true_eq_false] at h <;> rfl

theorem flow_of_statement {R : Type} (site : CallSite) (i : Idiom R) (static_var : Bool)
    (h : i.is_statement = true) :
    (i.run site static_var).1.flow ≠ Flow.ill_formed := by
  cases i <;> simp only [Idiom.is_statement, Bool.false_eq_true] at h <;>
    simp only [Idiom.run,
      ERROR_FAIL_UNSIGNED_INDEX_V_EDMSG, CRASH_BAD_UNSIGNED_INDEX,
      CRASH_BAD_UNSIGNED_INDEX_MSG, ERROR_FAIL_NULL, ERROR_FAIL_NULL_MSG,
      ERROR_FAIL_NULL_EDMSG, ERROR_FAIL_NULL_V, ERROR_FAIL_NULL_V_MSG,
      ERROR_FAIL_NULL_V_EDMSG, ERROR_FAIL_COND, ERROR_FAIL_COND_MSG,
      ERROR_FAIL_COND_EDMSG, ERROR_FAIL_COND_V, ERROR_FAIL_COND_V_MSG,
      ERROR_FAIL_COND_V_EDMSG, ERROR_CONTINUE, ERROR_CONTINUE_MSG, ERROR_CONTINUE_EDMSG,
      ERROR_BREAK, ERROR_BREAK_MSG, ERROR_BREAK_EDMSG, CRASH_COND, CRASH_COND_MSG,
      ERROR_FAIL, ERROR_FAIL_MSG, ERROR_FAIL_EDMSG, ERROR_FAIL_V, ERROR_FAIL_V_MSG,
      ERROR_FAIL_V_EDMSG, ERROR_PRINT, ERROR_PRINT_ED, ERROR_PRINT_ONCE,
      ERROR_PRINT_ONCE_ED, WARNING_PRINT, WARNING_PRINT_ED, WARNING_PRINT_ONCE,
      WARNING_PRINT_ONCE_ED, WARN_PRINT, WARNING_VERBOSE, WARNING_DEPRECATED,
      WARNING_DEPRECATED_MSG, CRASH_NOW, CRASH_NOW_MSG, unlikely] <;>
    (repeat' split) <;> simp

theorem crash_idiom_reports_flushes_traps {R : Type} (site : CallSite) (i : Idiom R)
    (static_var : Bool) (rest : Step R)
    (hcrash : i.is_crash = true) (hviolated : i.guard_violated = true)
    (hstatement : i.is_statement = true) :
    ∃ report : Call, report.is_report = true
      ∧ (i.run site static_var).1
          = ⟨[report, _error_flush_stdout, GENERATE_TRAP], Flow.trapped⟩
      ∧ (i.run site static_var).1.seq rest
          = ⟨[report, _error_flush_stdout, GENERATE_TRAP], Flow.trapped⟩ := by
  cases i <;> simp only [Idiom.is_crash, Bool.false_eq_true] at hcrash <;>
    simp only [Idiom.is_statement, Bool.false_eq_true] at hstatement <;>
    simp only [Idiom.guard_violated, decide_eq_true_eq] at hviolated <;>
    simp [Idiom.run, CRASH_BAD_UNSIGNED_INDEX,
      CRASH_BAD_UNSIGNED_INDEX_MSG, CRASH_COND, CRASH_COND_MSG, CRASH_NOW, CRASH_NOW_MSG,
      unlikely, hviolated, Step.seq, _error_print_index_error, _error_print_error,
      _error_flush_stdout, GENERATE_TRAP, Call.is_report]

/-- C2 does not hold of CRASH_BAD_INDEX and CRASH_BAD_INDEX_MSG: with index 5
and size 3 the guard is violated, but the replacement text ends in
`else { ((void)0) }`, so the use is not a statement and there is no report, no
flush and no trap. CRASH_BAD_UNSIGNED_INDEX, whose text ends in
`else ((void)0)`, reports, flushes and traps on the same values, and control
does not reach the statements after it. -/
theorem C2_CRASH_BAD_INDEX_is_not_a_statement :
    (Idiom.CRASH_BAD_INDEX 5 3 "i" "n" : Idiom Unit).is_crash = true
    ∧ (Idiom.CRASH_BAD_INDEX 5 3 "i" "n" : Idiom Unit).guard_violated = true
    ∧ ((Idiom.CRASH_BAD_INDEX 5 3 "i" "n" : Idiom Unit).run sample_site false).1
        = ⟨[], Flow.ill_formed⟩
    ∧ (Idiom.CRASH_BAD_INDEX_MSG 5 3 "i" "n" "bad" : Idiom Unit).guard_violated = true
    ∧ ((Idiom.CRASH_BAD_INDEX_MSG 5 3 "i" "n" "bad" : Idiom Unit).run sample_site false).1
        = ⟨[], Flow.ill_formed⟩
    ∧ ((Idiom.CRASH_BAD_UNSIGNED_INDEX 5 3 "i" "n" : Idiom Unit).run sample_site false).1
        = ⟨[Call.print_index_error sample_site 5 3 "i" "n" "" false true,
            _error_flush_stdout, GENERATE_TRAP], Flow.trapped⟩
    ∧ ((Idiom.CRASH_BAD_UNSIGNED_INDEX 5 3 "i" "n" : Idiom Unit).run sample_site
          false).1.seq ⟨[_error_flush_stdout], Flow.next⟩
        = ⟨[Call.print_index_error sample_site 5 3 "i" "n" "" false true,
            _error_flush_stdout, GENERATE_TRAP], Flow.trapped⟩ := by
  decide

theorem execute_times_idle {R : Type} (stmt : Bool → Step R × Bool) (static_var : Bool)
    (h : stmt static_var = (⟨[], Flow.next⟩, static_var)) (n : Nat) :
    execute_times stmt n static_var = (List.replicate n ⟨[], Flow.next⟩, static_var) := by
  induction n with
  | zero => rfl
  | succ n ih => simp [execute_times, h, ih, List.replicate_succ]

theorem execute_times_fire {R : Type} (stmt : Bool → Step R × Bool) (unfired fired : Bool)
    (first : Step R) (hfire : stmt unfired = (first, fired))
    (hidle : stmt fired = (⟨[], Flow.next⟩, fired)) (n : Nat) :
    execute_times stmt (n + 1) unfired
      = (first :: List.replicate n ⟨[], Flow.next⟩, fired) := by
  simp [execute_times, hfire, execute_times_idle stmt fired hidle]

/-- C3: for every N >= 1, one ERROR_PRINT_ONCE (ERROR_PRINT_ONCE_ED,
WARNING_PRINT_ONCE, WARNING_PRINT_ONCE_ED) call site executed N times in
sequence makes exactly one report, on the first execution; every later
execution reports nothing, and the latch, once fired, stays fired. -/
theorem C3_print_once_reports_exactly_once {R : Type} (site : CallSite) (m_msg : String)
    (N : Nat) (hN : 1 ≤ N) :
    execute_times (@ERROR_PRINT_ONCE R site m_msg) N true
        = (⟨[_error_print_error site m_msg none false .ERROR_HANDLER_ERROR], Flow.next⟩
            :: List.replicate (N - 1) ⟨[], Flow.next⟩, false)
    ∧ execute_times (@ERROR_PRINT_ONCE_ED R site m_msg) N true
        = (⟨[_error_print_error site m_msg none true .ERROR_HANDLER_ERROR], Flow.next⟩
            :: List.replicate (N - 1) ⟨[], Flow.next⟩, false)
    ∧ execute_times (@WARNING_PRINT_ONCE R site m_msg) N true
        = (⟨[_error_print_error site m_msg none false ERR_HANDLER_WARNING], Flow.next⟩
            :: List.replicate (N - 1) ⟨[], Flow.next⟩, false)
    ∧ execute_times (@WARNING_PRINT_ONCE_ED R site m_msg) N true
        = (⟨[_error_print_error site m_msg none true ERR_HANDLER_WARNING], Flow.next⟩
            :: List.replicate (N - 1) ⟨[], Flow.next⟩, false)
    ∧ ∀ k : Nat, 1 ≤ k → k ≤ N →
        (execute_times (@ERROR_PRINT_ONCE R site m_msg) k true).2 = false
        ∧ (execute_times (@ERROR_PRINT_ONCE_ED R site m_msg) k true).2 = false
        ∧ (execute_times (@WARNING_PRINT_ONCE R site m_msg) k true).2 = false
        ∧ (execute_times (@WARNING_PRINT_ONCE_ED R site m_msg) k true).2 = false := by
  obtain ⟨n, rfl⟩ : ∃ n, N = n + 1 := ⟨N - 1, by omega⟩
  refine ⟨?_, ?_, ?_, ?_, ?_⟩
  · exact execute_times_fire _ true false _ (by simp [ERROR_PRINT_ONCE])
      (by simp [ERROR_PRINT_ONCE]) n
  · exact execute_times_fire _ true false _ (by simp [ERROR_PRINT_ONCE_ED])
      (by simp [ERROR_PRINT_ONCE_ED]) n
  · exact execute_times_fire _ true false _ (by simp [WARNING_PRINT_ONCE])
      (by simp [WARNING_PRINT_ONCE]) n
  · exact execute_times_fire _ true false _ (by simp [WARNING_PRINT_ONCE_ED])
      (by simp [WARNING_PRINT_ONCE_ED]) n
  · intro k hk _
    obtain ⟨j, rfl⟩ : ∃ j, k = j + 1 := ⟨k - 1, by omega⟩
    refine ⟨?_, ?_, ?_, ?_⟩
    · rw [execute_times_fire _ true false _ (rfl : @ERROR_PRINT_ONCE R site m_msg true = _) rfl j]
    · rw [execute_times_fire _ true false _ (rfl : @ERROR_PRINT_ONCE_ED R site m_msg true = _) rfl j]
    · rw [execute_times_fire _ true false _ (rfl : @WARNING_PRINT_ONCE R site m_msg true = _) rfl j]
    · rw [execute_times_fire _ true false _ (rfl : @WARNING_PRINT_ONCE_ED R site m_msg true = _) rfl j]

theorem C3_print_once_reports_exactly_once_witness :
    1 ≤ 3
    ∧ execute_times (@ERROR_PRINT_ONCE Unit sample_site "once") 3 true
        = ([⟨[_error_print_error sample_site "once" none false .ERROR_HANDLER_ERROR],
              Flow.next⟩, ⟨[], Flow.next⟩, ⟨[], Flow.next⟩], false) :=
  ⟨by decide, (C3_print_once_reports_exactly_once sample_site "once" 3 (by decide)).1⟩

/-- C4 does not hold of the code: the replacement text of ERROR_FAIL_INDEX and
of ERROR_FAIL_INDEX_MSG ends in `else { ((void)0) }`, so for every index and
size a use is not a statement. With index -1 and size 3 there is no report and
no return, and with index 2 and size 3 execution does not continue with the
next statement. ERROR_FAIL_UNSIGNED_INDEX_V_EDMSG, whose text ends in
`else ((void)0)`, makes one index report and returns at index 5, size 3. -/
theorem C4_ERROR_FAIL_INDEX_is_not_a_statement {R : Type} (site : CallSite)
    (m_index m_size : Int) (str_index str_size m_msg : String) (rest : Step R) :
    @ERROR_FAIL_INDEX R site m_index m_size str_index str_size = ⟨[], Flow.ill_formed⟩
    ∧ @ERROR_FAIL_INDEX_MSG R site m_index m_size str_index str_size m_msg
        = ⟨[], Flow.ill_formed⟩
    ∧ (@ERROR_FAIL_INDEX R site m_index m_size str_index str_size).seq rest
        = ⟨[], Flow.ill_formed⟩
    ∧ reports (@ERROR_FAIL_INDEX R site m_index m_size str_index str_size).calls = []
    ∧ (@ERROR_FAIL_INDEX R site m_index m_size str_index str_size).flow ≠ Flow.ret
    ∧ (@ERROR_FAIL_INDEX R site m_index m_size str_index str_size).flow ≠ Flow.next
    ∧ @ERROR_FAIL_INDEX Unit sample_site (-1) 3 "i" "n" = ⟨[], Flow.ill_formed⟩
    ∧ @ERROR_FAIL_INDEX_MSG Unit sample_site (-1) 3 "i" "n" "bad" = ⟨[], Flow.ill_formed⟩
    ∧ @ERROR_FAIL_INDEX Unit sample_site 2 3 "i" "n" = ⟨[], Flow.ill_formed⟩
    ∧ @ERROR_FAIL_UNSIGNED_INDEX_V_EDMSG Unit sample_site 5 3 "i" "n" () "bad"
        = ⟨[Call.print_index_error sample_site 5 3 "i" "n" "bad" true false],
            Flow.retv ()⟩ := by
  refine ⟨rfl, rfl, rfl, rfl, ?_, ?_, rfl, rfl, rfl, by decide⟩
  · intro h
    cases h
  · intro h
    cases h

/-- C5: for every boolean condition c, ERROR_FAIL_COND(c) (and
ERROR_FAIL_COND_MSG) makes exactly one report and returns from the enclosing
function without executing the following statements if c is true; if c is
false it reports nothing and execution continues with the next statement. -/
theorem C5_ERROR_FAIL_COND_reports_and_returns_iff_true {R : Type}
    (site : CallSite) (str_cond m_msg : String) (rest : Step R) :
    (@ERROR_FAIL_COND R site true str_cond).seq rest
        = ⟨[_error_print_error site ("Condition \"" ++ str_cond ++ "\" is true.") none false
              .ERROR_HANDLER_ERROR], Flow.ret⟩
    ∧ (reports ((@ERROR_FAIL_COND R site true str_cond).seq rest).calls).length = 1
    ∧ @ERROR_FAIL_COND R site false str_cond = ⟨[], Flow.next⟩
    ∧ (@ERROR_FAIL_COND R site false str_cond).seq rest = rest
    ∧ (@ERROR_FAIL_COND_MSG R site true str_cond m_msg).seq rest
        = ⟨[_error_print_error site ("Condition \"" ++ str_cond ++ "\" is true.") (some m_msg)
              false .ERROR_HANDLER_ERROR], Flow.ret⟩
    ∧ (reports ((@ERROR_FAIL_COND_MSG R site true str_cond m_msg).seq rest).calls).length = 1
    ∧ @ERROR_FAIL_COND_MSG R site false str_cond m_msg = ⟨[], Flow.next⟩
    ∧ (@ERROR_FAIL_COND_MSG R site false str_cond m_msg).seq rest = rest := by
  simp [ERROR_FAIL_COND, ERROR_FAIL_COND_MSG, unlikely, Step.seq, reports, _error_print_error,
    Call.is_report]

/-! ## Theorems: the text of a stringified argument -/

theorem macro_replace_of_free_of_macros (defs : List (String × List PPToken)) :
    ∀ (depth : Nat) (argument : List PPToken), free_of_macros defs argument = true →
      macro_replace depth defs argument = argument
  | 0, _, _ => rfl
  | depth + 1, [], _ => rfl
  | depth + 1, t :: rest, h => by
    have hall : ((defs.find? (fun d => d.1 == t.spelling)).isNone
        && free_of_macros defs rest) = true := h
    rw [Bool.and_eq_true] at hall
    have ht : defs.find? (fun d => d.1 == t.spelling) = none := by
      simpa using hall.1
    have ih := macro_replace_of_free_of_macros defs (depth + 1) rest hall.2
    have hstep : macro_replace (depth + 1) defs (t :: rest)
        = (match defs.find? (fun d => d.1 == t.spelling) with
            | some d =>
              macro_replace depth (defs.filter (fun e => e.1 != d.1)) (replacement_at t d.2)
            | none => [t]) ++ macro_replace (depth + 1) defs rest := rfl
    rw [hstep, ht, ih]
    rfl

theorem stringified_of_free_of_macros (defs : List (String × List PPToken))
    (argument : List PPToken) (h : free_of_macros defs argument = true) :
    stringified defs argument = _STR argument := by
  unfold stringified argument_replaced
  rw [macro_replace_of_free_of_macros defs defs.length argument h]

/-- C6, as stated, fails: the primary message of a null report is not
"Parameter <p> is null." with p inserted as it is. The parameter text stands
between double quotes, and it is the text after macro replacement: for
ERROR_FAIL_NULL(table[MAX_RECURSION]) the message names table[100]. -/
theorem C6_null_message_has_quotes :
    (@ERROR_FAIL_NULL Unit sample_site nullptr (stringified typedefs_macros tokens_ptr)).calls
      = [Call.print_error sample_site "Parameter \"ptr\" is null." none false
          .ERROR_HANDLER_ERROR]
    ∧ (@ERROR_FAIL_NULL Unit sample_site nullptr
        (stringified typedefs_macros tokens_ptr)).calls.map Call.p_error
      ≠ [some ("Parameter " ++ "ptr" ++ " is null.")]
    ∧ _STR tokens_table_at_MAX_RECURSION = "table[MAX_RECURSION]"
    ∧ (@ERROR_FAIL_NULL Unit sample_site nullptr
        (stringified typedefs_macros tokens_table_at_MAX_RECURSION)).calls.map Call.p_error
      = [some "Parameter \"table[100]\" is null."]
    ∧ (@ERROR_FAIL_NULL Unit sample_site nullptr
        (stringified typedefs_macros tokens_table_at_MAX_RECURSION)).calls.map Call.p_error
      ≠ [some ("Parameter \"" ++ "table[MAX_RECURSION]" ++ "\" is null.")] := by
  decide

/-- C6 (amended): for every parameter expression p, each null idiom
(ERROR_FAIL_NULL, ERROR_FAIL_NULL_MSG, ERROR_FAIL_NULL_EDMSG, ERROR_FAIL_NULL_V,
ERROR_FAIL_NULL_V_MSG, ERROR_FAIL_NULL_V_EDMSG) reports if and only if the
parameter is null, and the primary message of that report is exactly
Parameter "q" is null. where q, between double quotes, is the text of p after
macro replacement, its tokens spelled with single spaces where white space
stood; q is the text of p itself when p names no macro. -/
theorem C6_null_idioms_report_iff_null {R : Type} (site : CallSite) (i : Idiom R)
    (static_var : Bool) (m_param : Nat) (defs : List (String × List PPToken))
    (p : List PPToken) (h : i.null_param = some (m_param, stringified defs p)) :
    (m_param = nullptr →
      ∃ (p_message : Option String) (p_editor_notify : Bool),
        (i.run site static_var).1.calls
          = [Call.print_error site ("Parameter \"" ++ stringified defs p ++ "\" is null.")
              p_message p_editor_notify .ERROR_HANDLER_ERROR])
    ∧ (m_param ≠ nullptr → (i.run site static_var).1 = ⟨[], Flow.next⟩)
    ∧ (free_of_macros defs p = true → stringified defs p = _STR p) := by
  refine ⟨?_, ?_, stringified_of_free_of_macros defs p⟩
  · generalize stringified defs p = str_param at h
    intro hnull
    cases i <;> simp [Idiom.null_param] at h <;>
      (obtain ⟨rfl, rfl⟩ := h
       simp [Idiom.run, ERROR_FAIL_NULL, ERROR_FAIL_NULL_MSG, ERROR_FAIL_NULL_EDMSG,
         ERROR_FAIL_NULL_V, ERROR_FAIL_NULL_V_MSG, ERROR_FAIL_NULL_V_EDMSG, unlikely, hnull,
         _error_print_error])
  · generalize stringified defs p = str_param at h
    intro hnonnull
    cases i <;> simp [Idiom.null_param] at h <;>
      (obtain ⟨rfl, rfl⟩ := h
       simp [Idiom.run, ERROR_FAIL_NULL, ERROR_FAIL_NULL_MSG, ERROR_FAIL_NULL_EDMSG,
         ERROR_FAIL_NULL_V, ERROR_FAIL_NULL_V_MSG, ERROR_FAIL_NULL_V_EDMSG, unlikely,
         hnonnull])

theorem C6_null_idioms_report_iff_null_witness :
    (Idiom.ERROR_FAIL_NULL_V_MSG nullptr
        (stringified typedefs_macros tokens_table_at_MAX_RECURSION) 7 "why" : Idiom Nat).null_param
      = some (nullptr, stringified typedefs_macros tokens_table_at_MAX_RECURSION)
    ∧ stringified typedefs_macros tokens_table_at_MAX_RECURSION = "table[100]"
    ∧ free_of_macros typedefs_macros tokens_ptr = true
    ∧ stringified typedefs_macros tokens_ptr = "ptr"
    ∧ ∃ (p_message : Option String) (p_editor_notify : Bool),
        ((Idiom.ERROR_FAIL_NULL_V_MSG nullptr
            (stringified typedefs_macros tokens_table_at_MAX_RECURSION) 7 "why" :
              Idiom Nat).run sample_site false).1.calls
          = [Call.print_error sample_site
              ("Parameter \"" ++ stringified typedefs_macros tokens_table_at_MAX_RECURSION
                ++ "\" is null.") p_message p_editor_notify .ERROR_HANDLER_ERROR] :=
  ⟨rfl, by decide, by decide, by decide,
    (C6_null_idioms_report_iff_null sample_site
      (Idiom.ERROR_FAIL_NULL_V_MSG nullptr
        (stringified typedefs_macros tokens_table_at_MAX_RECURSION) 7 "why") false nullptr
      typedefs_macros tokens_table_at_MAX_RECURSION rfl).1 rfl⟩

theorem value_returning_idioms {R : Type} (site : CallSite) (i : Idiom R)
    (static_var : Bool) (r : R) (rest : Step R) (h : i.supplied_value = some r)
    (hstatement : i.is_statement = true) :
    (i.guard_violated = true →
      ∃ report : Call, report.is_report = true
        ∧ (i.run site static_var).1.seq rest = ⟨[report], Flow.retv r⟩)
    ∧ (i.guard_violated = false →
        (i.run site static_var).1 = ⟨[], Flow.next⟩
        ∧ (i.run site static_var).1.seq rest = rest) := by
  cases i <;> simp [Idiom.supplied_value] at h <;>
    simp only [Idiom.is_statement, Bool.false_eq_true] at hstatement <;>
      (subst h
       refine ⟨fun hv => ?_, fun hv => ?_⟩ <;>
         simp only [Idiom.guard_violated, decide_eq_true_eq, decide_eq_false_iff_not,
           Bool.true_eq_false] at hv <;>
         simp [Idiom.run,
           ERROR_FAIL_UNSIGNED_INDEX_V_EDMSG, ERROR_FAIL_NULL_V, ERROR_FAIL_NULL_V_MSG,
           ERROR_FAIL_NULL_V_EDMSG, ERROR_FAIL_COND_V, ERROR_FAIL_COND_V_MSG,
           ERROR_FAIL_COND_V_EDMSG, ERROR_FAIL_V, ERROR_FAIL_V_MSG, ERROR_FAIL_V_EDMSG,
           unlikely, hv, Step.seq, _error_print_index_error, _error_print_error,
           Call.is_report])

/-- C7 does not hold of five of the idioms it names: ERROR_FAIL_INDEX_V,
ERROR_FAIL_INDEX_V_MSG, ERROR_FAIL_INDEX_V_EDMSG, ERROR_FAIL_UNSIGNED_INDEX_V
and ERROR_FAIL_UNSIGNED_INDEX_V_MSG end in `else { ((void)0) }` and are not
statements: with index 5, size 3 and value 42 nothing is reported and 42 is
not returned. ERROR_FAIL_UNSIGNED_INDEX_V_EDMSG, which ends in
`else ((void)0)`, makes one report and returns 42 on the same values. -/
theorem C7_index_value_idioms_are_not_statements :
    (Idiom.ERROR_FAIL_INDEX_V 5 3 "i" "n" 42 : Idiom Nat).supplied_value = some 42
    ∧ (Idiom.ERROR_FAIL_INDEX_V 5 3 "i" "n" 42 : Idiom Nat).guard_violated = true
    ∧ ((Idiom.ERROR_FAIL_INDEX_V 5 3 "i" "n" 42 : Idiom Nat).run sample_site false).1
        = ⟨[], Flow.ill_formed⟩
    ∧ ((Idiom.ERROR_FAIL_INDEX_V 5 3 "i" "n" 42 : Idiom Nat).run sample_site false).1.seq
          ⟨[], Flow.retv 0⟩ = ⟨[], Flow.ill_formed⟩
    ∧ ((Idiom.ERROR_FAIL_INDEX_V_MSG 5 3 "i" "n" 42 "bad" : Idiom Nat).run sample_site
          false).1 = ⟨[], Flow.ill_formed⟩
    ∧ ((Idiom.ERROR_FAIL_INDEX_V_EDMSG 5 3 "i" "n" 42 "bad" : Idiom Nat).run sample_site
          false).1 = ⟨[], Flow.ill_formed⟩
    ∧ ((Idiom.ERROR_FAIL_UNSIGNED_INDEX_V 5 3 "i" "n" 42 : Idiom Nat).run sample_site
          false).1 = ⟨[], Flow.ill_formed⟩
    ∧ ((Idiom.ERROR_FAIL_UNSIGNED_INDEX_V_MSG 5 3 "i" "n" 42 "bad" : Idiom Nat).run
          sample_site false).1 = ⟨[], Flow.ill_formed⟩
    ∧ ((Idiom.ERROR_FAIL_UNSIGNED_INDEX_V_EDMSG 5 3 "i" "n" 42 "bad" : Idiom Nat).run
          sample_site false).1.seq ⟨[], Flow.retv 0⟩
        = ⟨[Call.print_index_error sample_site 5 3 "i" "n" "bad" true false],
            Flow.retv 42⟩ := by
  decide

theorem ERROR_CONTINUE_true {R : Type} (site : CallSite) (str_cond : String) :
    @ERROR_CONTINUE R site true str_cond
      = ⟨[_error_print_error site ("Condition \"" ++ str_cond ++ "\" is true. Continuing.")
            none false .ERROR_HANDLER_ERROR], Flow.continue_⟩ := rfl

theorem ERROR_CONTINUE_false {R : Type} (site : CallSite) (str_cond : String) :
    @ERROR_CONTINUE R site false str_cond = ⟨[], Flow.next⟩ := rfl

theorem ERROR_BREAK_true {R : Type} (site : CallSite) (str_cond : String) :
    @ERROR_BREAK R site true str_cond
      = ⟨[_error_print_error site ("Condition \"" ++ str_cond ++ "\" is true. Breaking.")
            none false .ERROR_HANDLER_ERROR], Flow.break_⟩ := rfl

theorem ERROR_BREAK_false {R : Type} (site : CallSite) (str_cond : String) :
    @ERROR_BREAK R site false str_cond = ⟨[], Flow.next⟩ := rfl

/-- C8: for every list xs and predicate c, a loop over xs whose body starts
with ERROR_CONTINUE(c(x)) visits every element of xs, executes the rest of the
body exactly for the elements with c(x) false, in their original order, and
makes exactly one report for each element with c(x) true. -/
theorem C8_ERROR_CONTINUE_loop {α R : Type} (site : CallSite) (c : α → Bool)
    (str_cond : String) (xs : List α) :
    (for_each (fun x => @ERROR_CONTINUE R site (c x) str_cond) xs).visited = xs
    ∧ (for_each (fun x => @ERROR_CONTINUE R site (c x) str_cond) xs).rest_executed
        = xs.filter (fun x => !c x)
    ∧ (for_each (fun x => @ERROR_CONTINUE R site (c x) str_cond) xs).calls
        = (xs.filter c).map (fun _ =>
            _error_print_error site ("Condition \"" ++ str_cond ++ "\" is true. Continuing.")
              none false .ERROR_HANDLER_ERROR)
    ∧ (reports (for_each (fun x => @ERROR_CONTINUE R site (c x) str_cond) xs).calls).length
        = xs.countP c
    ∧ (for_each (fun x => @ERROR_CONTINUE R site (c x) str_cond) xs).flow = Flow.next := by
  have key : (for_each (fun x => @ERROR_CONTINUE R site (c x) str_cond) xs).visited = xs
      ∧ (for_each (fun x => @ERROR_CONTINUE R site (c x) str_cond) xs).rest_executed
          = xs.filter (fun x => !c x)
      ∧ (for_each (fun x => @ERROR_CONTINUE R site (c x) str_cond) xs).calls
          = (xs.filter c).map (fun _ =>
              _error_print_error site
                ("Condition \"" ++ str_cond ++ "\" is true. Continuing.")
                none false .ERROR_HANDLER_ERROR)
      ∧ (for_each (fun x => @ERROR_CONTINUE R site (c x) str_cond) xs).flow = Flow.next := by
    induction xs with
    | nil => simp [for_each]
    | cons x xs ih =>
      obtain ⟨hvis, hrest, hcalls, hflow⟩ := ih
      cases hc : c x
      · simp only [for_each, hc, ERROR_CONTINUE_false]
        simp [hvis, hrest, hcalls, hflow, hc]
      · simp only [for_each, hc, ERROR_CONTINUE_true]
        simp [hvis, hrest, hcalls, hflow, hc]
  obtain ⟨hvis, hrest, hcalls, hflow⟩ := key
  refine ⟨hvis, hrest, hcalls, ?_, hflow⟩
  rw [hcalls]
  simp [reports, _error_print_error, Call.is_report, List.countP_eq_length_filter]

/-- C9: for every list xs and predicate c, a loop over xs whose body starts
with ERROR_BREAK(c(x)) executes the rest of the body exactly for the longest
initial segment of xs all of whose elements have c false, visits no element
after the first one with c true, and makes exactly one report if some element
has c true and no report otherwise. -/
theorem C9_ERROR_BREAK_loop {α R : Type} (site : CallSite) (c : α → Bool)
    (str_cond : String) (xs : List α) :
    (for_each (fun x => @ERROR_BREAK R site (c x) str_cond) xs).rest_executed
        = xs.takeWhile (fun x => !c x)
    ∧ (for_each (fun x => @ERROR_BREAK R site (c x) str_cond) xs).visited
        = xs.take ((xs.takeWhile (fun x => !c x)).length + 1)
    ∧ (for_each (fun x => @ERROR_BREAK R site (c x) str_cond) xs).calls
        = (if xs.any c then
            [_error_print_error site ("Condition \"" ++ str_cond ++ "\" is true. Breaking.")
              none false .ERROR_HANDLER_ERROR]
          else [])
    ∧ (reports (for_each (fun x => @ERROR_BREAK R site (c x) str_cond) xs).calls).length
        = (if xs.any c then 1 else 0)
    ∧ (for_each (fun x => @ERROR_BREAK R site (c x) str_cond) xs).flow = Flow.next := by
  have key : (for_each (fun x => @ERROR_BREAK R site (c x) str_cond) xs).rest_executed
          = xs.takeWhile (fun x => !c x)
      ∧ (for_each (fun x => @ERROR_BREAK R site (c x) str_cond) xs).visited
          = xs.take ((xs.takeWhile (fun x => !c x)).length + 1)
      ∧ (for_each (fun x => @ERROR_BREAK R site (c x) str_cond) xs).calls
          = (if xs.any c then
              [_error_print_error site
                ("Condition \"" ++ str_cond ++ "\" is true. Breaking.")
                none false .ERROR_HANDLER_ERROR]
            else [])
      ∧ (for_each (fun x => @ERROR_BREAK R site (c x) str_cond) xs).flow = Flow.next := by
    induction xs with
    | nil => simp [for_each]
    | cons x xs ih =>
      obtain ⟨hrest, hvis, hcalls, hflow⟩ := ih
      cases hc : c x
      · simp only [for_each, hc, ERROR_BREAK_false]
        simp [hvis, hrest, hcalls, hflow, hc, List.takeWhile_cons]
      · simp only [for_each, hc, ERROR_BREAK_true]
        simp [hc, List.takeWhile_cons]
  obtain ⟨hrest, hvis, hcalls, hflow⟩ := key
  refine ⟨hrest, hvis, hcalls, ?_, hflow⟩
  rw [hcalls]
  split <;> simp [reports, _error_print_error, Call.is_report]

theorem recoverable_idiom_never_escalates {R : Type} (site : CallSite) (i : Idiom R)
    (static_var : Bool) (hrec : i.is_recoverable = true) :
    _error_flush_stdout ∉ (i.run site static_var).1.calls
    ∧ GENERATE_TRAP ∉ (i.run site static_var).1.calls
    ∧ (i.run site static_var).1.flow ≠ Flow.trapped := by
  cases i <;> simp only [Idiom.is_recoverable, Bool.false_eq_true] at hrec <;>
      simp only [Idiom.run,
      ERROR_FAIL_INDEX, ERROR_FAIL_INDEX_MSG, ERROR_FAIL_INDEX_EDMSG,
      ERROR_FAIL_INDEX_V, ERROR_FAIL_INDEX_V_MSG, ERROR_FAIL_INDEX_V_EDMSG,
      CRASH_BAD_INDEX, CRASH_BAD_INDEX_MSG, ERROR_FAIL_UNSIGNED_INDEX,
      ERROR_FAIL_UNSIGNED_INDEX_MSG, ERROR_FAIL_UNSIGNED_INDEX_EDMSG,
      ERROR_FAIL_UNSIGNED_INDEX_V, ERROR_FAIL_UNSIGNED_INDEX_V_MSG,
      ERROR_FAIL_UNSIGNED_INDEX_V_EDMSG, CRASH_BAD_UNSIGNED_INDEX,
      CRASH_BAD_UNSIGNED_INDEX_MSG, ERROR_FAIL_NULL, ERROR_FAIL_NULL_MSG,
      ERROR_FAIL_NULL_EDMSG, ERROR_FAIL_NULL_V, ERROR_FAIL_NULL_V_MSG,
      ERROR_FAIL_NULL_V_EDMSG, ERROR_FAIL_COND, ERROR_FAIL_COND_MSG,
      ERROR_FAIL_COND_EDMSG, ERROR_FAIL_COND_V, ERROR_FAIL_COND_V_MSG,
      ERROR_FAIL_COND_V_EDMSG, ERROR_CONTINUE, ERROR_CONTINUE_MSG, ERROR_CONTINUE_EDMSG,
      ERROR_BREAK, ERROR_BREAK_MSG, ERROR_BREAK_EDMSG, CRASH_COND, CRASH_COND_MSG,
      ERROR_FAIL, ERROR_FAIL_MSG, ERROR_FAIL_EDMSG, ERROR_FAIL_V, ERROR_FAIL_V_MSG,
      ERROR_FAIL_V_EDMSG, ERROR_PRINT, ERROR_PRINT_ED, ERROR_PRINT_ONCE,
      ERROR_PRINT_ONCE_ED, WARNING_PRINT, WARNING_PRINT_ED, WARNING_PRINT_ONCE,
      WARNING_PRINT_ONCE_ED, WARN_PRINT, WARNING_VERBOSE, WARNING_DEPRECATED,
      WARNING_DEPRECATED_MSG, CRASH_NOW, CRASH_NOW_MSG,
      unlikely, if_else_braced, _error_flush_stdout, GENERATE_TRAP, _error_print_error,
      _error_print_index_error] <;>
      (repeat' split) <;> simp

theorem crash_idiom_never_leaves {R : Type} (site : CallSite) (i : Idiom R)
    (static_var : Bool) (hcrash : i.is_crash = true) (hviolated : i.guard_violated = true) :
    (i.is_statement = true → (i.run site static_var).1.flow = Flow.trapped)
    ∧ (i.run site static_var).1.flow ≠ Flow.ret
    ∧ (∀ r : R, (i.run site static_var).1.flow ≠ Flow.retv r)
    ∧ (i.run site static_var).1.flow ≠ Flow.continue_
    ∧ (i.run site static_var).1.flow ≠ Flow.break_
    ∧ (i.run site static_var).1.flow ≠ Flow.next := by
  cases i <;> simp only [Idiom.is_crash, Bool.false_eq_true] at hcrash <;>
      simp only [Idiom.guard_violated, decide_eq_true_eq] at hviolated <;>
      simp only [Idiom.run, Idiom.is_statement, CRASH_BAD_INDEX, CRASH_BAD_INDEX_MSG,
        CRASH_BAD_UNSIGNED_INDEX, CRASH_BAD_UNSIGNED_INDEX_MSG, CRASH_COND, CRASH_COND_MSG,
        CRASH_NOW, CRASH_NOW_MSG, unlikely, if_else_braced, hviolated, decide_True,
        if_true] <;>
      simp

/-- C10: escalation is determined solely by the idiom: for every input, no
recoverable idiom (ERROR_FAIL_*, ERROR_CONTINUE*, ERROR_BREAK*, ERROR_PRINT*,
WARNING_*) invokes the flush hook or the trap, and no crash idiom whose guard
is violated returns, continues, breaks or falls through: a crash idiom that is
a statement ends in the trap (CRASH_BAD_INDEX and CRASH_BAD_INDEX_MSG are not
statements and do nothing at all). -/
theorem C10_escalation_determined_by_idiom {R : Type} (site : CallSite) (i : Idiom R)
    (static_var : Bool) :
    (i.is_recoverable = true →
        _error_flush_stdout ∉ (i.run site static_var).1.calls
        ∧ GENERATE_TRAP ∉ (i.run site static_var).1.calls
        ∧ (i.run site static_var).1.flow ≠ Flow.trapped)
    ∧ (i.is_crash = true → i.guard_violated = true →
        (i.is_statement = true → (i.run site static_var).1.flow = Flow.trapped)
        ∧ (i.run site static_var).1.flow ≠ Flow.ret
        ∧ (∀ r : R, (i.run site static_var).1.flow ≠ Flow.retv r)
        ∧ (i.run site static_var).1.flow ≠ Flow.continue_
        ∧ (i.run site static_var).1.flow ≠ Flow.break_
        ∧ (i.run site static_var).1.flow ≠ Flow.next)
    ∧ i.is_recoverable = !i.is_crash := by
  refine ⟨recoverable_idiom_never_escalates site i static_var,
    crash_idiom_never_leaves site i static_var, ?_⟩
  cases i <;> rfl

theorem C10_escalation_determined_by_idiom_witness :
    (Idiom.ERROR_FAIL_UNSIGNED_INDEX_V_EDMSG 5 3 "i" "n" () "bad" : Idiom Unit).is_recoverable
      = true
    ∧ _error_flush_stdout
        ∉ ((Idiom.ERROR_FAIL_UNSIGNED_INDEX_V_EDMSG 5 3 "i" "n" () "bad" : Idiom Unit).run
            sample_site false).1.calls
    ∧ (Idiom.CRASH_COND true "x" : Idiom Unit).is_crash = true
    ∧ (Idiom.CRASH_COND true "x" : Idiom Unit).guard_violated = true
    ∧ (Idiom.CRASH_COND true "x" : Idiom Unit).is_statement = true
    ∧ ((Idiom.CRASH_COND true "x" : Idiom Unit).run sample_site false).1.flow
        = Flow.trapped :=
  ⟨rfl,
   ((C10_escalation_determined_by_idiom sample_site
      (Idiom.ERROR_FAIL_UNSIGNED_INDEX_V_EDMSG 5 3 "i" "n" () "bad" : Idiom Unit) false).1
      rfl).1,
   rfl, rfl, rfl,
   ((C10_escalation_determined_by_idiom sample_site
      (Idiom.CRASH_COND true "x" : Idiom Unit) false).2.1 rfl rfl).1 rfl⟩

/-! ## Theorems: deprecation warnings and once-latches -/

/-- C11: a WARNING_DEPRECATED call site executed N >= 1 times in sequence makes
exactly one report, on the first execution, whose primary message is "This
method has been deprecated and will be removed in the future.", whose category
is Warning and whose editor-notify flag is false; WARNING_DEPRECATED_MSG does
the same and additionally hands over the caller's message. -/
theorem C11_WARNING_DEPRECATED_reports_once {R : Type} (site : CallSite) (m_msg : String)
    (N : Nat) (hN : 1 ≤ N) :
    execute_times (@WARNING_DEPRECATED R site) N false
        = (⟨[Call.print_error site
                "This method has been deprecated and will be removed in the future." none
                false ErrorHandlerType.ERROR_HANDLER_WARNING], Flow.next⟩
            :: List.replicate (N - 1) ⟨[], Flow.next⟩, true)
    ∧ execute_times (@WARNING_DEPRECATED_MSG R site m_msg) N false
        = (⟨[Call.print_error site
                "This method has been deprecated and will be removed in the future."
                (some m_msg) false ErrorHandlerType.ERROR_HANDLER_WARNING], Flow.next⟩
            :: List.replicate (N - 1) ⟨[], Flow.next⟩, true) := by
  obtain ⟨n, rfl⟩ : ∃ n, N = n + 1 := ⟨N - 1, by omega⟩
  exact ⟨execute_times_fire (@WARNING_DEPRECATED R site) false true _ rfl rfl n,
    execute_times_fire (@WARNING_DEPRECATED_MSG R site m_msg) false true _ rfl rfl n⟩

theorem C11_WARNING_DEPRECATED_reports_once_witness :
    1 ≤ 2
    ∧ execute_times (@WARNING_DEPRECATED Unit sample_site) 2 false
        = ([⟨[Call.print_error sample_site
                "This method has been deprecated and will be removed in the future." none
                false ErrorHandlerType.ERROR_HANDLER_WARNING], Flow.next⟩,
            ⟨[], Flow.next⟩], true) :=
  ⟨by decide, (C11_WARNING_DEPRECATED_reports_once sample_site "" 2 (by decide)).1⟩

theorem once_run_unfired {R : Type} (site : CallSite) (i : Idiom R) (h : i.is_once = true) :
    ∃ c : Call, c.is_report = true
      ∧ i.run site i.static_init = (⟨[c], Flow.next⟩, !i.static_init) := by
  cases i <;> simp [Idiom.is_once] at h <;>
    (refine ⟨_, ?_, rfl⟩; rfl)

theorem once_run_fired {R : Type} (site : CallSite) (i : Idiom R) (h : i.is_once = true) :
    i.run site (!i.static_init) = (⟨[], Flow.next⟩, !i.static_init) := by
  cases i <;> simp [Idiom.is_once] at h <;> rfl

theorem execute_schedule_invariant {R : Type} (sites : Nat → CallSite × Idiom R)
    (schedule : List Nat) (honce : ∀ k ∈ schedule, (sites k).2.is_once = true) :
    ∀ statics : Nat → Bool,
      ((execute_schedule sites schedule statics).1.map Prod.fst).Nodup
      ∧ (∀ k, k ∈ (execute_schedule sites schedule statics).1.map Prod.fst
            ↔ (k ∈ schedule ∧ statics k = (sites k).2.static_init))
      ∧ ∀ p ∈ (execute_schedule sites schedule statics).1, p.2.is_report = true := by
  induction schedule with
  | nil => intro statics; simp [execute_schedule]
  | cons k0 later ih =>
    intro statics
    have honce0 := honce k0 (List.mem_cons_self _ _)
    have ih := ih (fun k hk => honce k (List.mem_cons_of_mem _ hk))
    by_cases hfresh : statics k0 = (sites k0).2.static_init
    · -- the latch of `k0` is unfired: one report, and the latch fires
      obtain ⟨c, hc, hrun⟩ := once_run_unfired (sites k0).1 (sites k0).2 honce0
      obtain ⟨hnd, hmem, hrep⟩ :=
        ih (Function.update statics k0 (!(sites k0).2.static_init))
      have hk0 : k0 ∉ (execute_schedule sites later
          (Function.update statics k0 (!(sites k0).2.static_init))).1.map Prod.fst := by
        rw [hmem]
        simp
      simp only [execute_schedule, execute_site, hfresh, hrun, List.map_cons, List.map_nil,
        List.singleton_append]
      refine ⟨List.nodup_cons.mpr ⟨hk0, hnd⟩, fun k => ?_, fun p hp => ?_⟩
      · rw [List.mem_cons, hmem, List.mem_cons]
        by_cases hk : k = k0
        · subst hk; simp [hfresh]
        · simp [hk, Function.update_noteq hk]
      · rcases List.mem_cons.mp hp with rfl | hp
        · exact hc
        · exact hrep p hp
    · -- the latch of `k0` has fired: no report, nothing changes
      have hfired : statics k0 = !(sites k0).2.static_init := by
        cases hs : statics k0 <;> cases hi : (sites k0).2.static_init <;> simp_all
      have hrun := once_run_fired (sites k0).1 (sites k0).2 honce0
      obtain ⟨hnd, hmem, hrep⟩ := ih statics
      simp only [execute_schedule, execute_site, hfired, hrun, List.map_nil, List.nil_append]
      rw [← hfired, Function.update_eq_self]
      refine ⟨hnd, fun k => ?_, hrep⟩
      rw [hmem, List.mem_cons]
      by_cases hk : k = k0
      · subst hk; simp [hfresh]
      · simp [hk]

/-- C12: once-latches are independent per call site: executing a report-once or
deprecated call site changes only that call site's latch, and for every
interleaved execution sequence over K distinct once/deprecated call sites in
which each is executed at least once, exactly K reports are made, one per call
site. -/
theorem C12_once_latches_independent {R : Type} (sites : Nat → CallSite × Idiom R) (K : Nat)
    (schedule : List Nat)
    (honce : ∀ k, k < K → (sites k).2.is_once = true)
    (hin : ∀ k ∈ schedule, k < K)
    (hall : ∀ k, k < K → k ∈ schedule) :
    (∀ (k : Nat) (statics : Nat → Bool) (j : Nat), j ≠ k →
        (execute_site sites k statics).2 j = statics j)
    ∧ (reports ((execute_schedule sites schedule (initial_statics sites)).1.map Prod.snd)).length
        = K
    ∧ (execute_schedule sites schedule (initial_statics sites)).1.length = K
    ∧ ((execute_schedule sites schedule (initial_statics sites)).1.map Prod.fst).Perm
        (List.range K)
    ∧ ∀ k, k < K →
        ((execute_schedule sites schedule (initial_statics sites)).1.map Prod.fst).count k
          = 1 := by
  obtain ⟨hnd, hmem, hrep⟩ := execute_schedule_invariant sites schedule
    (fun k hk => honce k (hin k hk)) (initial_statics sites)
  have hperm : ((execute_schedule sites schedule (initial_statics sites)).1.map Prod.fst).Perm
      (List.range K) := by
    rw [List.perm_ext_iff_of_nodup hnd (List.nodup_range K)]
    intro k
    rw [hmem, List.mem_range]
    constructor
    · exact fun h => hin k h.1
    · exact fun h => ⟨hall k h, rfl⟩
  have hlen : (execute_schedule sites schedule (initial_statics sites)).1.length = K := by
    have := hperm.length_eq
    simpa using this
  refine ⟨fun k statics j hj => ?_, ?_, hlen, hperm, fun k hk => ?_⟩
  · simp [execute_site, Function.update_noteq hj]
  · have hall_rep : reports ((execute_schedule sites schedule (initial_statics sites)).1.map
        Prod.snd) = (execute_schedule sites schedule (initial_statics sites)).1.map Prod.snd := by
      unfold reports
      rw [List.filter_eq_self]
      intro c hc
      obtain ⟨p, hp, rfl⟩ := List.mem_map.mp hc
      exact hrep p hp
    rw [hall_rep, List.length_map, hlen]
  · rw [hperm.count_eq]
    exact List.count_eq_one_of_mem (List.nodup_range K) (List.mem_range.mpr hk)

theorem C12_once_latches_independent_witness :
    (∀ k, k < 3 → (sample_sites k).2.is_once = true)
    ∧ (∀ k ∈ [2, 0, 2, 1, 0, 1, 2], k < 3)
    ∧ (∀ k, k < 3 → k ∈ [2, 0, 2, 1, 0, 1, 2])
    ∧ (reports ((execute_schedule sample_sites [2, 0, 2, 1, 0, 1, 2]
          (initial_statics sample_sites)).1.map Prod.snd)).length = 3 :=
  ⟨by decide, by decide, by decide,
    (C12_once_latches_independent sample_sites 3 [2, 0, 2, 1, 0, 1, 2] (by decide) (by decide)
      (by decide)).2.1⟩

/-- C13, as stated, fails: the latch is written after the report, so a handler
that re-enters the reporting call site during the report finds the latch
unfired and a second report results. -/
theorem C13_reentry_during_report_reports_again :
    (@ERROR_PRINT_ONCE_during Unit sample_site "m"
        (reenter_once (@ERROR_PRINT_ONCE Unit sample_site "m")) true).1.calls
      = [Call.print_error sample_site "m" none false .ERROR_HANDLER_ERROR,
         Call.print_error sample_site "m" none false .ERROR_HANDLER_ERROR]
    ∧ (reports (@WARNING_DEPRECATED_during Unit sample_site
        (reenter_once (@WARNING_DEPRECATED Unit sample_site)) false).1.calls).length = 2 := by
  decide

/-- C13 (amended): on the first firing of a report-once or deprecated call site
the report is made while the latch still reads as unfired, and the latch is set
after the report has returned; code that re-enters the same call site during
that report therefore reports once more; once the first execution has
finished the latch reads as fired and a later execution makes no report. -/
theorem C13_latch_set_after_report {R : Type} (site : CallSite) (i : Idiom R)
    (during_report : Bool → List Call × Bool) (h : i.is_once = true) :
    ∃ report : Call, report.is_report = true
      ∧ i.run_during site during_report i.static_init
          = (⟨report :: (during_report i.static_init).1, Flow.next⟩, !i.static_init)
      ∧ i.run_during site (reenter_once (i.run site)) i.static_init
          = (⟨[report, report], Flow.next⟩, !i.static_init)
      ∧ i.run_during site during_report (!i.static_init)
          = (⟨[], Flow.next⟩, !i.static_init)
      ∧ i.run_during site no_reentry = i.run site := by
  cases i <;> simp [Idiom.is_once] at h <;>
    (refine ⟨_, ?_, rfl, rfl, rfl, ?_⟩
     · rfl
     · funext static_var
       cases static_var <;> rfl)

theorem C13_latch_set_after_report_witness :
    (Idiom.WARNING_PRINT_ONCE "m" : Idiom Unit).is_once = true
    ∧ ∃ report : Call, report.is_report = true
      ∧ (Idiom.WARNING_PRINT_ONCE "m" : Idiom Unit).run_during sample_site
            (fun first_print => ([Call.flush_stdout], first_print)) true
          = (⟨[report, Call.flush_stdout], Flow.next⟩, false) :=
  ⟨rfl,
    (C13_latch_set_after_report sample_site (Idiom.WARNING_PRINT_ONCE "m" : Idiom Unit)
      (fun first_print => ([Call.flush_stdout], first_print)) rfl).imp
      (fun _ hr => ⟨hr.1, hr.2.1⟩)⟩

theorem fresh_race_invariant (unfired : Bool) (M : Nat) :
    RaceInvariant unfired M (fresh_race unfired) where
  nodup := by simp [fresh_race]
  reported_past := by simp [fresh_race]
  write_pending := by simp [fresh_race]
  fired_reported := by simp [fresh_race]
  finished_fired := by simp [fresh_race]

theorem once_thread_step_invariant (unfired : Bool) (M t : Nat) (ht : t < M) (s : OnceRace)
    (inv : RaceInvariant unfired M s) : RaceInvariant unfired M (once_thread_step unfired t s) := by
  have hnot : s.pc t ≠ OncePc.before_write → s.pc t ≠ OncePc.finished → t ∉ s.reported :=
    fun h1 h2 hm => (inv.reported_past t hm).1.elim h1 h2
  unfold once_thread_step
  cases hpc : s.pc t with
  | before_read =>
    have htn : t ∉ s.reported := hnot (by simp [hpc]) (by simp [hpc])
    by_cases hl : s.latch = unfired
    · rw [if_pos hl]
      refine ⟨inv.nodup, fun u hu => ?_, fun u hu => ?_, ?_, fun u hu => ?_⟩
      · have hne : u ≠ t := fun h => htn (h ▸ hu)
        simpa [Function.update_noteq hne] using inv.reported_past u hu
      · by_cases hne : u = t
        · subst hne; simp at hu
        · exact inv.write_pending u (by simpa [Function.update_noteq hne] using hu)
      · intro h; exact absurd hl h
      · by_cases hne : u = t
        · subst hne; simp at hu
        · exact inv.finished_fired u (by simpa [Function.update_noteq hne] using hu)
    · rw [if_neg hl]
      refine ⟨inv.nodup, fun u hu => ?_, fun u hu => ?_, inv.fired_reported, fun u hu => ?_⟩
      · have hne : u ≠ t := fun h => htn (h ▸ hu)
        simpa [Function.update_noteq hne] using inv.reported_past u hu
      · by_cases hne : u = t
        · subst hne; simp at hu
        · exact inv.write_pending u (by simpa [Function.update_noteq hne] using hu)
      · by_cases hne : u = t
        · cases hs : s.latch <;> cases unfired <;> simp_all
        · exact inv.finished_fired u (by simpa [Function.update_noteq hne] using hu)
  | before_report =>
    have htn : t ∉ s.reported := hnot (by simp [hpc]) (by simp [hpc])
    refine ⟨List.nodup_cons.mpr ⟨htn, inv.nodup⟩, fun u hu => ?_, fun u hu => ?_, ?_,
      fun u hu => ?_⟩
    · by_cases hne : u = t
      · subst hne; simp [ht]
      · have hu' : u ∈ s.reported := by simpa [hne] using hu
        simpa [Function.update_noteq hne] using inv.reported_past u hu'
    · by_cases hne : u = t
      · subst hne; simp
      · exact List.mem_cons_of_mem _
          (inv.write_pending u (by simpa [Function.update_noteq hne] using hu))
    · simp
    · by_cases hne : u = t
      · subst hne; simp at hu
      · exact inv.finished_fired u (by simpa [Function.update_noteq hne] using hu)
  | before_write =>
    have htin : t ∈ s.reported := inv.write_pending t hpc
    refine ⟨inv.nodup, fun u hu => ?_, fun u hu => ?_, fun _ => ?_, fun _ _ => rfl⟩
    · by_cases hne : u = t
      · subst hne; simp [ht]
      · simpa [Function.update_noteq hne] using inv.reported_past u hu
    · by_cases hne : u = t
      · subst hne; simp at hu
      · exact inv.write_pending u (by simpa [Function.update_noteq hne] using hu)
    · exact List.ne_nil_of_mem htin
  | finished => exact inv

theorem run_threads_invariant (unfired : Bool) (M : Nat) (schedule : List Nat)
    (hin : ∀ t ∈ schedule, t < M) :
    ∀ s : OnceRace, RaceInvariant unfired M s →
      RaceInvariant unfired M (run_threads (once_thread_step unfired) schedule s) := by
  induction schedule with
  | nil => intro s inv; exact inv
  | cons t later ih =>
    intro s inv
    exact ih (fun u hu => hin u (List.mem_cons_of_mem _ hu)) _
      (once_thread_step_invariant unfired M t (hin t (List.mem_cons_self _ _)) s inv)

/-- C14, as stated, fails: the read and the write of the latch are separate
actions, so two threads that both read the fresh latch before either writes it
both report. -/
theorem C14_two_threads_both_report :
    (run_threads WARNING_DEPRECATED_thread_step [0, 1, 0, 1, 0, 1] (fresh_race false)).reported
      = [1, 0]
    ∧ (run_threads WARNING_DEPRECATED_thread_step [0, 1, 0, 1, 0, 1] (fresh_race false)).pc 0
      = OncePc.finished
    ∧ (run_threads WARNING_DEPRECATED_thread_step [0, 1, 0, 1, 0, 1] (fresh_race false)).pc 1
      = OncePc.finished
    ∧ (run_threads ERROR_PRINT_ONCE_thread_step [0, 1, 0, 1, 0, 1] (fresh_race true)).reported
      = [1, 0] := by
  decide

/-- C14 (amended): the check and the set of a once-latch are separate actions:
when M >= 2 threads reach the same fresh report-once or deprecated call site
concurrently, under every interleaving of their latch reads, reports and latch
writes that lets all of them finish, at least one report and at most M reports
are made, no thread reports twice, and the latch ends fired. -/
theorem C14_race_reports_between_one_and_M (unfired : Bool) (M : Nat) (schedule : List Nat)
    (hM : 2 ≤ M) (hin : ∀ t ∈ schedule, t < M)
    (hdone : ∀ t, t < M →
      (run_threads (once_thread_step unfired) schedule (fresh_race unfired)).pc t
        = OncePc.finished) :
    1 ≤ (run_threads (once_thread_step unfired) schedule (fresh_race unfired)).reported.length
    ∧ (run_threads (once_thread_step unfired) schedule (fresh_race unfired)).reported.length ≤ M
    ∧ (run_threads (once_thread_step unfired) schedule (fresh_race unfired)).reported.Nodup
    ∧ (run_threads (once_thread_step unfired) schedule (fresh_race unfired)).latch
        = !unfired := by
  have inv := run_threads_invariant unfired M schedule hin _ (fresh_race_invariant unfired M)
  have hlatch := inv.finished_fired 0 (hdone 0 (by omega))
  have hne : (run_threads (once_thread_step unfired) schedule (fresh_race unfired)).reported
      ≠ [] := inv.fired_reported (by rw [hlatch]; cases unfired <;> simp)
  refine ⟨?_, ?_, inv.nodup, hlatch⟩
  · exact Nat.succ_le_of_lt (List.length_pos.mpr hne)
  · have hsub : (run_threads (once_thread_step unfired) schedule
        (fresh_race unfired)).reported ⊆ List.range M :=
      fun t ht => List.mem_range.mpr (inv.reported_past t ht).2
    have := (List.subperm_of_subset inv.nodup hsub).length_le
    simpa using this

theorem C14_race_reports_between_one_and_M_witness :
    2 ≤ 2
    ∧ (∀ t ∈ [0, 0, 0, 1], t < 2)
    ∧ (∀ t, t < 2 →
        (run_threads (once_thread_step true) [0, 0, 0, 1] (fresh_race true)).pc t
          = OncePc.finished)
    ∧ 1 ≤ (run_threads (once_thread_step true) [0, 0, 0, 1]
        (fresh_race true)).reported.length :=
  ⟨by decide, by decide, by decide,
    (C14_race_reports_between_one_and_M true 2 [0, 0, 0, 1] (by decide) (by decide)
      (by decide)).1⟩

/-! ## Theorems: category, editor notification, messages, index values -/

theorem is_warning_by_cases {R : Type} (i : Idiom R) :
    i.is_warning = (match i with
      | .WARNING_PRINT _ => true
      | .WARNING_PRINT_ED _ => true
      | .WARNING_PRINT_ONCE _ => true
      | .WARNING_PRINT_ONCE_ED _ => true
      | .WARNING_VERBOSE _ _ => true
      | .WARNING_DEPRECATED => true
      | .WARNING_DEPRECATED_MSG _ => true
      | _ => false) := by
  cases i <;> rfl

theorem is_error_or_crash_eq_not_warning {R : Type} (i : Idiom R) :
    i.is_error_or_crash = !i.is_warning := by
  cases i <;> rfl

theorem named_for_editor_by_cases {R : Type} (i : Idiom R) :
    i.named_for_editor = (match i with
      | .ERROR_FAIL_INDEX_EDMSG _ _ _ _ _ => true
      | .ERROR_FAIL_INDEX_V_EDMSG _ _ _ _ _ _ => true
      | .ERROR_FAIL_UNSIGNED_INDEX_EDMSG _ _ _ _ _ => true
      | .ERROR_FAIL_UNSIGNED_INDEX_V_EDMSG _ _ _ _ _ _ => true
      | .ERROR_FAIL_NULL_EDMSG _ _ _ => true
      | .ERROR_FAIL_NULL_V_EDMSG _ _ _ _ => true
      | .ERROR_FAIL_COND_EDMSG _ _ _ => true
      | .ERROR_FAIL_COND_V_EDMSG _ _ _ _ _ => true
      | .ERROR_CONTINUE_EDMSG _ _ _ => true
      | .ERROR_BREAK_EDMSG _ _ _ => true
      | .ERROR_FAIL_EDMSG _ => true
      | .ERROR_FAIL_V_EDMSG _ _ _ => true
      | .ERROR_PRINT_ED _ => true
      | .ERROR_PRINT_ONCE_ED _ => true
      | .WARNING_PRINT_ED _ => true
      | .WARNING_PRINT_ONCE_ED _ => true
      | _ => false) := by
  cases i <;> rfl

/-- C15: every report made by an ERROR_* or CRASH_* idiom carries category
Error, every report made by a WARNING_* idiom carries category Warning, and no
idiom produces Script or Shader. -/
theorem C15_report_category {R : Type} (site : CallSite) (i : Idiom R) (static_var : Bool) :
    (i.is_error_or_crash = !i.is_warning)
    ∧ ∀ c ∈ (i.run site static_var).1.calls, c.is_report = true →
        (i.is_error_or_crash = true →
          c.category = some ErrorHandlerType.ERROR_HANDLER_ERROR)
        ∧ (i.is_warning = true → c.category = some ErrorHandlerType.ERROR_HANDLER_WARNING)
        ∧ c.category ≠ some ErrorHandlerType.ERROR_HANDLER_SCRIPT
        ∧ c.category ≠ some ErrorHandlerType.ERROR_HANDLER_SHADER := by
  refine ⟨is_error_or_crash_eq_not_warning i, ?_⟩
  rw [is_error_or_crash_eq_not_warning, is_warning_by_cases]
  cases i <;>
    simp only [Idiom.run,
      ERROR_FAIL_INDEX, ERROR_FAIL_INDEX_MSG, ERROR_FAIL_INDEX_EDMSG,
      ERROR_FAIL_INDEX_V, ERROR_FAIL_INDEX_V_MSG, ERROR_FAIL_INDEX_V_EDMSG,
      CRASH_BAD_INDEX, CRASH_BAD_INDEX_MSG, ERROR_FAIL_UNSIGNED_INDEX,
      ERROR_FAIL_UNSIGNED_INDEX_MSG, ERROR_FAIL_UNSIGNED_INDEX_EDMSG,
      ERROR_FAIL_UNSIGNED_INDEX_V, ERROR_FAIL_UNSIGNED_INDEX_V_MSG,
      ERROR_FAIL_UNSIGNED_INDEX_V_EDMSG, CRASH_BAD_UNSIGNED_INDEX,
      CRASH_BAD_UNSIGNED_INDEX_MSG, ERROR_FAIL_NULL, ERROR_FAIL_NULL_MSG,
      ERROR_FAIL_NULL_EDMSG, ERROR_FAIL_NULL_V, ERROR_FAIL_NULL_V_MSG,
      ERROR_FAIL_NULL_V_EDMSG, ERROR_FAIL_COND, ERROR_FAIL_COND_MSG,
      ERROR_FAIL_COND_EDMSG, ERROR_FAIL_COND_V, ERROR_FAIL_COND_V_MSG,
      ERROR_FAIL_COND_V_EDMSG, ERROR_CONTINUE, ERROR_CONTINUE_MSG, ERROR_CONTINUE_EDMSG,
      ERROR_BREAK, ERROR_BREAK_MSG, ERROR_BREAK_EDMSG, CRASH_COND, CRASH_COND_MSG,
      ERROR_FAIL, ERROR_FAIL_MSG, ERROR_FAIL_EDMSG, ERROR_FAIL_V, ERROR_FAIL_V_MSG,
      ERROR_FAIL_V_EDMSG, ERROR_PRINT, ERROR_PRINT_ED, ERROR_PRINT_ONCE,
      ERROR_PRINT_ONCE_ED, WARNING_PRINT, WARNING_PRINT_ED, WARNING_PRINT_ONCE,
      WARNING_PRINT_ONCE_ED, WARN_PRINT, WARNING_VERBOSE, WARNING_DEPRECATED,
      WARNING_DEPRECATED_MSG, CRASH_NOW, CRASH_NOW_MSG,
      unlikely, if_else_braced, _error_flush_stdout, GENERATE_TRAP, _error_print_error,
      _error_print_index_error, ERR_HANDLER_WARNING] <;>
    (repeat' split) <;>
    simp [Call.is_report, Call.category]

theorem C15_report_category_witness :
    Call.print_error sample_site "w" none true ErrorHandlerType.ERROR_HANDLER_WARNING
      ∈ ((Idiom.WARNING_PRINT_ED "w" : Idiom Unit).run sample_site false).1.calls
    ∧ (Idiom.WARNING_PRINT_ED "w" : Idiom Unit).is_warning = true
    ∧ (Call.print_error sample_site "w" none true
        ErrorHandlerType.ERROR_HANDLER_WARNING).category
      = some ErrorHandlerType.ERROR_HANDLER_WARNING :=
  ⟨by decide, by decide,
    ((C15_report_category sample_site (Idiom.WARNING_PRINT_ED "w" : Idiom Unit) false).2
      (Call.print_error sample_site "w" none true ErrorHandlerType.ERROR_HANDLER_WARNING)
      (by decide) rfl).2.1 (by decide)⟩

theorem editor_notify_flag_of_reports {R : Type} (site : CallSite) (i : Idiom R)
    (static_var : Bool) :
    ∀ c ∈ (i.run site static_var).1.calls, c.is_report = true →
      c.p_editor_notify = some (ends_in i.name "_EDMSG" || ends_in i.name "_ED") := by
  have h := named_for_editor_by_cases i
  unfold Idiom.named_for_editor at h
  rw [h]
  cases i <;>
      simp only [Idiom.run,
        ERROR_FAIL_INDEX, ERROR_FAIL_INDEX_MSG, ERROR_FAIL_INDEX_EDMSG,
        ERROR_FAIL_INDEX_V, ERROR_FAIL_INDEX_V_MSG, ERROR_FAIL_INDEX_V_EDMSG,
        CRASH_BAD_INDEX, CRASH_BAD_INDEX_MSG, ERROR_FAIL_UNSIGNED_INDEX,
        ERROR_FAIL_UNSIGNED_INDEX_MSG, ERROR_FAIL_UNSIGNED_INDEX_EDMSG,
        ERROR_FAIL_UNSIGNED_INDEX_V, ERROR_FAIL_UNSIGNED_INDEX_V_MSG,
        ERROR_FAIL_UNSIGNED_INDEX_V_EDMSG, CRASH_BAD_UNSIGNED_INDEX,
        CRASH_BAD_UNSIGNED_INDEX_MSG, ERROR_FAIL_NULL, ERROR_FAIL_NULL_MSG,
        ERROR_FAIL_NULL_EDMSG, ERROR_FAIL_NULL_V, ERROR_FAIL_NULL_V_MSG,
        ERROR_FAIL_NULL_V_EDMSG, ERROR_FAIL_COND, ERROR_FAIL_COND_MSG,
        ERROR_FAIL_COND_EDMSG, ERROR_FAIL_COND_V, ERROR_FAIL_COND_V_MSG,
        ERROR_FAIL_COND_V_EDMSG, ERROR_CONTINUE, ERROR_CONTINUE_MSG, ERROR_CONTINUE_EDMSG,
        ERROR_BREAK, ERROR_BREAK_MSG, ERROR_BREAK_EDMSG, CRASH_COND, CRASH_COND_MSG,
        ERROR_FAIL, ERROR_FAIL_MSG, ERROR_FAIL_EDMSG, ERROR_FAIL_V, ERROR_FAIL_V_MSG,
        ERROR_FAIL_V_EDMSG, ERROR_PRINT, ERROR_PRINT_ED, ERROR_PRINT_ONCE,
        ERROR_PRINT_ONCE_ED, WARNING_PRINT, WARNING_PRINT_ED, WARNING_PRINT_ONCE,
        WARNING_PRINT_ONCE_ED, WARN_PRINT, WARNING_VERBOSE, WARNING_DEPRECATED,
        WARNING_DEPRECATED_MSG, CRASH_NOW, CRASH_NOW_MSG,
        unlikely, _error_flush_stdout, GENERATE_TRAP, _error_print_error,
        if_else_braced, _error_print_index_error, ERR_HANDLER_WARNING] <;>
    (repeat' split) <;>
    simp [Call.is_report, Call.p_editor_notify]

theorem edmsg_idiom_agrees_with_msg_counterpart {R : Type} (site : CallSite) (i j : Idiom R)
    (static_var : Bool) (hj : i.msg_counterpart = some j) (hstatement : j.is_statement = true) :
    i.is_statement = true
    ∧ (i.run site static_var).1.flow = (j.run site static_var).1.flow
    ∧ (i.run site static_var).2 = (j.run site static_var).2
    ∧ (i.run site static_var).1.calls
        = (j.run site static_var).1.calls.map (Call.with_editor_notify true)
    ∧ ∀ c ∈ (j.run site static_var).1.calls, c.is_report = true →
        c.p_editor_notify = some false := by
  cases i <;> simp [Idiom.msg_counterpart] at hj <;>
    (subst hj
     simp only [Idiom.is_statement, Bool.false_eq_true] at hstatement) <;>
    (refine ⟨rfl, ?_, rfl, ?_, ?_⟩ <;>
     simp only [Idiom.run, ERROR_FAIL_NULL, ERROR_FAIL_NULL_MSG,
       ERROR_FAIL_NULL_EDMSG, ERROR_FAIL_NULL_V, ERROR_FAIL_NULL_V_MSG,
       ERROR_FAIL_NULL_V_EDMSG, ERROR_FAIL_COND, ERROR_FAIL_COND_MSG,
       ERROR_FAIL_COND_EDMSG, ERROR_FAIL_COND_V, ERROR_FAIL_COND_V_MSG,
       ERROR_FAIL_COND_V_EDMSG, ERROR_CONTINUE, ERROR_CONTINUE_MSG, ERROR_CONTINUE_EDMSG,
       ERROR_BREAK, ERROR_BREAK_MSG, ERROR_BREAK_EDMSG,
       ERROR_FAIL, ERROR_FAIL_MSG, ERROR_FAIL_EDMSG, ERROR_FAIL_V, ERROR_FAIL_V_MSG,
       ERROR_FAIL_V_EDMSG, unlikely, _error_print_error] <;>
     (repeat' split) <;>
     simp [Call.with_editor_notify, Call.is_report, Call.p_editor_notify])

/-- C16 does not hold of the pair ERROR_FAIL_UNSIGNED_INDEX_V_EDMSG /
ERROR_FAIL_UNSIGNED_INDEX_V_MSG: with index 5, size 3, value 42 and message
"bad" the _EDMSG idiom makes one report (notify flag true) and returns 42,
while its _MSG counterpart, whose replacement text ends in
`else { ((void)0) }`, is not a statement and does nothing. The pairs of
ERROR_FAIL_INDEX, ERROR_FAIL_INDEX_V and ERROR_FAIL_UNSIGNED_INDEX are not
statements on either side. A pair that ends in `else ((void)0)` on both sides,
such as ERROR_FAIL_COND_EDMSG / ERROR_FAIL_COND_MSG, differs only in the notify
flag. -/
theorem C16_EDMSG_idiom_differs_from_MSG_counterpart :
    (Idiom.ERROR_FAIL_UNSIGNED_INDEX_V_EDMSG 5 3 "i" "n" 42 "bad" : Idiom Nat).msg_counterpart
      = some (Idiom.ERROR_FAIL_UNSIGNED_INDEX_V_MSG 5 3 "i" "n" 42 "bad")
    ∧ ((Idiom.ERROR_FAIL_UNSIGNED_INDEX_V_EDMSG 5 3 "i" "n" 42 "bad" : Idiom Nat).run
          sample_site false).1
        = ⟨[Call.print_index_error sample_site 5 3 "i" "n" "bad" true false], Flow.retv 42⟩
    ∧ ((Idiom.ERROR_FAIL_UNSIGNED_INDEX_V_MSG 5 3 "i" "n" 42 "bad" : Idiom Nat).run
          sample_site false).1
        = ⟨[], Flow.ill_formed⟩
    ∧ ((Idiom.ERROR_FAIL_UNSIGNED_INDEX_V_EDMSG 5 3 "i" "n" 42 "bad" : Idiom Nat).run
          sample_site false).1.flow
        ≠ ((Idiom.ERROR_FAIL_UNSIGNED_INDEX_V_MSG 5 3 "i" "n" 42 "bad" : Idiom Nat).run
            sample_site false).1.flow
    ∧ ((Idiom.ERROR_FAIL_INDEX_EDMSG 5 3 "i" "n" "bad" : Idiom Nat).run sample_site false).1
        = ⟨[], Flow.ill_formed⟩
    ∧ ((Idiom.ERROR_FAIL_INDEX_MSG 5 3 "i" "n" "bad" : Idiom Nat).run sample_site false).1
        = ⟨[], Flow.ill_formed⟩
    ∧ ((Idiom.ERROR_FAIL_COND_EDMSG true "x" "why" : Idiom Nat).run sample_site false).1
        = ⟨[Call.print_error sample_site "Condition \"x\" is true." (some "why") true
              ErrorHandlerType.ERROR_HANDLER_ERROR], Flow.ret⟩
    ∧ ((Idiom.ERROR_FAIL_COND_MSG true "x" "why" : Idiom Nat).run sample_site false).1
        = ⟨[Call.print_error sample_site "Condition \"x\" is true." (some "why") false
              ErrorHandlerType.ERROR_HANDLER_ERROR], Flow.ret⟩ := by
  refine ⟨rfl, ?_, ?_, ?_, ?_, ?_, ?_, ?_⟩ <;> decide

/-- C17, as stated, fails: the primary message of a condition report is not
"Condition <c> is true" with c as it is. The condition text stands between
double quotes and the sentence ends in a period, and the text is that of the
condition after macro replacement: ERROR_FAIL_COND(x > MAX_RECURSION) reports
Condition "x > 100" is true. -/
theorem C17_condition_message_has_quotes_and_period :
    (@ERROR_FAIL_COND Unit sample_site true
        (stringified typedefs_macros tokens_x_gt_0)).calls.map Call.p_error
      = [some "Condition \"x > 0\" is true."]
    ∧ (@ERROR_FAIL_COND Unit sample_site true
        (stringified typedefs_macros tokens_x_gt_0)).calls.map Call.p_error
      ≠ [some ("Condition " ++ "x > 0" ++ " is true")]
    ∧ (@ERROR_FAIL_COND_V Nat sample_site true (stringified typedefs_macros tokens_x_gt_0) 7
        "7").calls.map Call.p_error
      ≠ [some ("Condition " ++ "x > 0" ++ " is true" ++ " Returning: " ++ "7")]
    ∧ _STR tokens_x_gt_MAX_RECURSION = "x > MAX_RECURSION"
    ∧ (@ERROR_FAIL_COND Unit sample_site true
        (stringified typedefs_macros tokens_x_gt_MAX_RECURSION)).calls.map Call.p_error
      = [some "Condition \"x > 100\" is true."]
    ∧ (@ERROR_FAIL_COND Unit sample_site true
        (stringified typedefs_macros tokens_x_gt_MAX_RECURSION)).calls.map Call.p_error
      ≠ [some ("Condition \"" ++ "x > MAX_RECURSION" ++ "\" is true.")] := by
  decide

theorem condition_messages_of_text {R : Type} (site : CallSite) (c str_retval m_msg : String)
    (m_retval : R) :
    (@ERROR_FAIL_COND R site true c).calls.map Call.p_error
        = [some ("Condition \"" ++ c ++ "\" is true.")]
    ∧ (@ERROR_FAIL_COND_V R site true c m_retval str_retval).calls.map Call.p_error
        = [some (("Condition \"" ++ c ++ "\" is true.") ++ " Returning: " ++ str_retval)]
    ∧ (@ERROR_CONTINUE R site true c).calls.map Call.p_error
        = [some (("Condition \"" ++ c ++ "\" is true.") ++ " Continuing.")]
    ∧ (@ERROR_BREAK R site true c).calls.map Call.p_error
        = [some (("Condition \"" ++ c ++ "\" is true.") ++ " Breaking.")]
    ∧ (@CRASH_COND R site true c).calls.map Call.p_error
        = [some ("FATAL: " ++ ("Condition \"" ++ c ++ "\" is true.")), none, none]
    ∧ (@ERROR_FAIL_COND_MSG R site true c m_msg).calls.map Call.p_error
        = (@ERROR_FAIL_COND R site true c).calls.map Call.p_error
    ∧ (@ERROR_FAIL_COND_EDMSG R site true c m_msg).calls.map Call.p_error
        = (@ERROR_FAIL_COND R site true c).calls.map Call.p_error
    ∧ (@ERROR_FAIL_COND_V_MSG R site true c m_retval str_retval m_msg).calls.map Call.p_error
        = (@ERROR_FAIL_COND_V R site true c m_retval str_retval).calls.map Call.p_error
    ∧ (@ERROR_FAIL_COND_V_EDMSG R site true c m_retval str_retval m_msg).calls.map Call.p_error
        = (@ERROR_FAIL_COND_V R site true c m_retval str_retval).calls.map Call.p_error
    ∧ (@ERROR_CONTINUE_MSG R site true c m_msg).calls.map Call.p_error
        = (@ERROR_CONTINUE R site true c).calls.map Call.p_error
    ∧ (@ERROR_CONTINUE_EDMSG R site true c m_msg).calls.map Call.p_error
        = (@ERROR_CONTINUE R site true c).calls.map Call.p_error
    ∧ (@ERROR_BREAK_MSG R site true c m_msg).calls.map Call.p_error
        = (@ERROR_BREAK R site true c).calls.map Call.p_error
    ∧ (@ERROR_BREAK_EDMSG R site true c m_msg).calls.map Call.p_error
        = (@ERROR_BREAK R site true c).calls.map Call.p_error
    ∧ (@CRASH_COND_MSG R site true c m_msg).calls.map Call.p_error
        = (@CRASH_COND R site true c).calls.map Call.p_error := by
  have h1 : "\" is true." ++ " Returning: " = "\" is true. Returning: " := by decide
  have h2 : "\" is true." ++ " Continuing." = "\" is true. Continuing." := by decide
  have h3 : "\" is true." ++ " Breaking." = "\" is true. Breaking." := by decide
  have h4 : "FATAL: " ++ "Condition \"" = "FATAL: Condition \"" := by decide
  refine ⟨rfl, ?_, ?_, ?_, ?_, rfl, rfl, rfl, rfl, rfl, rfl, rfl, rfl, rfl⟩
  · simp only [ERROR_FAIL_COND_V, unlikely, if_true, _error_print_error, List.map_cons,
      List.map_nil, Call.p_error, String.append_assoc, h1]
  · simp only [ERROR_CONTINUE, unlikely, if_true, _error_print_error, List.map_cons,
      List.map_nil, Call.p_error, String.append_assoc, h2]
  · simp only [ERROR_BREAK, unlikely, if_true, _error_print_error, List.map_cons,
      List.map_nil, Call.p_error, String.append_assoc, h3]
  · simp only [CRASH_COND, unlikely, if_true, _error_print_error, _error_flush_stdout,
      GENERATE_TRAP, List.map_cons, List.map_nil, Call.p_error]
    rw [← String.append_assoc "FATAL: ", ← String.append_assoc "FATAL: ", h4]

/-- C17 (amended): for every condition expression c, the primary message of a
condition report is Condition "d" is true. where d, between double quotes and
followed by a period, is the text of c after macro replacement, its tokens
spelled with single spaces where white space stood (the text of c itself when
c names no macro); the variants change it only by a fixed affix: the
value-returning idioms append " Returning: " and the text of the return value
expression after macro replacement, ERROR_CONTINUE appends " Continuing.",
ERROR_BREAK appends " Breaking.", and CRASH_COND puts "FATAL: " in front; the
_MSG and _EDMSG variants have the primary message of their base idiom. -/
theorem C17_condition_messages {R : Type} (site : CallSite)
    (defs : List (String × List PPToken)) (c retval : List PPToken) (m_msg : String)
    (m_retval : R) :
    (@ERROR_FAIL_COND R site true (stringified defs c)).calls.map Call.p_error
        = [some ("Condition \"" ++ stringified defs c ++ "\" is true.")]
    ∧ (@ERROR_FAIL_COND_V R site true (stringified defs c) m_retval
          (stringified defs retval)).calls.map Call.p_error
        = [some (("Condition \"" ++ stringified defs c ++ "\" is true.") ++ " Returning: "
            ++ stringified defs retval)]
    ∧ (@ERROR_CONTINUE R site true (stringified defs c)).calls.map Call.p_error
        = [some (("Condition \"" ++ stringified defs c ++ "\" is true.") ++ " Continuing.")]
    ∧ (@ERROR_BREAK R site true (stringified defs c)).calls.map Call.p_error
        = [some (("Condition \"" ++ stringified defs c ++ "\" is true.") ++ " Breaking.")]
    ∧ (@CRASH_COND R site true (stringified defs c)).calls.map Call.p_error
        = [some ("FATAL: " ++ ("Condition \"" ++ stringified defs c ++ "\" is true.")),
            none, none]
    ∧ (@ERROR_FAIL_COND_MSG R site true (stringified defs c) m_msg).calls.map Call.p_error
        = (@ERROR_FAIL_COND R site true (stringified defs c)).calls.map Call.p_error
    ∧ (@ERROR_FAIL_COND_EDMSG R site true (stringified defs c) m_msg).calls.map Call.p_error
        = (@ERROR_FAIL_COND R site true (stringified defs c)).calls.map Call.p_error
    ∧ (@ERROR_FAIL_COND_V_MSG R site true (stringified defs c) m_retval
          (stringified defs retval) m_msg).calls.map Call.p_error
        = (@ERROR_FAIL_COND_V R site true (stringified defs c) m_retval
            (stringified defs retval)).calls.map Call.p_error
    ∧ (@ERROR_FAIL_COND_V_EDMSG R site true (stringified defs c) m_retval
          (stringified defs retval) m_msg).calls.map Call.p_error
        = (@ERROR_FAIL_COND_V R site true (stringified defs c) m_retval
            (stringified defs retval)).calls.map Call.p_error
    ∧ (@ERROR_CONTINUE_MSG R site true (stringified defs c) m_msg).calls.map Call.p_error
        = (@ERROR_CONTINUE R site true (stringified defs c)).calls.map Call.p_error
    ∧ (@ERROR_CONTINUE_EDMSG R site true (stringified defs c) m_msg).calls.map Call.p_error
        = (@ERROR_CONTINUE R site true (stringified defs c)).calls.map Call.p_error
    ∧ (@ERROR_BREAK_MSG R site true (stringified defs c) m_msg).calls.map Call.p_error
        = (@ERROR_BREAK R site true (stringified defs c)).calls.map Call.p_error
    ∧ (@ERROR_BREAK_EDMSG R site true (stringified defs c) m_msg).calls.map Call.p_error
        = (@ERROR_BREAK R site true (stringified defs c)).calls.map Call.p_error
    ∧ (@CRASH_COND_MSG R site true (stringified defs c) m_msg).calls.map Call.p_error
        = (@CRASH_COND R site true (stringified defs c)).calls.map Call.p_error
    ∧ (free_of_macros defs c = true → stringified defs c = _STR c)
    ∧ (free_of_macros defs retval = true → stringified defs retval = _STR retval) := by
  obtain ⟨h1, h2, h3, h4, h5, h6, h7, h8, h9, h10, h11, h12, h13, h14⟩ :=
    condition_messages_of_text site (stringified defs c) (stringified defs retval) m_msg
      m_retval
  exact ⟨h1, h2, h3, h4, h5, h6, h7, h8, h9, h10, h11, h12, h13, h14,
    stringified_of_free_of_macros defs c, stringified_of_free_of_macros defs retval⟩

theorem C17_condition_messages_witness :
    free_of_macros typedefs_macros tokens_x_gt_0 = true
    ∧ stringified typedefs_macros tokens_x_gt_0 = "x > 0"
    ∧ stringified typedefs_macros tokens_x_gt_MAX_RECURSION = "x > 100"
    ∧ stringified typedefs_macros tokens_x_gt_0 = _STR tokens_x_gt_0
    ∧ (@ERROR_BREAK Unit sample_site true
        (stringified typedefs_macros tokens_x_gt_MAX_RECURSION)).calls.map Call.p_error
      = [some (("Condition \"" ++ stringified typedefs_macros tokens_x_gt_MAX_RECURSION
          ++ "\" is true.") ++ " Breaking.")] :=
  ⟨by decide, by decide, by decide,
    (C17_condition_messages sample_site typedefs_macros tokens_x_gt_0 tokens_x_gt_0 ""
      ()).2.2.2.2.2.2.2.2.2.2.2.2.2.2.1 (by decide),
    (C17_condition_messages sample_site typedefs_macros tokens_x_gt_MAX_RECURSION
      tokens_x_gt_0 "" ()).2.2.2.1⟩

theorem int64_t_of_fits (v : Int) (hlo : -2 ^ 63 ≤ v) (hhi : v < 2 ^ 63) : int64_t v = v := by
  unfold int64_t
  omega

theorem int64_t_of_high (v : Int) (hlo : 2 ^ 63 ≤ v) (hhi : v < 2 ^ 64) :
    int64_t v = v - 2 ^ 64 := by
  unfold int64_t
  omega

/-- C18, as stated, fails in two ways. An unsigned 64-bit index of 2^63 does
not reach the index report unchanged: CRASH_BAD_UNSIGNED_INDEX(2^63, 1) hands
over -2^63, the int64_t parameter receives the value wrapped. And the index
expression is evaluated once in the guard and once more in the call: for an
expression such as `i++` that yields 3 and then 4, with size 3, the guard sees
3 and the report receives 4. -/
theorem C18_unsigned_index_above_int64_wraps :
    (@CRASH_BAD_UNSIGNED_INDEX Unit sample_site (2 ^ 63) 1 "i" "n").calls.map Call.index_size
      = [some (-2 ^ 63, 1), none, none]
    ∧ (@CRASH_BAD_UNSIGNED_INDEX Unit sample_site (2 ^ 63) 1 "i" "n").calls.map
        Call.index_size
      ≠ [some (2 ^ 63, 1), none, none]
    ∧ (@CRASH_BAD_UNSIGNED_INDEX_evaluating Unit sample_site (yields 3 4) (yields 3 3)
        "i++" "n").calls.map Call.index_size
      = [some (4, 3), none, none]
    ∧ (@CRASH_BAD_UNSIGNED_INDEX_evaluating Unit sample_site (yields 3 4) (yields 3 3)
        "i++" "n").calls.map Call.index_size
      ≠ [some (3, 3), none, none] := by
  decide

/-- C18 (amended): each index idiom that is a statement
(ERROR_FAIL_UNSIGNED_INDEX_V_EDMSG, CRASH_BAD_UNSIGNED_INDEX,
CRASH_BAD_UNSIGNED_INDEX_MSG) fires when the first evaluation of the index is
not below the first evaluation of the size, and hands the index report the
values of the second evaluation, converted to int64_t. For index and size
expressions without side effects whose values are below 2^63 these are the
caller's index and size unchanged; an unsigned 64-bit value of 2^63 or more
arrives reduced by 2^64. An expression without side effects is the case the
plain definitions of the macros describe. -/
theorem C18_index_and_size_handed_over {R : Type} (site : CallSite)
    (m_index m_size : Nat → Nat) (str_index str_size m_msg : String) (m_retval : R)
    (hfires : m_size 0 ≤ m_index 0) :
    (@ERROR_FAIL_UNSIGNED_INDEX_V_EDMSG_evaluating R site m_index m_size str_index str_size
        m_retval m_msg).calls.map Call.index_size
      = [some (int64_t (m_index 1), int64_t (m_size 1))]
    ∧ (@CRASH_BAD_UNSIGNED_INDEX_evaluating R site m_index m_size str_index
        str_size).calls.map Call.index_size
      = [some (int64_t (m_index 1), int64_t (m_size 1)), none, none]
    ∧ (@CRASH_BAD_UNSIGNED_INDEX_MSG_evaluating R site m_index m_size str_index str_size
        m_msg).calls.map Call.index_size
      = [some (int64_t (m_index 1), int64_t (m_size 1)), none, none]
    ∧ (m_index 1 = m_index 0 → m_size 1 = m_size 0 →
        m_index 0 < 2 ^ 63 → m_size 0 < 2 ^ 63 →
        (int64_t (m_index 1), int64_t (m_size 1)) = ((m_index 0 : Int), (m_size 0 : Int)))
    ∧ (2 ^ 63 ≤ m_index 1 → m_index 1 < 2 ^ 64 →
        int64_t (m_index 1) = (m_index 1 : Int) - 2 ^ 64)
    ∧ (2 ^ 63 ≤ m_size 1 → m_size 1 < 2 ^ 64 →
        int64_t (m_size 1) = (m_size 1 : Int) - 2 ^ 64)
    ∧ @ERROR_FAIL_UNSIGNED_INDEX_V_EDMSG_evaluating R site (fun _ => m_index 0)
          (fun _ => m_size 0) str_index str_size m_retval m_msg
        = @ERROR_FAIL_UNSIGNED_INDEX_V_EDMSG R site (m_index 0) (m_size 0) str_index str_size
            m_retval m_msg
    ∧ @CRASH_BAD_UNSIGNED_INDEX_evaluating R site (fun _ => m_index 0) (fun _ => m_size 0)
          str_index str_size
        = @CRASH_BAD_UNSIGNED_INDEX R site (m_index 0) (m_size 0) str_index str_size
    ∧ @CRASH_BAD_UNSIGNED_INDEX_MSG_evaluating R site (fun _ => m_index 0)
          (fun _ => m_size 0) str_index str_size m_msg
        = @CRASH_BAD_UNSIGNED_INDEX_MSG R site (m_index 0) (m_size 0) str_index str_size
            m_msg := by
  have hg : decide (m_index 0 ≥ m_size 0) = true := by simpa using hfires
  refine ⟨?_, ?_, ?_, ?_, ?_, ?_, rfl, rfl, rfl⟩
  · simp [ERROR_FAIL_UNSIGNED_INDEX_V_EDMSG_evaluating, unlikely, hg,
      _error_print_index_error, Call.index_size]
  · simp [CRASH_BAD_UNSIGNED_INDEX_evaluating, unlikely, hg, _error_print_index_error,
      _error_flush_stdout, GENERATE_TRAP, Call.index_size]
  · simp [CRASH_BAD_UNSIGNED_INDEX_MSG_evaluating, unlikely, hg, _error_print_index_error,
      _error_flush_stdout, GENERATE_TRAP, Call.index_size]
  · intro h1 h2 h3 h4
    rw [h1, h2, int64_t_of_fits (m_index 0) (by omega) (by omega),
      int64_t_of_fits (m_size 0) (by omega) (by omega)]
  · intro h1 h2
    exact int64_t_of_high (m_index 1) (by omega) (by omega)
  · intro h1 h2
    exact int64_t_of_high (m_size 1) (by omega) (by omega)

theorem C18_index_and_size_handed_over_witness :
    (fun _ : Nat => 3) 0 ≤ (fun _ : Nat => 7) 0
    ∧ (@CRASH_BAD_UNSIGNED_INDEX Unit sample_site 7 3 "i" "n").calls.map Call.index_size
        = [some (7, 3), none, none]
    ∧ (@ERROR_FAIL_UNSIGNED_INDEX_V_EDMSG_evaluating Unit sample_site (fun _ => 7)
          (fun _ => 3) "i" "n" () "bad").calls.map Call.index_size
        = [some (int64_t ((fun _ : Nat => (7 : Nat)) 1), int64_t ((fun _ : Nat => (3 : Nat)) 1))] :=
  ⟨by decide, by decide,
    (C18_index_and_size_handed_over sample_site (fun _ => 7) (fun _ => 3) "i" "n" "bad" ()
      (by decide)).1⟩

/-- C19, as stated, fails: at index 5 and size 3 the message-less idiom
CRASH_BAD_UNSIGNED_INDEX makes its index report with exactly the arguments of
CRASH_BAD_UNSIGNED_INDEX_MSG called with the empty string; the detail message
is "" in both. -/
theorem C19_absent_message_equals_empty_message :
    @CRASH_BAD_UNSIGNED_INDEX Unit sample_site 5 3 "i" "n"
      = @CRASH_BAD_UNSIGNED_INDEX_MSG Unit sample_site 5 3 "i" "n" ""
    ∧ (@CRASH_BAD_UNSIGNED_INDEX Unit sample_site 5 3 "i" "n").calls
      = [Call.print_index_error sample_site 5 3 "i" "n" "" false true,
          _error_flush_stdout, GENERATE_TRAP]
    ∧ (@CRASH_BAD_UNSIGNED_INDEX_MSG Unit sample_site 5 3 "i" "n" "").calls
      = [Call.print_index_error sample_site 5 3 "i" "n" "" false true,
          _error_flush_stdout, GENERATE_TRAP] := by
  decide

/-- C19 (amended): for index reports an absent detail message is the empty
message: for every index and size, the message-less idiom
CRASH_BAD_UNSIGNED_INDEX (it passes "" itself, which is also the declared
default of p_message) hands the dispatcher exactly the arguments that
CRASH_BAD_UNSIGNED_INDEX_MSG hands over when called with the empty string "",
the detail message being "" in both. -/
theorem C19_index_report_without_message {R : Type} (site : CallSite)
    (m_index m_size : Nat) (str_index str_size : String) :
    @CRASH_BAD_UNSIGNED_INDEX R site m_index m_size str_index str_size
      = @CRASH_BAD_UNSIGNED_INDEX_MSG R site m_index m_size str_index str_size ""
    ∧ (m_size ≤ m_index →
        (@CRASH_BAD_UNSIGNED_INDEX R site m_index m_size str_index str_size).calls
          = [Call.print_index_error site (int64_t m_index) (int64_t m_size) str_index str_size
              "" false true, _error_flush_stdout, GENERATE_TRAP]
        ∧ (@CRASH_BAD_UNSIGNED_INDEX_MSG R site m_index m_size str_index str_size "").calls
          = [Call.print_index_error site (int64_t m_index) (int64_t m_size) str_index str_size
              "" false true, _error_flush_stdout, GENERATE_TRAP]) := by
  refine ⟨rfl, fun h => ?_⟩
  have hg : decide (m_index ≥ m_size) = true := by simpa using h
  simp [CRASH_BAD_UNSIGNED_INDEX, CRASH_BAD_UNSIGNED_INDEX_MSG, unlikely, hg,
    _error_print_index_error]

theorem C19_index_report_without_message_witness :
    (3 : Nat) ≤ 5
    ∧ (@CRASH_BAD_UNSIGNED_INDEX Unit sample_site 5 3 "i" "n").calls
        = [Call.print_index_error sample_site (int64_t (5 : Nat)) (int64_t (3 : Nat)) "i" "n"
            "" false true, _error_flush_stdout, GENERATE_TRAP] :=
  ⟨by decide,
    ((C19_index_report_without_message sample_site 5 3 "i" "n").2 (by decide)).1⟩

/-- C20 does not hold of the code: the replacement texts of
ERROR_FAIL_UNSIGNED_INDEX and of ERROR_FAIL_INDEX both end in
`else { ((void)0) }`, so for every index and size neither use is a statement:
with index 5 and size 3 neither reports and neither returns. -/
theorem C20_index_idioms_are_not_statements {R : Type} (site : CallSite)
    (index size : Nat) (str_index str_size : String) :
    @ERROR_FAIL_UNSIGNED_INDEX R site index size str_index str_size = ⟨[], Flow.ill_formed⟩
    ∧ @ERROR_FAIL_INDEX R site (index : Int) (size : Int) str_index str_size
        = ⟨[], Flow.ill_formed⟩
    ∧ (@ERROR_FAIL_UNSIGNED_INDEX R site index size str_index str_size).flow ≠ Flow.ret
    ∧ reports (@ERROR_FAIL_UNSIGNED_INDEX R site index size str_index str_size).calls = []
    ∧ (@ERROR_FAIL_INDEX R site (index : Int) (size : Int) str_index str_size).flow
        ≠ Flow.ret
    ∧ reports (@ERROR_FAIL_INDEX R site (index : Int) (size : Int) str_index str_size).calls
        = []
    ∧ @ERROR_FAIL_UNSIGNED_INDEX Unit sample_site 5 3 "i" "n" = ⟨[], Flow.ill_formed⟩
    ∧ @ERROR_FAIL_INDEX Unit sample_site 5 3 "i" "n" = ⟨[], Flow.ill_formed⟩ := by
  refine ⟨rfl, rfl, ?_, rfl, ?_, rfl, rfl, rfl⟩
  · intro h
    cases h
  · intro h
    cases h

/-! ## Theorems: power-of-two helpers -/

theorem or_shift_testBit (y x n : Nat)
    (h : ∀ i, x.testBit i = true ↔ ∃ j, j < n ∧ y.testBit (i + j) = true) :
    ∀ i, (x ||| (x >>> n)).testBit i = true ↔ ∃ j, j < 2 * n ∧ y.testBit (i + j) = true := by
  intro i
  rw [Nat.testBit_or, Nat.testBit_shiftRight, Bool.or_eq_true, h, h]
  constructor
  · rintro (⟨j, hj, hb⟩ | ⟨j, hj, hb⟩)
    · exact ⟨j, by omega, hb⟩
    · exact ⟨n + j, by omega, by rw [← hb]; congr 1; omega⟩
  · rintro ⟨j, hj, hb⟩
    by_cases hjn : j < n
    · exact Or.inl ⟨j, hjn, hb⟩
    · exact Or.inr ⟨j - n, by omega, by rw [← hb]; congr 1; omega⟩

theorem testBit_true_lt_size (y m : Nat) (h : y.testBit m = true) : m < Nat.size y := by
  rw [Nat.lt_size]
  by_contra hlt
  rw [Nat.testBit_lt_two_pow (Nat.lt_of_not_le hlt)] at h
  exact Bool.false_ne_true h

theorem or_shift_cascade_eq (y : Nat) (hy : y < 2 ^ 32) :
    or_shift_cascade y = 2 ^ Nat.size y - 1 := by
  have h0 : ∀ i, y.testBit i = true ↔ ∃ j, j < 1 ∧ y.testBit (i + j) = true := by
    intro i
    constructor
    · exact fun h => ⟨0, by omega, h⟩
    · rintro ⟨j, hj, hb⟩
      have : j = 0 := by omega
      subst this
      exact hb
  have h1 := or_shift_testBit y _ 1 h0
  have h2 := or_shift_testBit y _ 2 h1
  have h4 := or_shift_testBit y _ 4 h2
  have h8 := or_shift_testBit y _ 8 h4
  have h16 := or_shift_testBit y _ 16 h8
  apply Nat.eq_of_testBit_eq
  intro i
  rw [Nat.testBit_two_pow_sub_one]
  apply Bool.eq_iff_iff.mpr
  rw [decide_eq_true_eq]
  show (or_shift_cascade y).testBit i = true ↔ _
  unfold or_shift_cascade
  rw [h16 i]
  constructor
  · rintro ⟨j, _, hb⟩
    have := testBit_true_lt_size y (i + j) hb
    omega
  · intro hi
    obtain ⟨m, hm, hb⟩ := Nat.ge_two_pow_implies_high_bit_true (Nat.lt_size.mp hi)
    have hm32 : m < 32 := by
      have h1 := testBit_true_lt_size y m hb
      have h2 : Nat.size y ≤ 32 := Nat.size_le.mpr hy
      omega
    exact ⟨m - i, by omega, by rw [← hb]; congr 1; omega⟩

theorem next_power_of_2_value (x : Nat) (h1 : 1 ≤ x) (h2 : x < 2 ^ 32) :
    next_power_of_2 x = 2 ^ Nat.size (x - 1) % 2 ^ 32 := by
  have hx : x ≠ 0 := by omega
  have hdec : uint32_dec x = x - 1 := by
    unfold uint32_dec
    omega
  have hpos : 0 < 2 ^ Nat.size (x - 1) := Nat.two_pow_pos _
  show (if x = 0 then 0 else uint32_inc (or_shift_cascade (uint32_dec x))) = _
  rw [if_neg hx, hdec, or_shift_cascade_eq (x - 1) (by omega)]
  unfold uint32_inc
  have hsucc : 2 ^ Nat.size (x - 1) - 1 + 1 = 2 ^ Nat.size (x - 1) := by omega
  rw [hsucc]

theorem previous_power_of_2_value (x : Nat) (h1 : 1 ≤ x) (h2 : x < 2 ^ 32) :
    previous_power_of_2 x = 2 ^ (Nat.size x - 1) := by
  show uint32_sub (or_shift_cascade x) (or_shift_cascade x >>> 1) = _
  rw [or_shift_cascade_eq x h2]
  have hs : 0 < Nat.size x := Nat.size_pos.mpr h1
  have hs32 : Nat.size x ≤ 32 := Nat.size_le.mpr h2
  obtain ⟨t, ht⟩ : ∃ t, Nat.size x = t + 1 := ⟨Nat.size x - 1, by omega⟩
  rw [ht, Nat.add_sub_cancel, Nat.shiftRight_eq_div_pow]
  have hpow : 2 ^ (t + 1) = 2 * 2 ^ t := by rw [Nat.pow_succ]; omega
  have hle : 2 ^ t ≤ 2 ^ 31 := Nat.pow_le_pow_right (by decide) (by omega)
  have hpos : 0 < 2 ^ t := Nat.two_pow_pos _
  unfold uint32_sub
  rw [hpow]
  omega

theorem next_power_of_2_least (x : Nat) (h1 : 1 ≤ x) (h2 : x ≤ 2 ^ 31) :
    (∃ k, next_power_of_2 x = 2 ^ k)
    ∧ x ≤ next_power_of_2 x
    ∧ (∀ k, x ≤ 2 ^ k → next_power_of_2 x ≤ 2 ^ k)
    ∧ ((∃ k, x = 2 ^ k) → next_power_of_2 x = x)
    ∧ next_power_of_2 0 = 0 := by
  have hs : Nat.size (x - 1) ≤ 31 := Nat.size_le.mpr (by omega)
  have hle : 2 ^ Nat.size (x - 1) ≤ 2 ^ 31 := Nat.pow_le_pow_right (by decide) hs
  have hval : next_power_of_2 x = 2 ^ Nat.size (x - 1) := by
    rw [next_power_of_2_value x h1 (by omega)]
    exact Nat.mod_eq_of_lt (by omega)
  have hge : x ≤ next_power_of_2 x := by
    rw [hval]
    have := Nat.lt_size_self (x - 1)
    omega
  have hleast : ∀ k, x ≤ 2 ^ k → next_power_of_2 x ≤ 2 ^ k := by
    intro k hk
    rw [hval]
    exact Nat.pow_le_pow_right (by decide) (Nat.size_le.mpr (by omega))
  refine ⟨⟨_, hval⟩, hge, hleast, ?_, rfl⟩
  rintro ⟨k, hk⟩
  have := hleast k (by omega)
  omega

/-- C27: for every unsigned 32-bit x with 1 <= x <= 2^31, next_power_of_2(x) is
the least power of two that is >= x (so it returns x itself when x is a power
of two); next_power_of_2(0) = 0. -/
theorem C27_next_power_of_2_least_power_above (x : Nat) (h1 : 1 ≤ x) (h2 : x ≤ 2 ^ 31) :
    (∃ k, next_power_of_2 x = 2 ^ k)
    ∧ x ≤ next_power_of_2 x
    ∧ (∀ k, x ≤ 2 ^ k → next_power_of_2 x ≤ 2 ^ k)
    ∧ ((∃ k, x = 2 ^ k) → next_power_of_2 x = x)
    ∧ next_power_of_2 0 = 0 :=
  next_power_of_2_least x h1 h2

theorem C27_next_power_of_2_least_power_above_witness :
    1 ≤ 5 ∧ 5 ≤ 2 ^ 31 ∧ next_power_of_2 5 = 8 ∧ ∃ k, next_power_of_2 5 = 2 ^ k :=
  ⟨by decide, by decide, by decide,
    (C27_next_power_of_2_least_power_above 5 (by decide) (by decide)).1⟩

theorem previous_power_of_2_greatest (x : Nat) (h1 : 1 ≤ x)
    (h2 : x < 2 ^ 32) :
    (∃ k, previous_power_of_2 x = 2 ^ k)
    ∧ previous_power_of_2 x ≤ x
    ∧ (∀ k, 2 ^ k ≤ x → 2 ^ k ≤ previous_power_of_2 x)
    ∧ ((∃ k, x = 2 ^ k) → previous_power_of_2 x = x)
    ∧ previous_power_of_2 0 = 0 := by
  have hval := previous_power_of_2_value x h1 h2
  have hs : 0 < Nat.size x := Nat.size_pos.mpr h1
  have hle : previous_power_of_2 x ≤ x := by
    rw [hval]
    exact Nat.lt_size.mp (by omega)
  have hgreatest : ∀ k, 2 ^ k ≤ x → 2 ^ k ≤ previous_power_of_2 x := by
    intro k hk
    rw [hval]
    have := Nat.lt_size.mpr hk
    exact Nat.pow_le_pow_right (by decide) (by omega)
  refine ⟨⟨_, hval⟩, hle, hgreatest, ?_, by decide⟩
  rintro ⟨k, hk⟩
  have := hgreatest k (by omega)
  omega

/-- C28: for every unsigned 32-bit x >= 1, previous_power_of_2(x) is the
greatest power of two that is <= x (so it returns x itself when x is a power
of two); previous_power_of_2(0) = 0. -/
theorem C28_previous_power_of_2_greatest_power_below (x : Nat) (h1 : 1 ≤ x)
    (h2 : x < 2 ^ 32) :
    (∃ k, previous_power_of_2 x = 2 ^ k)
    ∧ previous_power_of_2 x ≤ x
    ∧ (∀ k, 2 ^ k ≤ x → 2 ^ k ≤ previous_power_of_2 x)
    ∧ ((∃ k, x = 2 ^ k) → previous_power_of_2 x = x)
    ∧ previous_power_of_2 0 = 0 :=
  previous_power_of_2_greatest x h1 h2

theorem C28_previous_power_of_2_greatest_power_below_witness :
    1 ≤ 4294967295 ∧ 4294967295 < 2 ^ 32 ∧ previous_power_of_2 4294967295 = 2 ^ 31
    ∧ previous_power_of_2 4294967295 ≤ 4294967295 :=
  ⟨by decide, by decide, by decide,
    (C28_previous_power_of_2_greatest_power_below 4294967295 (by decide) (by decide)).2.1⟩

/-- C29, as stated, fails: for x = 2^32 - 1 the function returns 0, which is no
power of two, and the 32-bit power of two 2^31 is strictly closer to x. -/
theorem C29_closest_power_of_2_of_max_is_zero :
    closest_power_of_2 4294967295 = 0
    ∧ distance (2 ^ 31) 4294967295 < distance (closest_power_of_2 4294967295) 4294967295
    ∧ ¬ ∃ k, closest_power_of_2 4294967295 = 2 ^ k := by
  refine ⟨by decide, by decide, ?_⟩
  rintro ⟨k, hk⟩
  have h0 : closest_power_of_2 4294967295 = 0 := by decide
  have hpos : 0 < 2 ^ k := Nat.two_pow_pos k
  omega

/-- C29 (amended): for every unsigned 32-bit x with 1 <= x < 3 * 2^30,
closest_power_of_2(x) is a power of two, and no 32-bit power of two is strictly
closer to x than the returned value; for 3 * 2^30 <= x < 2^32 it returns 0. -/
theorem C29_closest_power_of_2_below_three_quarters (x : Nat) (h1 : 1 ≤ x)
    (h2 : x < 3 * 2 ^ 30) :
    (∃ k, k ≤ 31 ∧ closest_power_of_2 x = 2 ^ k)
    ∧ (∀ k, k ≤ 31 → distance (closest_power_of_2 x) x ≤ distance (2 ^ k) x)
    ∧ ∀ y, 3 * 2 ^ 30 ≤ y → y < 2 ^ 32 → closest_power_of_2 y = 0 := by
  have hprev_of_high : ∀ y, 2 ^ 31 ≤ y → y < 2 ^ 32 → previous_power_of_2 y = 2 ^ 31 := by
    intro y hy1 hy2
    rw [previous_power_of_2_value y (by omega) hy2]
    have hs1 : Nat.size y ≤ 32 := Nat.size_le.mpr hy2
    have hs2 : 31 < Nat.size y := Nat.lt_size.mpr hy1
    have : Nat.size y - 1 = 31 := by omega
    rw [this]
  have hnext_of_high : ∀ y, 2 ^ 31 < y → y < 2 ^ 32 → next_power_of_2 y = 0 := by
    intro y hy1 hy2
    rw [next_power_of_2_value y (by omega) hy2]
    have hs1 : Nat.size (y - 1) ≤ 32 := Nat.size_le.mpr (by omega)
    have hs2 : 31 < Nat.size (y - 1) := Nat.lt_size.mpr (by omega)
    have : Nat.size (y - 1) = 32 := by omega
    rw [this]
    decide
  have hexp : ∀ k, 2 ^ k ≤ 2 ^ 31 → k ≤ 31 := by
    intro k hk
    by_contra hgt
    have : 2 ^ 32 ≤ 2 ^ k := Nat.pow_le_pow_right (by decide) (by omega)
    omega
  have hzero : ∀ y, 3 * 2 ^ 30 ≤ y → y < 2 ^ 32 → closest_power_of_2 y = 0 := by
    intro y hy1 hy2
    unfold closest_power_of_2
    simp only [hnext_of_high y (by omega) hy2, hprev_of_high y (by omega) hy2]
    unfold uint32_sub
    rw [if_neg (by omega)]
  have main : (∃ k, k ≤ 31 ∧ closest_power_of_2 x = 2 ^ k)
      ∧ (∀ k, k ≤ 31 → distance (closest_power_of_2 x) x ≤ distance (2 ^ k) x) := by
    by_cases hx : x ≤ 2 ^ 31
    · obtain ⟨⟨kn, hkn⟩, hnge, hnleast, -, -⟩ := next_power_of_2_least x h1 hx
      obtain ⟨⟨kp, hkp⟩, hple, hpgreatest, -, -⟩ :=
        previous_power_of_2_greatest x h1 (by omega)
      have hN31 : next_power_of_2 x ≤ 2 ^ 31 := hnleast 31 hx
      have hsub1 : uint32_sub (next_power_of_2 x) x = next_power_of_2 x - x := by
        unfold uint32_sub
        omega
      have hsub2 : uint32_sub x (previous_power_of_2 x) = x - previous_power_of_2 x := by
        unfold uint32_sub
        omega
      have hc : closest_power_of_2 x
          = if next_power_of_2 x - x > x - previous_power_of_2 x then previous_power_of_2 x
            else next_power_of_2 x := by
        unfold closest_power_of_2
        simp only [hsub1, hsub2]
      refine ⟨?_, fun k _ => ?_⟩
      · rw [hc]
        split
        · exact ⟨kp, hexp kp (by omega), hkp⟩
        · exact ⟨kn, hexp kn (by omega), hkn⟩
      · rw [hc]
        unfold distance
        by_cases hk : 2 ^ k ≤ x
        · have := hpgreatest k hk
          split <;> omega
        · have := hnleast k (by omega)
          split <;> omega
    · have hn := hnext_of_high x (by omega) (by omega)
      have hp := hprev_of_high x (by omega) (by omega)
      have hc : closest_power_of_2 x = 2 ^ 31 := by
        unfold closest_power_of_2
        simp only [hn, hp]
        unfold uint32_sub
        rw [if_pos (by omega)]
      refine ⟨⟨31, by omega, hc⟩, fun k hk => ?_⟩
      rw [hc]
      unfold distance
      have : 2 ^ k ≤ 2 ^ 31 := Nat.pow_le_pow_right (by decide) hk
      omega
  exact ⟨main.1, main.2, hzero⟩

theorem C29_closest_power_of_2_below_three_quarters_witness :
    1 ≤ 3221225471 ∧ 3221225471 < 3 * 2 ^ 30
    ∧ closest_power_of_2 3221225471 = 2 ^ 31
    ∧ ∃ k, k ≤ 31 ∧ closest_power_of_2 3221225471 = 2 ^ k :=
  ⟨by decide, by decide, by decide,
    (C29_closest_power_of_2_below_three_quarters 3221225471 (by decide) (by decide)).1⟩

theorem or_shift_fold_eq (y : Nat) :
    (List.range 5).foldl (fun x i => x ||| (x >>> (1 <<< i))) y = or_shift_cascade y := by
  have hrange : List.range 5 = [0, 1, 2, 3, 4] := by decide
  rw [hrange]
  rfl

theorem nearest_power_of_2_templated_uint32 (x : Nat) :
    nearest_power_of_2_templated 4 x
      = uint32_inc (or_shift_cascade ((x + 2 ^ 32 - 1) % 2 ^ 32)) := by
  have hnum : (get_shift_from_power_of_2 4 + 3).toNat = 5 := by decide
  have e8 : (2 : Nat) ^ (8 * 4) = 2 ^ 32 := by norm_num
  show ((List.range (get_shift_from_power_of_2 4 + 3).toNat).foldl
      (fun x i => x ||| (x >>> (1 <<< i))) ((x + 2 ^ (8 * 4) - 1) % 2 ^ (8 * 4)) + 1)
      % 2 ^ (8 * 4) = _
  rw [hnum, e8, or_shift_fold_eq]
  rfl

/-- C30: the generic and the hand-unrolled power-of-two rounding agree: for
every unsigned 32-bit x (0 and values above 2^31 included, arithmetic modulo
2^32), nearest_power_of_2_templated<uint32_t>(x) = next_power_of_2(x). -/
theorem C30_templated_agrees_with_next_power_of_2 (x : Nat) :
    get_shift_from_power_of_2 4 = 2
    ∧ nearest_power_of_2_templated 4 x = next_power_of_2 x := by
  refine ⟨by decide, ?_⟩
  rw [nearest_power_of_2_templated_uint32]
  by_cases hx : x = 0
  · subst hx
    decide
  · show _ = (if x = 0 then 0 else uint32_inc (or_shift_cascade (uint32_dec x)))
    rw [if_neg hx]
    rfl

/-! ## Theorems: removal from the handler chain -/

theorem remove_error_handler_of_absent (p_handler : ErrorHandlerList) :
    ∀ chain : List ErrorHandlerList, p_handler.addr ∉ chain.map ErrorHandlerList.addr →
      remove_error_handler p_handler chain = chain
  | [], _ => rfl
  | l :: rest, h => by
    rw [List.map_cons, List.mem_cons, not_or] at h
    have hne : ¬ l.addr = p_handler.addr := fun he => h.1 he.symm
    simp only [remove_error_handler, hne, if_false]
    rw [remove_error_handler_of_absent p_handler rest h.2]

theorem remove_error_handler_length (p_handler : ErrorHandlerList) :
    ∀ chain : List ErrorHandlerList, p_handler.addr ∈ chain.map ErrorHandlerList.addr →
      (remove_error_handler p_handler chain).length + 1 = chain.length
  | [], h => by simp at h
  | l :: rest, h => by
    by_cases he : l.addr = p_handler.addr
    · simp [remove_error_handler, he]
    · have hrest : p_handler.addr ∈ rest.map ErrorHandlerList.addr := by
        rw [List.map_cons, List.mem_cons] at h
        rcases h with h | h
        · exact absurd h.symm he
        · exact h
      simp only [remove_error_handler, he, if_false, List.length_cons]
      rw [remove_error_handler_length p_handler rest hrest]

/-- C21: for every chain state and every handler entry that is not in the
chain, remove_error_handler(entry) leaves the chain unchanged (same entries,
same order) and makes no report, so subsequent reports invoke the same
handlers as before. -/
theorem C21_remove_absent_handler_is_noop (chain : List ErrorHandlerList)
    (p_handler : ErrorHandlerList) (ops : List RegistryOp) (event : DiagnosticEvent)
    (h : p_handler.addr ∉ chain.map ErrorHandlerList.addr) :
    remove_error_handler p_handler chain = chain
    ∧ broadcast event (remove_error_handler p_handler chain) = broadcast event chain
    ∧ run_registry chain (RegistryOp.remove p_handler :: ops) = run_registry chain ops := by
  have hsame := remove_error_handler_of_absent p_handler chain h
  refine ⟨hsame, by rw [hsame], ?_⟩
  simp only [run_registry, RegistryOp.apply, hsame]

theorem C21_remove_absent_handler_is_noop_witness :
    handler_c.addr ∉ [handler_b, handler_a].map ErrorHandlerList.addr
    ∧ remove_error_handler handler_c [handler_b, handler_a] = [handler_b, handler_a] :=
  ⟨by decide,
    (C21_remove_absent_handler_is_noop [handler_b, handler_a] handler_c [] sample_event
      (by decide)).1⟩

/-- C22: if two distinct handler entries holding the same callback and the same
user context are both registered and one of them is removed, exactly that
entry is unlinked (removal is by entry identity, not by callback or context)
and the other entry is still invoked exactly once by a subsequent report. -/
theorem C22_removal_is_by_identity (chain : List ErrorHandlerList)
    (a b : ErrorHandlerList) (event : DiagnosticEvent)
    (hnodup : (chain.map ErrorHandlerList.addr).Nodup)
    (ha : a ∈ chain) (hb : b ∈ chain) (hdistinct : a.addr ≠ b.addr)
    (hcallback : a.error_function = b.error_function) (hcontext : a.user_data = b.user_data) :
    remove_error_handler a chain = chain.filter (fun l => decide (l.addr ≠ a.addr))
    ∧ (remove_error_handler a chain).length + 1 = chain.length
    ∧ a.addr ∉ (remove_error_handler a chain).map ErrorHandlerList.addr
    ∧ (⟨b, event⟩ : Invocation) ∈ broadcast event (remove_error_handler a chain)
    ∧ ((broadcast event (remove_error_handler a chain)).map
        (fun inv => inv.handler.addr)).count b.addr = 1
    ∧ (∀ inv ∈ broadcast event (remove_error_handler a chain),
        inv.handler.addr = b.addr →
          inv.handler.error_function = a.error_function
          ∧ inv.handler.user_data = a.user_data) := by
  have hfilter := remove_error_handler_eq_filter a chain hnodup
  have hbin : b ∈ remove_error_handler a chain := by
    rw [hfilter, List.mem_filter]
    exact ⟨hb, by simpa using fun h => hdistinct h.symm⟩
  have hnd : ((remove_error_handler a chain).map ErrorHandlerList.addr).Nodup := by
    rw [hfilter]
    exact hnodup.sublist ((List.filter_sublist _).map _)
  have hunique : ∀ l ∈ chain, l.addr = b.addr → l = b := by
    intro l hl hlb
    exact List.inj_on_of_nodup_map hnodup hl hb hlb
  refine ⟨hfilter, ?_, ?_, ?_, ?_, ?_⟩
  · exact remove_error_handler_length a chain (List.mem_map.mpr ⟨a, ha, rfl⟩)
  · rw [hfilter]
    simp
  · exact List.mem_map.mpr ⟨b, hbin, rfl⟩
  · have hmap : (broadcast event (remove_error_handler a chain)).map
        (fun inv => inv.handler.addr) = (remove_error_handler a chain).map
          ErrorHandlerList.addr := by
      simp [broadcast, Function.comp_def]
    rw [hmap]
    exact List.count_eq_one_of_mem hnd (List.mem_map.mpr ⟨b, hbin, rfl⟩)
  · intro inv hinv haddr
    obtain ⟨l, hl, rfl⟩ := List.mem_map.mp hinv
    have hlchain : l ∈ chain := by
      rw [hfilter] at hl
      exact (List.mem_filter.mp hl).1
    have := hunique l hlchain haddr
    subst this
    exact ⟨hcallback.symm, hcontext.symm⟩

theorem C22_removal_is_by_identity_witness :
    ([twin_handler_b, handler_a, twin_handler_a].map ErrorHandlerList.addr).Nodup
    ∧ twin_handler_a.error_function = twin_handler_b.error_function
    ∧ twin_handler_a.user_data = twin_handler_b.user_data
    ∧ remove_error_handler twin_handler_a [twin_handler_b, handler_a, twin_handler_a]
      = [twin_handler_b, handler_a]
    ∧ remove_error_handler twin_handler_a [twin_handler_b, handler_a, twin_handler_a]
      = [twin_handler_b, handler_a, twin_handler_a].filter
          (fun l => decide (l.addr ≠ twin_handler_a.addr)) :=
  ⟨by decide, rfl, rfl, by decide,
    (C22_removal_is_by_identity [twin_handler_b, handler_a, twin_handler_a] twin_handler_a
      twin_handler_b sample_event (by decide) (by decide) (by decide) (by decide) rfl rfl).1⟩

/-! ## Theorems: DEV_ASSERT, mouse buttons, the fatal flag -/

/-- C23 does not hold of the code in a dev build: without DEV_ENABLED,
DEV_ASSERT(c) expands to nothing and has no effect for every c, as the claim
says; with DEV_ENABLED the replacement text ends in `else { ((void)0) }`, so
DEV_ASSERT(c) is not a statement for any c: DEV_ASSERT(false) makes no report,
no flush and no trap, and DEV_ASSERT(true) is no no-op either. -/
theorem C23_DEV_ASSERT_is_not_a_statement {R : Type} (site : CallSite) (m_cond : Bool)
    (str_cond : String) :
    @DEV_ASSERT R false site m_cond str_cond = ⟨[], Flow.next⟩
    ∧ @DEV_ASSERT R true site m_cond str_cond = ⟨[], Flow.ill_formed⟩
    ∧ reports (@DEV_ASSERT R true site m_cond str_cond).calls = []
    ∧ _error_flush_stdout ∉ (@DEV_ASSERT R true site m_cond str_cond).calls
    ∧ GENERATE_TRAP ∉ (@DEV_ASSERT R true site m_cond str_cond).calls
    ∧ (@DEV_ASSERT R true site m_cond str_cond).flow ≠ Flow.trapped
    ∧ (@DEV_ASSERT R true site m_cond str_cond).flow ≠ Flow.next
    ∧ @DEV_ASSERT Unit true sample_site false "ok" = ⟨[], Flow.ill_formed⟩
    ∧ @DEV_ASSERT Unit true sample_site true "ok" = ⟨[], Flow.ill_formed⟩
    ∧ @DEV_ASSERT Unit false sample_site false "ok" = ⟨[], Flow.next⟩ := by
  refine ⟨rfl, rfl, rfl, ?_, ?_, ?_, ?_, rfl, rfl, rfl⟩
  · simp [DEV_ASSERT, if_else_braced]
  · simp [DEV_ASSERT, if_else_braced]
  · intro h
    cases h
  · intro h
    cases h

/-- C24: mouse_button_to_mask follows the fail-and-return-value contract: for
MouseButton::NONE it makes exactly one error report and returns
MouseButtonMask::NONE (0); for every other button b it makes no report and
returns the mask with value 2^(b-1). -/
theorem C24_mouse_button_to_mask (file : String) :
    mouse_button_to_mask file MouseButton.NONE
        = ⟨[Call.print_error ⟨"mouse_button_to_mask", file, 108⟩
              "Condition \"button == MouseButton::NONE\" is true. Returning: MouseButtonMask::NONE"
              none false ErrorHandlerType.ERROR_HANDLER_ERROR],
            Flow.retv MouseButtonMask.NONE⟩
    ∧ (reports (mouse_button_to_mask file MouseButton.NONE).calls).length = 1
    ∧ MouseButtonMask.NONE.value = 0
    ∧ ∀ b : MouseButton, b ≠ MouseButton.NONE →
        mouse_button_to_mask file b = ⟨[], Flow.retv ⟨2 ^ (b.value - 1).toNat⟩⟩ := by
  refine ⟨rfl, rfl, rfl, ?_⟩
  intro b hb
  cases b <;> first | exact absurd rfl hb | rfl

theorem C24_mouse_button_to_mask_witness :
    MouseButton.WHEEL_UP ≠ MouseButton.NONE
    ∧ mouse_button_to_mask "input_enums.hpp" MouseButton.WHEEL_UP = ⟨[], Flow.retv ⟨8⟩⟩ :=
  ⟨by decide,
    (C24_mouse_button_to_mask "input_enums.hpp").2.2.2 MouseButton.WHEEL_UP (by decide)⟩

theorem fatal_flag_of_index_reports {R : Type} (site : CallSite) (i : Idiom R)
    (static_var : Bool) (h : i.index_args.isSome = true) :
    i.is_crash = starts_with i.name "CRASH_BAD_"
    ∧ (!i.is_crash) = starts_with i.name "ERROR_FAIL_"
    ∧ (i.is_crash = true ↔ i.name ∈ ["CRASH_BAD_INDEX", "CRASH_BAD_INDEX_MSG",
        "CRASH_BAD_UNSIGNED_INDEX", "CRASH_BAD_UNSIGNED_INDEX_MSG"])
    ∧ ∀ c ∈ (i.run site static_var).1.calls, c.is_report = true →
        c.fatal = some i.is_crash
        ∧ (c.fatal = some true →
            (i.run site static_var).1 = ⟨[c, _error_flush_stdout, GENERATE_TRAP], Flow.trapped⟩)
        ∧ (c.fatal = some false →
            (i.run site static_var).1.calls = [c]
            ∧ _error_flush_stdout ∉ (i.run site static_var).1.calls
            ∧ GENERATE_TRAP ∉ (i.run site static_var).1.calls
            ∧ (i.run site static_var).1.flow ≠ Flow.trapped) := by
  cases i <;> simp [Idiom.index_args] at h <;>
    (refine ⟨rfl, rfl, by simp [Idiom.is_crash, Idiom.name], ?_⟩
     simp only [Idiom.run, ERROR_FAIL_INDEX, ERROR_FAIL_INDEX_MSG, ERROR_FAIL_INDEX_EDMSG,
       ERROR_FAIL_INDEX_V, ERROR_FAIL_INDEX_V_MSG, ERROR_FAIL_INDEX_V_EDMSG,
       CRASH_BAD_INDEX, CRASH_BAD_INDEX_MSG, ERROR_FAIL_UNSIGNED_INDEX,
       ERROR_FAIL_UNSIGNED_INDEX_MSG, ERROR_FAIL_UNSIGNED_INDEX_EDMSG,
       ERROR_FAIL_UNSIGNED_INDEX_V, ERROR_FAIL_UNSIGNED_INDEX_V_MSG,
       ERROR_FAIL_UNSIGNED_INDEX_V_EDMSG, CRASH_BAD_UNSIGNED_INDEX,
       CRASH_BAD_UNSIGNED_INDEX_MSG, unlikely, if_else_braced, _error_print_index_error,
       _error_flush_stdout, GENERATE_TRAP, Idiom.is_crash]
     (repeat' split) <;> simp [Call.is_report, Call.fatal])

/-- C25 does not hold of CRASH_BAD_INDEX and CRASH_BAD_INDEX_MSG: they name
`true` as the fatal argument, but their replacement text ends in
`else { ((void)0) }`, so a use is not a statement: with index 5 and size 3 no
index report is made and no fatal argument is handed over. Of the sixteen
index idioms only three are statements: CRASH_BAD_UNSIGNED_INDEX and
CRASH_BAD_UNSIGNED_INDEX_MSG hand over fatal = true and go on to flush and
trap, ERROR_FAIL_UNSIGNED_INDEX_V_EDMSG hands over fatal = false and returns. -/
theorem C25_CRASH_BAD_INDEX_hands_over_no_fatal_flag :
    (Idiom.CRASH_BAD_INDEX 5 3 "i" "n" : Idiom Nat).is_crash = true
    ∧ (Idiom.CRASH_BAD_INDEX 5 3 "i" "n" : Idiom Nat).guard_violated = true
    ∧ ((Idiom.CRASH_BAD_INDEX 5 3 "i" "n" : Idiom Nat).run sample_site false).1.calls.map
        Call.fatal = []
    ∧ ((Idiom.CRASH_BAD_INDEX_MSG 5 3 "i" "n" "bad" : Idiom Nat).run sample_site
        false).1.calls.map Call.fatal = []
    ∧ ((Idiom.CRASH_BAD_INDEX 5 3 "i" "n" : Idiom Nat).run sample_site false).1
        = ⟨[], Flow.ill_formed⟩
    ∧ ((Idiom.CRASH_BAD_UNSIGNED_INDEX 5 3 "i" "n" : Idiom Nat).run sample_site false).1
        = ⟨[Call.print_index_error sample_site 5 3 "i" "n" "" false true,
            _error_flush_stdout, GENERATE_TRAP], Flow.trapped⟩
    ∧ ((Idiom.CRASH_BAD_UNSIGNED_INDEX_MSG 5 3 "i" "n" "bad" : Idiom Nat).run sample_site
        false).1
        = ⟨[Call.print_index_error sample_site 5 3 "i" "n" "bad" false true,
            _error_flush_stdout, GENERATE_TRAP], Flow.trapped⟩
    ∧ ((Idiom.ERROR_FAIL_UNSIGNED_INDEX_V_EDMSG 5 3 "i" "n" 42 "bad" : Idiom Nat).run
        sample_site false).1
        = ⟨[Call.print_index_error sample_site 5 3 "i" "n" "bad" true false],
            Flow.retv 42⟩ := by
  refine ⟨rfl, ?_, ?_, ?_, ?_, ?_, ?_, ?_⟩ <;> decide

/-- C26: for every MouseButton that has a same-named MouseButtonMask constant
(LEFT, RIGHT, MIDDLE, MB_XBUTTON1, MB_XBUTTON2), mouse_button_to_mask returns
that constant; and over all buttons other than NONE (values 1..9) the returned
masks have exactly one bit set and are pairwise distinct. -/
theorem C26_mouse_button_masks (file : String) :
    (mouse_button_to_mask file MouseButton.LEFT).returned = some MouseButtonMask.LEFT
    ∧ (mouse_button_to_mask file MouseButton.RIGHT).returned = some MouseButtonMask.RIGHT
    ∧ (mouse_button_to_mask file MouseButton.MIDDLE).returned = some MouseButtonMask.MIDDLE
    ∧ (mouse_button_to_mask file MouseButton.MB_XBUTTON1).returned
        = some MouseButtonMask.MB_XBUTTON1
    ∧ (mouse_button_to_mask file MouseButton.MB_XBUTTON2).returned
        = some MouseButtonMask.MB_XBUTTON2
    ∧ (∀ b : MouseButton, b ≠ MouseButton.NONE →
        1 ≤ b.value ∧ b.value ≤ 9
        ∧ ∃ k : Nat, (mouse_button_to_mask file b).returned = some ⟨2 ^ k⟩)
    ∧ ∀ b1 b2 : MouseButton, b1 ≠ MouseButton.NONE → b2 ≠ MouseButton.NONE →
        (mouse_button_to_mask file b1).returned = (mouse_button_to_mask file b2).returned →
        b1 = b2 := by
  refine ⟨rfl, rfl, rfl, rfl, rfl, ?_, ?_⟩
  · intro b hb
    cases b
    · exact absurd rfl hb
    · exact ⟨by decide, by decide, 0, rfl⟩
    · exact ⟨by decide, by decide, 1, rfl⟩
    · exact ⟨by decide, by decide, 2, rfl⟩
    · exact ⟨by decide, by decide, 3, rfl⟩
    · exact ⟨by decide, by decide, 4, rfl⟩
    · exact ⟨by decide, by decide, 5, rfl⟩
    · exact ⟨by decide, by decide, 6, rfl⟩
    · exact ⟨by decide, by decide, 7, rfl⟩
    · exact ⟨by decide, by decide, 8, rfl⟩
  · intro b1 b2 h1 h2 heq
    have hval : ∀ b : MouseButton, b ≠ MouseButton.NONE →
        (mouse_button_to_mask file b).returned = some ⟨2 ^ (b.value - 1).toNat⟩ := by
      intro b hb
      cases b <;> first | exact absurd rfl hb | rfl
    rw [hval b1 h1, hval b2 h2] at heq
    cases b1 <;> cases b2 <;>
      first
      | rfl
      | exact absurd rfl h1
      | exact absurd rfl h2
      | exact absurd heq (by decide)

theorem C26_mouse_button_masks_witness :
    MouseButton.MB_XBUTTON2 ≠ MouseButton.NONE
    ∧ (mouse_button_to_mask "input_enums.hpp" MouseButton.MB_XBUTTON2).returned
        = some ⟨256⟩
    ∧ ∃ k : Nat, (mouse_button_to_mask "input_enums.hpp" MouseButton.MB_XBUTTON2).returned
        = some ⟨2 ^ k⟩ :=
  ⟨by decide, by decide,
    ((C26_mouse_button_masks "input_enums.hpp").2.2.2.2.2.1 MouseButton.MB_XBUTTON2
      (by decide)).2.2⟩

/-! ## Theorems: bit lengths -/

theorem floor_log2_lt_two (x : Nat) (h : x < 2) : floor_log2 x = x := by
  rw [floor_log2, if_pos h]

theorem floor_log2_ge_two (x : Nat) (h : 2 ≤ x) :
    floor_log2 x = 1 + floor_log2 (x / 2) := by
  rw [floor_log2, if_neg (by omega), Nat.shiftRight_eq_div_pow, Nat.pow_one]

theorem floor_log2_bounds : ∀ x : Nat, 1 ≤ x →
    1 ≤ floor_log2 x ∧ 2 ^ (floor_log2 x - 1) ≤ x ∧ x < 2 ^ floor_log2 x := by
  intro x
  induction x using Nat.strong_induction_on with
  | _ x ih =>
    intro h1
    by_cases h2 : x < 2
    · have hx : x = 1 := by omega
      subst hx
      rw [floor_log2_lt_two 1 (by decide)]
      decide
    · rw [floor_log2_ge_two x (by omega)]
      obtain ⟨hpos, hlo, hhi⟩ := ih (x / 2) (by omega) (by omega)
      obtain ⟨t, ht⟩ : ∃ t, floor_log2 (x / 2) = t + 1 := ⟨floor_log2 (x / 2) - 1, by omega⟩
      rw [ht] at hlo hhi ⊢
      have e1 : 1 + (t + 1) - 1 = t + 1 := by omega
      have e2 : 1 + (t + 1) = t + 1 + 1 := by omega
      rw [e1]
      rw [Nat.add_sub_cancel] at hlo
      refine ⟨by omega, ?_, ?_⟩
      · rw [Nat.pow_succ]
        omega
      · have e3 : 2 ^ (t + 1 + 1) = 2 ^ (t + 1) * 2 := Nat.pow_succ 2 (t + 1)
        rw [e2, e3]
        omega

theorem floor_log2_eq_size (x : Nat) : floor_log2 x = Nat.size x := by
  by_cases h0 : x = 0
  · subst h0
    rw [floor_log2_lt_two 0 (by decide)]
    exact Nat.size_zero.symm
  · obtain ⟨hpos, hlo, hhi⟩ := floor_log2_bounds x (by omega)
    have h1 : Nat.size x ≤ floor_log2 x := Nat.size_le.mpr hhi
    have h2 : floor_log2 x - 1 < Nat.size x := Nat.lt_size.mpr hlo
    omega

theorem floor_log2_within_of_depth : ∀ (depth x : Nat), Nat.size x < depth →
    floor_log2_within depth x = some (floor_log2 x)
  | 0, _, h => by omega
  | depth + 1, x, h => by
    by_cases h2 : x < 2
    · rw [floor_log2_within, if_pos h2, floor_log2_lt_two x h2]
    · have hs : Nat.size (x / 2) < depth := by
        have := floor_log2_ge_two x (by omega)
        rw [floor_log2_eq_size, floor_log2_eq_size] at this
        omega
      rw [floor_log2_within, if_neg h2, Nat.shiftRight_eq_div_pow, Nat.pow_one,
        floor_log2_within_of_depth depth (x / 2) hs, floor_log2_ge_two x (by omega)]
      rfl

theorem floor_log2_unique (x n : Nat) (h1 : 1 ≤ n) (hlo : 2 ^ (n - 1) ≤ x) (hhi : x < 2 ^ n) :
    n = floor_log2 x := by
  rw [floor_log2_eq_size]
  have h2 : Nat.size x ≤ n := Nat.size_le.mpr hhi
  have h3 : n - 1 < Nat.size x := Nat.lt_size.mpr hlo
  omega

/-- C32: for every unsigned integer x the recursion of floor_log2 terminates
(within x + 1 nested calls, and within any depth above the result), and
get_num_bits(x) is the number of bits needed to represent x: 0 for x = 0, and
otherwise the unique n with 2^(n-1) <= x < 2^n. -/
theorem C32_get_num_bits_is_bit_length (x : Nat) :
    floor_log2_within (x + 1) x = some (get_num_bits x)
    ∧ (∀ depth, get_num_bits x < depth →
        floor_log2_within depth x = some (get_num_bits x))
    ∧ get_num_bits 0 = 0
    ∧ (1 ≤ x →
        1 ≤ get_num_bits x ∧ 2 ^ (get_num_bits x - 1) ≤ x ∧ x < 2 ^ get_num_bits x)
    ∧ ∀ n, 1 ≤ n → 2 ^ (n - 1) ≤ x → x < 2 ^ n → n = get_num_bits x := by
  have hsize : Nat.size x < x + 1 := by
    have : Nat.size x ≤ x := Nat.size_le.mpr (Nat.lt_two_pow x)
    omega
  refine ⟨floor_log2_within_of_depth (x + 1) x hsize, ?_, floor_log2_lt_two 0 (by decide),
    floor_log2_bounds x, fun n h1 hlo hhi => floor_log2_unique x n h1 hlo hhi⟩
  intro depth hd
  exact floor_log2_within_of_depth depth x (by
    have := floor_log2_eq_size x
    unfold get_num_bits at hd
    omega)

theorem C32_get_num_bits_is_bit_length_witness :
    (1 : Nat) ≤ 5 ∧ get_num_bits 5 = 3 ∧ floor_log2_within 4 5 = some 3
    ∧ 2 ^ (get_num_bits 5 - 1) ≤ 5 ∧ 5 < 2 ^ get_num_bits 5 :=
  ⟨by decide, by simp [get_num_bits, floor_log2], by decide,
    ((C32_get_num_bits_is_bit_length 5).2.2.2.1 (by decide)).2⟩

/-- C33, as stated, fails: floor_log2(8) = 4 although 2^3 <= 8 < 2^4, and
floor_log2(1) = 1 although 2^0 <= 1 < 2^1; the result k does not satisfy
2^k <= x. -/
theorem C33_floor_log2_of_eight_is_four :
    floor_log2 8 = 4 ∧ ¬ (2 ^ floor_log2 8 ≤ 8 ∧ 8 < 2 ^ (floor_log2 8 + 1))
    ∧ floor_log2 1 = 1 ∧ ¬ (2 ^ floor_log2 1 ≤ 1 ∧ 1 < 2 ^ (floor_log2 1 + 1)) := by
  have h8 : floor_log2 8 = 4 := by simp [floor_log2]
  have h1 : floor_log2 1 = 1 := by simp [floor_log2]
  rw [h8, h1]
  decide

/-- C33 (amended): for every unsigned integer x >= 1, floor_log2(x) is k + 1
for the unique k with 2^k <= x < 2^(k+1): one more than the floor of the
base-2 logarithm, the number of bits of x. -/
theorem C33_floor_log2_is_floor_plus_one (x : Nat) (h : 1 ≤ x) :
    (∃ k, 2 ^ k ≤ x ∧ x < 2 ^ (k + 1) ∧ floor_log2 x = k + 1)
    ∧ (∀ k, 2 ^ k ≤ x → x < 2 ^ (k + 1) → floor_log2 x = k + 1)
    ∧ floor_log2 x = Nat.log 2 x + 1
    ∧ floor_log2 x = get_num_bits x := by
  obtain ⟨hpos, hlo, hhi⟩ := floor_log2_bounds x h
  obtain ⟨t, ht⟩ : ∃ t, floor_log2 x = t + 1 := ⟨floor_log2 x - 1, by omega⟩
  rw [ht] at hlo hhi
  rw [Nat.add_sub_cancel] at hlo
  have huniq : ∀ k, 2 ^ k ≤ x → x < 2 ^ (k + 1) → floor_log2 x = k + 1 := by
    intro k hk1 hk2
    exact (floor_log2_unique x (k + 1) (by omega) (by rwa [Nat.add_sub_cancel]) hk2).symm
  refine ⟨⟨t, hlo, hhi, ht⟩, huniq, ?_, rfl⟩
  rw [ht, Nat.log_eq_of_pow_le_of_lt_pow hlo hhi]

theorem C33_floor_log2_is_floor_plus_one_witness :
    (1 : Nat) ≤ 8 ∧ floor_log2 8 = 4 ∧ floor_log2 8 = Nat.log 2 8 + 1 :=
  ⟨by decide, by simp [floor_log2],
    (C33_floor_log2_is_floor_plus_one 8 (by decide)).2.2.1⟩

theorem land_one_shiftLeft_ne_zero (n i : Nat) :
    (n &&& (1 <<< i) != 0) = n.testBit i := by
  rw [Nat.one_shiftLeft]
  by_cases h : n.testBit i = true
  · rw [h]
    have hb : (n &&& 2 ^ i).testBit i = true := by
      rw [Nat.testBit_and, h, Nat.testBit_two_pow_self]
      rfl
    have hne : n &&& 2 ^ i ≠ 0 := by
      intro h0
      rw [h0, Nat.zero_testBit] at hb
      exact Bool.noConfusion hb
    simpa using hne
  · have hf : n.testBit i = false := by simpa using h
    rw [hf]
    have h0 : n &&& 2 ^ i = 0 := by
      apply Nat.eq_of_testBit_eq
      intro j
      rw [Nat.testBit_and, Nat.zero_testBit, Nat.testBit_two_pow]
      by_cases hij : i = j
      · subst hij
        simp [hf]
      · simp [hij]
    simp [h0]

theorem highest_bit_scan : ∀ (m n : Nat),
    (match (List.range m).reverse.find? (fun i => n &&& (1 <<< i) != 0) with
      | some i => i + 1
      | none => 0) = Nat.size (n % 2 ^ m)
  | 0, n => by
    simp [Nat.mod_one]
  | m + 1, n => by
    have ih := highest_bit_scan m n
    have hsplit : n % 2 ^ (m + 1) = n % 2 ^ m + 2 ^ m * (n / 2 ^ m % 2) := Nat.mod_pow_succ
    have hlt : n % 2 ^ m < 2 ^ m := Nat.mod_lt _ (Nat.two_pow_pos m)
    have hpow : 2 ^ (m + 1) = 2 ^ m * 2 := Nat.pow_succ 2 m
    rw [List.range_succ, List.reverse_append, List.reverse_singleton, List.singleton_append,
      List.find?_cons, land_one_shiftLeft_ne_zero]
    by_cases hb : n.testBit m = true
    · rw [hb]
      have hd : n / 2 ^ m % 2 = 1 := by
        rw [Nat.testBit_to_div_mod] at hb
        simpa using hb
      rw [hd, Nat.mul_one] at hsplit
      have h1 : Nat.size (n % 2 ^ (m + 1)) ≤ m + 1 :=
        Nat.size_le.mpr (Nat.mod_lt _ (Nat.two_pow_pos (m + 1)))
      have h2 : m < Nat.size (n % 2 ^ (m + 1)) := Nat.lt_size.mpr (by omega)
      show m + 1 = _
      omega
    · have hf : n.testBit m = false := by simpa using hb
      have hd : n / 2 ^ m % 2 = 0 := by
        rw [Nat.testBit_to_div_mod] at hf
        have := Nat.mod_two_eq_zero_or_one (n / 2 ^ m)
        rcases this with h | h
        · exact h
        · simp [h] at hf
      rw [hd, Nat.mul_zero, Nat.add_zero] at hsplit
      rw [hf, hsplit]
      exact ih

theorem nearest_shift_eq_size (n : Nat) : nearest_shift n = Nat.size (n % 2 ^ 31) :=
  highest_bit_scan 31 n

/-- C31, as stated, fails: nearest_shift(2^31) = 0, while the bit length of
2^31 is 32 = get_num_bits(2^31); the loop starts at bit 30. -/
theorem C31_nearest_shift_misses_bit_31 :
    nearest_shift 2147483648 = 0
    ∧ ¬ (2147483648 < 2 ^ nearest_shift 2147483648)
    ∧ get_num_bits 2147483648 = 32
    ∧ nearest_shift 2147483648 ≠ get_num_bits 2147483648 := by
  have h0 : nearest_shift 2147483648 = 0 := by decide
  have h32 : get_num_bits 2147483648 = 32 :=
    (floor_log2_unique 2147483648 32 (by decide) (by decide) (by decide)).symm
  rw [h0, h32]
  decide

/-- C31 (amended): for every unsigned 32-bit n below 2^31, nearest_shift(n) is
the bit length of n, i.e. the least s with n < 2^s (0 for n = 0), and therefore
equals get_num_bits(n). -/
theorem C31_nearest_shift_is_bit_length_below_2_pow_31 (n : Nat) (h : n < 2 ^ 31) :
    n < 2 ^ nearest_shift n
    ∧ (∀ s, n < 2 ^ s → nearest_shift n ≤ s)
    ∧ nearest_shift 0 = 0
    ∧ nearest_shift n = get_num_bits n := by
  have hval : nearest_shift n = Nat.size n := by
    rw [nearest_shift_eq_size, Nat.mod_eq_of_lt h]
  refine ⟨?_, ?_, by decide, ?_⟩
  · rw [hval]
    exact Nat.lt_size_self n
  · intro s hs
    rw [hval]
    exact Nat.size_le.mpr hs
  · rw [hval]
    exact (floor_log2_eq_size n).symm

theorem C31_nearest_shift_is_bit_length_below_2_pow_31_witness :
    2147483647 < 2 ^ 31 ∧ nearest_shift 2147483647 = 31
    ∧ nearest_shift 2147483647 = get_num_bits 2147483647 :=
  ⟨by decide, by decide,
    (C31_nearest_shift_is_bit_length_below_2_pow_31 2147483647 (by decide)).2.2.2⟩

/-! ## Theorems: get_shift_from_power_of_2 and is_power_of_2 -/

theorem get_shift_from_power_of_2_of_pow (i : Nat) (h : i < 32) :
    get_shift_from_power_of_2 (2 ^ i) = i := by
  interval_cases i <;> decide

theorem get_shift_from_power_of_2_cases (p : Nat) :
    (∃ i : Nat, i < 32 ∧ p = 2 ^ i ∧ get_shift_from_power_of_2 p = i)
    ∨ ((∀ i : Nat, i < 32 → p ≠ 2 ^ i) ∧ get_shift_from_power_of_2 p = -1) := by
  have hmod : ∀ i : Nat, i < 32 → (1 <<< i) % 2 ^ 32 = 2 ^ i := by
    intro i hi
    rw [Nat.one_shiftLeft]
    exact Nat.mod_eq_of_lt (Nat.pow_lt_pow_right (by decide) hi)
  cases hfind : (List.range 32).find? (fun i => p == (1 <<< i) % 2 ^ 32) with
  | some i =>
    left
    have hmem : i ∈ List.range 32 := List.mem_of_find?_eq_some hfind
    have hi : i < 32 := List.mem_range.mp hmem
    have hp0 := List.find?_some hfind
    have hp : (p == (1 <<< i) % 2 ^ 32) = true := hp0
    rw [hmod i hi] at hp
    have hpe : p = 2 ^ i := by simpa using hp
    refine ⟨i, hi, hpe, ?_⟩
    unfold get_shift_from_power_of_2
    rw [hfind]
  | none =>
    right
    have hall := List.find?_eq_none.mp hfind
    refine ⟨?_, ?_⟩
    · intro i hi hpe
      have := hall i (List.mem_range.mpr hi)
      rw [hmod i hi] at this
      simp [hpe] at this
    · unfold get_shift_from_power_of_2
      rw [hfind]

theorem testBit_of_between (y k : Nat) (h1 : 2 ^ k ≤ y) (h2 : y < 2 ^ (k + 1)) :
    y.testBit k = true := by
  rw [Nat.testBit_to_div_mod]
  have hpos : 0 < 2 ^ k := Nat.two_pow_pos k
  have hpow : 2 ^ (k + 1) = 2 ^ k * 2 := Nat.pow_succ 2 k
  have hlo : 1 ≤ y / 2 ^ k := (Nat.le_div_iff_mul_le hpos).mpr (by omega)
  have hhi : y / 2 ^ k < 2 := (Nat.div_lt_iff_lt_mul hpos).mpr (by omega)
  have : y / 2 ^ k = 1 := by omega
  rw [this]
  rfl

theorem is_power_of_2_iff (p : Nat) (h : p < 2 ^ 32) :
    is_power_of_2 p = true ↔ ∃ i : Nat, i < 32 ∧ p = 2 ^ i := by
  constructor
  · intro hp
    unfold is_power_of_2 at hp
    simp only [Bool.and_eq_true, bne_iff_ne, ne_eq, beq_iff_eq] at hp
    obtain ⟨hne, hand⟩ := hp
    have hsub : uint32_sub p 1 = p - 1 := by
      unfold uint32_sub
      omega
    rw [hsub] at hand
    have hs : 0 < Nat.size p := Nat.size_pos.mpr (by omega)
    have hs32 : Nat.size p ≤ 32 := Nat.size_le.mpr h
    obtain ⟨k, hk⟩ : ∃ k, Nat.size p = k + 1 := ⟨Nat.size p - 1, by omega⟩
    have hlo : 2 ^ k ≤ p := Nat.lt_size.mp (by omega)
    have hhi : p < 2 ^ (k + 1) := by
      rw [← hk]
      exact Nat.lt_size_self p
    refine ⟨k, by omega, ?_⟩
    by_contra hpk
    have hb1 := testBit_of_between p k hlo hhi
    have hb2 := testBit_of_between (p - 1) k (by omega) (by omega)
    have hb : (p &&& (p - 1)).testBit k = true := by
      rw [Nat.testBit_and, hb1, hb2]
      rfl
    rw [hand, Nat.zero_testBit] at hb
    exact Bool.noConfusion hb
  · rintro ⟨i, hi, rfl⟩
    interval_cases i <;> decide

/-- C34: for every unsigned 32-bit p, get_shift_from_power_of_2(p) returns i
when p = 2^i for some 0 <= i <= 31 and returns -1 otherwise; equivalently the
result is different from -1 if and only if is_power_of_2(p), and in that case
2^result = p. -/
theorem C34_get_shift_from_power_of_2 (p : Nat) (h : p < 2 ^ 32) :
    (∀ i : Nat, i ≤ 31 → p = 2 ^ i → get_shift_from_power_of_2 p = i)
    ∧ ((¬ ∃ i : Nat, i ≤ 31 ∧ p = 2 ^ i) → get_shift_from_power_of_2 p = -1)
    ∧ (get_shift_from_power_of_2 p ≠ -1 ↔ is_power_of_2 p = true)
    ∧ (get_shift_from_power_of_2 p ≠ -1 →
        0 ≤ get_shift_from_power_of_2 p ∧ get_shift_from_power_of_2 p ≤ 31
        ∧ 2 ^ (get_shift_from_power_of_2 p).toNat = p) := by
  have hiff := is_power_of_2_iff p h
  refine ⟨?_, ?_, ?_, ?_⟩
  · intro i hi hp
    rw [hp]
    exact get_shift_from_power_of_2_of_pow i (by omega)
  · intro hno
    rcases get_shift_from_power_of_2_cases p with ⟨i, hi, hp, _⟩ | ⟨_, hres⟩
    · exact absurd ⟨i, by omega, hp⟩ hno
    · exact hres
  · rcases get_shift_from_power_of_2_cases p with ⟨i, hi, hp, hres⟩ | ⟨hno, hres⟩
    · rw [hres]
      constructor
      · intro _
        exact hiff.mpr ⟨i, hi, hp⟩
      · intro _
        omega
    · rw [hres]
      constructor
      · intro hne
        exact absurd rfl hne
      · intro hpow
        obtain ⟨i, hi, hp⟩ := hiff.mp hpow
        exact absurd hp (hno i hi)
  · intro hne
    rcases get_shift_from_power_of_2_cases p with ⟨i, hi, hp, hres⟩ | ⟨_, hres⟩
    · rw [hres]
      refine ⟨by omega, by omega, ?_⟩
      rw [Int.toNat_ofNat]
      exact hp.symm
    · exact absurd hres hne

theorem C34_get_shift_from_power_of_2_witness :
    2147483648 < 2 ^ 32 ∧ get_shift_from_power_of_2 2147483648 = 31
    ∧ is_power_of_2 2147483648 = true
    ∧ get_shift_from_power_of_2 12 = -1 ∧ is_power_of_2 12 = false
    ∧ (get_shift_from_power_of_2 2147483648 ≠ -1 ↔ is_power_of_2 2147483648 = true) :=
  ⟨by decide, by decide, by decide, by decide, by decide,
    (C34_get_shift_from_power_of_2 2147483648 (by decide)).2.2.1⟩

/-! ## Theorems: CLAMP -/

/-- C35: for all integers a, lo, hi of one type with lo <= hi:
lo <= CLAMP(a, lo, hi) <= hi, CLAMP(a, lo, hi) = a exactly when lo <= a <= hi,
and CLAMP(a, lo, hi) = MAX(lo, MIN(a, hi)); consequently CLAMP is idempotent
in its first argument. -/
theorem C35_CLAMP (a lo hi : Int) (h : lo ≤ hi) :
    lo ≤ CLAMP a lo hi
    ∧ CLAMP a lo hi ≤ hi
    ∧ (CLAMP a lo hi = a ↔ lo ≤ a ∧ a ≤ hi)
    ∧ CLAMP a lo hi = MAX lo (MIN a hi)
    ∧ CLAMP (CLAMP a lo hi) lo hi = CLAMP a lo hi := by
  unfold CLAMP MAX MIN
  refine ⟨?_, ?_, ?_, ?_, ?_⟩
  · split_ifs <;> omega
  · split_ifs <;> omega
  · split_ifs <;> omega
  · split_ifs <;> omega
  · split_ifs <;> omega

theorem C35_CLAMP_witness :
    (-2 : Int) ≤ 7 ∧ CLAMP 9 (-2) 7 = 7 ∧ CLAMP (-5) (-2) 7 = -2 ∧ CLAMP 3 (-2) 7 = 3
    ∧ CLAMP 9 (-2) 7 = MAX (-2) (MIN 9 7) :=
  ⟨by decide, by decide, by decide, by decide, (C35_CLAMP 9 (-2) 7 (by decide)).2.2.2.1⟩

/-! ## Theorems: byte swaps -/

theorem testBit_of_lt_two_pow (x w j : Nat) (hx : x < 2 ^ w) (hj : w ≤ j) :
    x.testBit j = false :=
  Nat.testBit_lt_two_pow (Nat.lt_of_lt_of_le hx (Nat.pow_le_pow_right (by decide) hj))

theorem byte_of_testBit (x i t : Nat) :
    (byte_of x i).testBit t = (decide (t < 8) && x.testBit (8 * i + t)) := by
  unfold byte_of
  have h256 : 256 = 2 ^ 8 := by decide
  rw [h256, Nat.testBit_mod_two_pow, Nat.testBit_shiftRight]

theorem mask_00FF0000_testBit (j : Nat) :
    Nat.testBit 0x00FF0000 j = decide (16 ≤ j ∧ j < 24) := by
  by_cases hj : j < 24
  · interval_cases j <;> decide
  · rw [testBit_of_lt_two_pow 0x00FF0000 24 j (by decide) (by omega)]
    simp [hj]

theorem mask_0000FF00_testBit (j : Nat) :
    Nat.testBit 0x0000FF00 j = decide (8 ≤ j ∧ j < 16) := by
  by_cases hj : j < 16
  · interval_cases j <;> decide
  · rw [testBit_of_lt_two_pow 0x0000FF00 16 j (by decide) (by omega)]
    simp [hj]

theorem BSWAP16_testBit (x j : Nat) (hx : x < 2 ^ 16) :
    (BSWAP16 x).testBit j = (decide (j < 16) && x.testBit (8 * (1 - j / 8) + j % 8)) := by
  unfold BSWAP16
  rw [Nat.testBit_mod_two_pow, Nat.testBit_or, Nat.testBit_shiftRight, Nat.testBit_shiftLeft]
  by_cases hj : j < 16
  · have hhigh : ∀ k, 16 ≤ k → x.testBit k = false :=
      fun k hk => testBit_of_lt_two_pow x 16 k hx hk
    interval_cases j <;> simp [hhigh]
  · simp [hj]

theorem BSWAP32_testBit (x j : Nat) (hx : x < 2 ^ 32) :
    (BSWAP32 x).testBit j = (decide (j < 32) && x.testBit (8 * (3 - j / 8) + j % 8)) := by
  unfold BSWAP32
  have hhigh : ∀ k, 32 ≤ k → x.testBit k = false :=
    fun k hk => testBit_of_lt_two_pow x 32 k hx hk
  simp only [Nat.testBit_or, Nat.testBit_and, Nat.testBit_mod_two_pow, Nat.testBit_shiftRight,
    Nat.testBit_shiftLeft, mask_00FF0000_testBit, mask_0000FF00_testBit]
  by_cases hj : j < 32
  · interval_cases j <;> simp [hhigh]
  · have h1 : x.testBit (24 + j) = false := hhigh _ (by omega)
    have h2 : 16 ≤ j := by omega
    have h3 : 24 ≤ j := by omega
    simp [hj, h1, h2, h3]

theorem mask_00000000FFFFFFFF_testBit (j : Nat) :
    Nat.testBit 0x00000000FFFFFFFF j = decide (j < 32) := by
  by_cases hj : j < 32
  · interval_cases j <;> decide
  · rw [testBit_of_lt_two_pow 0x00000000FFFFFFFF 32 j (by decide) (by omega)]
    simp [hj]

theorem mask_FFFFFFFF00000000_testBit (j : Nat) :
    Nat.testBit 0xFFFFFFFF00000000 j = decide (32 ≤ j ∧ j < 64) := by
  by_cases hj : j < 64
  · interval_cases j <;> decide
  · rw [testBit_of_lt_two_pow 0xFFFFFFFF00000000 64 j (by decide) (by omega)]
    simp [hj]

theorem mask_0000FFFF0000FFFF_testBit (j : Nat) :
    Nat.testBit 0x0000FFFF0000FFFF j = decide (j < 64 ∧ j % 32 < 16) := by
  by_cases hj : j < 64
  · interval_cases j <;> decide
  · rw [testBit_of_lt_two_pow 0x0000FFFF0000FFFF 64 j (by decide) (by omega)]
    simp [hj]

theorem mask_FFFF0000FFFF0000_testBit (j : Nat) :
    Nat.testBit 0xFFFF0000FFFF0000 j = decide (j < 64 ∧ 16 ≤ j % 32) := by
  by_cases hj : j < 64
  · interval_cases j <;> decide
  · rw [testBit_of_lt_two_pow 0xFFFF0000FFFF0000 64 j (by decide) (by omega)]
    simp [hj]

theorem mask_00FF00FF00FF00FF_testBit (j : Nat) :
    Nat.testBit 0x00FF00FF00FF00FF j = decide (j < 64 ∧ j % 16 < 8) := by
  by_cases hj : j < 64
  · interval_cases j <;> decide
  · rw [testBit_of_lt_two_pow 0x00FF00FF00FF00FF 64 j (by decide) (by omega)]
    simp [hj]

theorem mask_FF00FF00FF00FF00_testBit (j : Nat) :
    Nat.testBit 0xFF00FF00FF00FF00 j = decide (j < 64 ∧ 8 ≤ j % 16) := by
  by_cases hj : j < 64
  · interval_cases j <;> decide
  · rw [testBit_of_lt_two_pow 0xFF00FF00FF00FF00 64 j (by decide) (by omega)]
    simp [hj]

theorem BSWAP64_testBit (x j : Nat) :
    (BSWAP64 x).testBit j = (decide (j < 64) && x.testBit (8 * (7 - j / 8) + j % 8)) := by
  unfold BSWAP64
  simp only [Nat.testBit_or, Nat.testBit_and, Nat.testBit_mod_two_pow, Nat.testBit_shiftRight,
    Nat.testBit_shiftLeft, mask_00000000FFFFFFFF_testBit, mask_FFFFFFFF00000000_testBit,
    mask_0000FFFF0000FFFF_testBit, mask_FFFF0000FFFF0000_testBit,
    mask_00FF00FF00FF00FF_testBit, mask_FF00FF00FF00FF00_testBit]
  by_cases hj : j < 64
  · interval_cases j <;> simp
  · have h1 : ¬ (8 + j < 64) := by omega
    simp [hj, h1]

theorem byte_swap_properties (w8 : Nat) (f : Nat → Nat) (x : Nat) (hx : x < 2 ^ (8 * w8))
    (hbit : ∀ y j, y < 2 ^ (8 * w8) →
      (f y).testBit j
        = (decide (j < 8 * w8) && y.testBit (8 * (w8 - 1 - j / 8) + j % 8))) :
    f x < 2 ^ (8 * w8)
    ∧ (∀ i, i < w8 → byte_of (f x) i = byte_of x (w8 - 1 - i))
    ∧ f (f x) = x := by
  have hlt : ∀ y, y < 2 ^ (8 * w8) → f y < 2 ^ (8 * w8) := by
    intro y hy
    apply Nat.lt_pow_two_of_testBit
    intro j hj
    rw [hbit y j hy]
    have : ¬ j < 8 * w8 := by omega
    simp [this]
  refine ⟨hlt x hx, ?_, ?_⟩
  · intro i hi
    apply Nat.eq_of_testBit_eq
    intro t
    rw [byte_of_testBit, byte_of_testBit, hbit x _ hx]
    by_cases ht : t < 8
    · have h1 : (8 * i + t) / 8 = i := by omega
      have h2 : (8 * i + t) % 8 = t := by omega
      have h3 : 8 * i + t < 8 * w8 := by omega
      rw [h1, h2]
      simp [ht, h3]
    · simp [ht]
  · apply Nat.eq_of_testBit_eq
    intro j
    rw [hbit (f x) j (hlt x hx), hbit x _ hx]
    by_cases hj : j < 8 * w8
    · have hq : j / 8 < w8 := by omega
      have h1 : (8 * (w8 - 1 - j / 8) + j % 8) / 8 = w8 - 1 - j / 8 := by omega
      have h2 : (8 * (w8 - 1 - j / 8) + j % 8) % 8 = j % 8 := by omega
      have h3 : 8 * (w8 - 1 - j / 8) + j % 8 < 8 * w8 := by omega
      have h4 : 8 * (w8 - 1 - (w8 - 1 - j / 8)) + j % 8 = j := by omega
      rw [h1, h2, h4]
      simp [hj, h3]
    · have : x.testBit j = false := testBit_of_lt_two_pow x (8 * w8) j hx (by omega)
      simp [hj, this]

/-- C36: each portable fallback byte swap reverses the byte order of its
argument: for w in {16, 32, 64} and every w-bit x, byte i of BSWAPw(x) equals
byte (w/8 - 1 - i) of x (and BSWAPw(x) is again a w-bit value); consequently
BSWAPw(BSWAPw(x)) = x. -/
theorem C36_byte_swaps_reverse_byte_order (x : Nat) :
    (x < 2 ^ 16 →
      BSWAP16 x < 2 ^ 16
      ∧ (∀ i, i < 2 → byte_of (BSWAP16 x) i = byte_of x (2 - 1 - i))
      ∧ BSWAP16 (BSWAP16 x) = x)
    ∧ (x < 2 ^ 32 →
      BSWAP32 x < 2 ^ 32
      ∧ (∀ i, i < 4 → byte_of (BSWAP32 x) i = byte_of x (4 - 1 - i))
      ∧ BSWAP32 (BSWAP32 x) = x)
    ∧ (x < 2 ^ 64 →
      BSWAP64 x < 2 ^ 64
      ∧ (∀ i, i < 8 → byte_of (BSWAP64 x) i = byte_of x (8 - 1 - i))
      ∧ BSWAP64 (BSWAP64 x) = x) := by
  refine ⟨?_, ?_, ?_⟩
  · intro hx
    exact byte_swap_properties 2 BSWAP16 x hx (fun y j hy => BSWAP16_testBit y j hy)
  · intro hx
    exact byte_swap_properties 4 BSWAP32 x hx (fun y j hy => BSWAP32_testBit y j hy)
  · intro hx
    exact byte_swap_properties 8 BSWAP64 x hx (fun y j _ => BSWAP64_testBit y j)

theorem C36_byte_swaps_reverse_byte_order_witness :
    0x1234 < 2 ^ 16 ∧ 0x12345678 < 2 ^ 32 ∧ 0x0123456789ABCDEF < 2 ^ 64
    ∧ BSWAP16 0x1234 = 0x3412
    ∧ BSWAP32 0x12345678 = 0x78563412
    ∧ BSWAP64 0x0123456789ABCDEF = 0xEFCDAB8967452301
    ∧ BSWAP16 (BSWAP16 0x1234) = 0x1234
    ∧ BSWAP32 (BSWAP32 0x12345678) = 0x12345678
    ∧ BSWAP64 (BSWAP64 0x0123456789ABCDEF) = 0x0123456789ABCDEF :=
  ⟨by decide, by decide, by decide, by decide, by decide, by decide,
    ((C36_byte_swaps_reverse_byte_order 0x1234).1 (by decide)).2.2,
    ((C36_byte_swaps_reverse_byte_order 0x12345678).2.1 (by decide)).2.2,
    ((C36_byte_swaps_reverse_byte_order 0x0123456789ABCDEF).2.2 (by decide)).2.2⟩

end Engine
